import Mathlib

/-!
# OV5642 sensor driver (`sensors/ov5642.c`): a shallow embedding

The driver talks to the sensor over the SCCB two-wire bus.  The embedding keeps

* C `int` values as `Int`; values of the unsigned types `uint8_t` and `uint16_t`
  are integers reduced with `u8` and `u16` at the places where C converts;
* the bus as a response function of the transactions issued so far, together
  with the log of these transactions;
* the sensor handle `sensor_t` as a record that is passed through every call.
-/

namespace OV5642

/-! ## C integers -/

/-- Largest value of a C `int` (32 bit). -/
def INT_MAX : Int := 2147483647

/-- Smallest value of a C `int` (32 bit). -/
def INT_MIN : Int := -2147483648

/-- The integer is representable as a C `int`. -/
def in_int (x : Int) : Prop := INT_MIN ≤ x ∧ x ≤ INT_MAX

instance (x : Int) : Decidable (in_int x) := by
  unfold in_int; exact inferInstance

/-- Product of two `int`s; a result outside the `int` range is undefined behaviour (`none`). -/
def c_mul (a b : Int) : Option Int :=
  if in_int (a * b) then some (a * b) else none

/-- Quotient of two `int`s, truncated toward zero; division by zero and `INT_MIN / -1`
are undefined behaviour (`none`). -/
def c_div (a b : Int) : Option Int :=
  if b = 0 ∨ (a = INT_MIN ∧ b = -1) then none else some (Int.tdiv a b)

/-- Element `i` of a C array given as a list; an index outside the array is undefined
behaviour (`none`). -/
def c_index (arr : List Int) (i : Int) : Option Int :=
  if 0 ≤ i then arr[i.toNat]? else none

/-- Conversion to `uint8_t`. -/
def u8 (x : Int) : Int := x % 256

/-- Conversion to `uint16_t`. -/
def u16 (x : Int) : Int := x % 65536

/-- Left shift `a << n` of a non-negative `int` whose result fits. -/
def shl (a : Int) (n : Nat) : Int := a * 2 ^ n

/-- Right shift `a >> n` of an `int`. -/
def shr (a : Int) (n : Nat) : Int := a / 2 ^ n

/-! ## Clock model -/

/-- The four clocks that `ov5642_calc_sysclk` computes (its local variables). -/
structure sysclk_t where
  VCO : Int
  PLLCLK : Int
  PCLK : Int
  SYSCLK : Int
  deriving DecidableEq, Repr

/-- Local table `pll_pre_div2x_map` of `ov5642_calc_sysclk`. -/
def pll_pre_div2x_map : List Int := [2, 3, 4, 5, 6, 8, 12, 16]

/-- Local table `pll_seld52x_map` of `ov5642_calc_sysclk`. -/
def pll_seld52x_map : List Int := [2, 2, 4, 5]

/-- Body of `ov5642_calc_sysclk`, returning all four local clock values. -/
def calc_clocks (xclk : Int) (pll_bypass : Bool) (pll_multiplier pll_sys_div pll_pre_div : Int)
    (pll_root_2x : Bool) (pll_seld5 : Int) (pclk_manual : Bool) (pclk_div : Int) :
    Option sysclk_t := do
  let pll_sys_div := if pll_sys_div = 0 then 1 else pll_sys_div
  let pll_pre_div2x ← c_index pll_pre_div2x_map pll_pre_div
  let pll_root_div : Int := if pll_root_2x then 2 else 1
  let pll_seld52x ← c_index pll_seld52x_map pll_seld5
  -- int VCO = (xclk / 1000) * pll_multiplier * pll_root_div * 2 / pll_pre_div2x;
  let t ← c_div xclk 1000
  let t ← c_mul t pll_multiplier
  let t ← c_mul t pll_root_div
  let t ← c_mul t 2
  let VCO ← c_div t pll_pre_div2x
  -- int PLLCLK = pll_bypass ? (xclk) : (VCO * 1000 * 2 / pll_sys_div / pll_seld52x);
  let PLLCLK ←
    if pll_bypass then some xclk
    else do
      let u ← c_mul VCO 1000
      let u ← c_mul u 2
      let u ← c_div u pll_sys_div
      c_div u pll_seld52x
  -- int PCLK = PLLCLK / 2 / ((pclk_manual && pclk_div) ? pclk_div : 1);
  let p ← c_div PLLCLK 2
  let PCLK ← c_div p (if pclk_manual && decide (pclk_div ≠ 0) then pclk_div else 1)
  -- int SYSCLK = PLLCLK / 4;
  let SYSCLK ← c_div PLLCLK 4
  pure { VCO := VCO, PLLCLK := PLLCLK, PCLK := PCLK, SYSCLK := SYSCLK }

/-- The function `ov5642_calc_sysclk`: the value it returns is `SYSCLK`. -/
def ov5642_calc_sysclk (xclk : Int) (pll_bypass : Bool)
    (pll_multiplier pll_sys_div pll_pre_div : Int) (pll_root_2x : Bool) (pll_seld5 : Int)
    (pclk_manual : Bool) (pclk_div : Int) : Option Int :=
  (calc_clocks xclk pll_bypass pll_multiplier pll_sys_div pll_pre_div pll_root_2x pll_seld5
    pclk_manual pclk_div).map sysclk_t.SYSCLK

/-! ## Bus model -/

/-- One transaction on the SCCB bus, as seen by the bus driver: `SCCB_Read16 (slv_addr, reg)`
or `SCCB_Write16 (slv_addr, reg, value)`. -/
inductive BusOp where
  | read (slv_addr reg : Int)
  | write (slv_addr reg value : Int)
  deriving DecidableEq, Repr

/-- Modelled from the spec: the bus driver `sccb.c` is not among the sources
(`read(addr, reg) → byte | Err`, `write(addr, reg, byte) → Err?`).  The value that a
transaction returns may depend on all transactions issued before it, which are the first
argument.  A read fails when it returns a negative value, a write when it returns a value
other than zero. -/
structure SCCB where
  SCCB_Read16 : List BusOp → Int → Int → Int
  SCCB_Write16 : List BusOp → Int → Int → Int → Int

/-- A bus call of the driver: from the log of the transactions issued so far to the `int`
it returns and the extended log. -/
abbrev Act := List BusOp → Int × List BusOp

/-- The C expression `a || b` on two bus calls: `b` runs only when `a` returned zero, and
the value is 0 or 1. -/
def c_or (a b : Act) : Act := fun log =>
  let r := a log
  if r.1 ≠ 0 then (1, r.2)
  else
    let r2 := b r.2
    (if r2.1 ≠ 0 then 1 else 0, r2.2)

/-- The function `read_reg` (without `REG_DEBUG_ON`). -/
def read_reg (bus : SCCB) (slv_addr reg : Int) : Act := fun log =>
  (bus.SCCB_Read16 log slv_addr (u16 reg), log ++ [BusOp.read slv_addr (u16 reg)])

/-- The function `write_reg` (without `REG_DEBUG_ON`). -/
def write_reg (bus : SCCB) (slv_addr reg value : Int) : Act := fun log =>
  (bus.SCCB_Write16 log slv_addr (u16 reg) (u8 value),
    log ++ [BusOp.write slv_addr (u16 reg) (u8 value)])

/-- The function `set_reg_bits`. -/
def set_reg_bits (bus : SCCB) (slv_addr reg offset mask value : Int) : Act := fun log =>
  let r := read_reg bus slv_addr reg log
  if r.1 < 0 then r
  else
    let c_value := u8 r.1
    let new_value := u8 (Int.lor (Int.land c_value (Int.lnot (shl (u8 mask) (u8 offset).toNat)))
      (shl (Int.land (u8 value) (u8 mask)) (u8 offset).toNat))
    write_reg bus slv_addr reg new_value r.2

/-- The function `write_reg16`. -/
def write_reg16 (bus : SCCB) (slv_addr reg value : Int) : Act := fun log =>
  let r := c_or (write_reg bus slv_addr reg (shr (u16 value) 8))
    (write_reg bus slv_addr (u16 reg + 1) (u16 value)) log
  if r.1 ≠ 0 then (-1, r.2) else (0, r.2)

/-- The function `write_addr_reg`. -/
def write_addr_reg (bus : SCCB) (slv_addr reg x_value y_value : Int) : Act := fun log =>
  let r := c_or (write_reg16 bus slv_addr reg x_value)
    (write_reg16 bus slv_addr (u16 reg + 2) y_value) log
  if r.1 ≠ 0 then (-1, r.2) else (0, r.2)

/-- The macro `write_reg_bits`. -/
def write_reg_bits (bus : SCCB) (slv_addr reg mask : Int) (enable : Bool) : Act :=
  set_reg_bits bus slv_addr reg 0 mask (if enable then mask else 0)

/-! ## Sensor handle -/

/-- Modelled from the spec: `camera_status_t` of `sensor.h`, which is not among the sources;
the fields are the ones the driver assigns (the Status Mirror).  Every field holds the
integer stored in it. -/
structure camera_status_t where
  framesize : Int
  quality : Int
  brightness : Int
  contrast : Int
  saturation : Int
  sharpness : Int
  denoise : Int
  special_effect : Int
  wb_mode : Int
  awb : Int
  awb_gain : Int
  aec : Int
  aec2 : Int
  ae_level : Int
  aec_value : Int
  agc : Int
  agc_gain : Int
  gainceiling : Int
  bpc : Int
  wpc : Int
  raw_gma : Int
  lenc : Int
  hmirror : Int
  vflip : Int
  dcw : Int
  colorbar : Int

/-- Modelled from the spec: `sensor_t` of `sensor.h`, which is not among the sources; the
fields are the ones the driver uses (bus address, input clock, pixel format, status). -/
structure sensor_t where
  slv_addr : Int
  xclk_freq_hz : Int
  pixformat : Int
  status : camera_status_t

/-- The sensor handle together with the log of the bus transactions issued so far. -/
structure State where
  sensor : sensor_t
  log : List BusOp

/-- Modelled from the spec: the constants and tables of `ov5642_regs.h`, `ov5642_settings.h`
and `sensor.h`, which are not among the sources, are parameters of the driver. -/
structure Headers where
  SC_PLLS_CTRL0 : Int
  SC_PLLS_CTRL1 : Int
  SC_PLLS_CTRL2 : Int
  SC_PLLS_CTRL3 : Int
  PCLK_RATIO : Int
  VFIFO_CTRL0C : Int
  TIMING_TC_REG18 : Int
  ANALOG_CONTROL_D : Int
  ARRAY_CONTROL01 : Int
  X_ADDR_ST_H : Int
  X_ADDR_END_H : Int
  X_OUTPUT_SIZE_H : Int
  X_TOTAL_SIZE_H : Int
  XY_OFFSET : Int
  ISP_CONTROL_01 : Int
  FRAMESIZE_CIF : Int
  FRAMESIZE_SVGA : Int
  FRAMESIZE_QXGA : Int
  FRAMESIZE_QSXGA : Int
  FRAMESIZE_INVALID : Int
  PIXFORMAT_JPEG : Int
  resolution : Int → Int → Int
  ov5642_sensor_special_effects : Int → Int → Int
  ov5642_sensor_saturation_levels : Int → Int → Int

/-! ## PLL, image options and frame size -/

/-- The function `set_pll`; its arguments are `uint8_t` and `bool` values.  The value of
`ov5642_calc_sysclk` is only logged. -/
def set_pll (h : Headers) (bus : SCCB) (st : State) (bypass : Bool)
    (multiplier sys_div pre_div : Int) (root_2x : Bool) (seld5 : Int) (pclk_manual : Bool)
    (pclk_div : Int) : Int × State :=
  if multiplier > 31 ∨ sys_div > 15 ∨ pre_div > 7 ∨ pclk_div > 31 ∨ seld5 > 3 then (-1, st)
  else
    let _sysclk := ov5642_calc_sysclk st.sensor.xclk_freq_hz bypass multiplier sys_div pre_div
      root_2x seld5 pclk_manual pclk_div
    let slv := st.sensor.slv_addr
    let r := write_reg bus slv h.SC_PLLS_CTRL0
      (Int.lor (if root_2x then 0x04 else 0x00) seld5) st.log
    let r := if r.1 = 0 then
        write_reg bus slv h.SC_PLLS_CTRL1 (shl (Int.land sys_div 0x0f) 4) r.2 else r
    let r := if r.1 = 0 then
        write_reg bus slv h.SC_PLLS_CTRL2
          (Int.lor (if bypass then 0x80 else 0x00) (Int.land pclk_div 0x3f)) r.2 else r
    let r := if r.1 = 0 then
        write_reg bus slv h.SC_PLLS_CTRL3 (Int.land pre_div 0x7) r.2 else r
    let r := if r.1 = 0 then
        write_reg bus slv h.PCLK_RATIO (Int.land multiplier 0x1F) r.2 else r
    let r := if r.1 = 0 then
        write_reg bus slv h.VFIFO_CTRL0C (if pclk_manual then 0x22 else 0x20) r.2 else r
    (r.1, { st with log := r.2 })

/-- The function `set_image_options`. -/
def set_image_options (h : Headers) (bus : SCCB) (st : State) : Int × State :=
  let reg18 : Int := 0
  let x_bin : Int := 0
  let y_bin : Int := 0
  -- enable compression
  let reg18 := if st.sensor.pixformat = h.PIXFORMAT_JPEG then u8 (Int.lor reg18 0x80) else reg18
  -- binning for small framesizes
  let x_bin := if st.sensor.status.framesize ≤ h.FRAMESIZE_SVGA then u8 (Int.lor x_bin 0x40)
    else x_bin
  let y_bin := if st.sensor.status.framesize ≤ h.FRAMESIZE_SVGA then u8 (Int.lor y_bin 0x80)
    else y_bin
  -- V-Flip
  let reg18 := if st.sensor.status.vflip ≠ 0 then u8 (Int.lor reg18 0x80) else reg18
  -- H-Mirror
  let reg18 := if st.sensor.status.hmirror ≠ 0 then u8 (Int.lor reg18 0x40) else reg18
  let slv := st.sensor.slv_addr
  let r := c_or (c_or (write_reg bus slv h.TIMING_TC_REG18 reg18)
    (write_reg bus slv h.ANALOG_CONTROL_D y_bin))
    (write_reg bus slv h.ARRAY_CONTROL01 x_bin) st.log
  (if r.1 ≠ 0 then -1 else 0, { st with log := r.2 })

/-- The function `set_framesize`. -/
def set_framesize (h : Headers) (bus : SCCB) (st : State) (framesize : Int) : Int × State :=
  let old_framesize := st.sensor.status.framesize
  let st := { st with sensor.status.framesize := framesize }
  if framesize ≥ h.FRAMESIZE_INVALID then (-1, st)
  else
    let w := u16 (h.resolution framesize 0)
    let ht := u16 (h.resolution framesize 1)
    let slv := st.sensor.slv_addr
    let fail (ret : Int) (log : List BusOp) : Int × State :=
      (ret, { st with sensor.status.framesize := old_framesize, log := log })
    let r := c_or (c_or (write_addr_reg bus slv h.X_ADDR_ST_H 432 10)
      (write_addr_reg bus slv h.X_ADDR_END_H 2592 1944))
      (write_addr_reg bus slv h.X_OUTPUT_SIZE_H w ht) st.log
    if r.1 ≠ 0 then fail r.1 r.2
    else
      let r :=
        if framesize > h.FRAMESIZE_SVGA then
          c_or (write_addr_reg bus slv h.X_TOTAL_SIZE_H 3200 2000)
            (write_reg bus slv h.XY_OFFSET
              (Int.lor (shl (Int.land 12 0x0F) 4) (Int.land 2 0x0F))) r.2
        else
          let r :=
            if framesize = h.FRAMESIZE_SVGA then
              write_addr_reg bus slv h.X_TOTAL_SIZE_H 3200 1000 r.2
            else
              write_addr_reg bus slv h.X_TOTAL_SIZE_H 1600 500 r.2
          if r.1 = 0 then
            write_reg bus slv h.XY_OFFSET
              (Int.lor (shl (Int.land 12 0x0F) 4) (Int.land 2 0x0F)) r.2
          else r
      -- the value returned by the write to ISP_CONTROL_01 is not kept
      let r :=
        if r.1 = 0 then
          if framesize = h.FRAMESIZE_QSXGA then
            (r.1, (write_reg bus slv h.ISP_CONTROL_01 0x4f r.2).2)
          else
            (r.1, (write_reg bus slv h.ISP_CONTROL_01 0x7f r.2).2)
        else r
      let q : Int × State :=
        if r.1 = 0 then set_image_options h bus { st with log := r.2 }
        else (r.1, { st with log := r.2 })
      if q.1 ≠ 0 then fail q.1 q.2.log
      else
        let st := q.2
        if st.sensor.pixformat = h.PIXFORMAT_JPEG then
          if framesize = h.FRAMESIZE_QSXGA then
            set_pll h bus st false 12 1 3 false 0 true 2
          else if framesize = h.FRAMESIZE_QXGA then
            -- 40MHz SYSCLK and 10MHz PCLK
            set_pll h bus st false 24 1 3 false 0 true 8
          else
            -- 50MHz SYSCLK and 10MHz PCLK
            set_pll h bus st false 30 1 3 false 0 true 10
        else
          if framesize > h.FRAMESIZE_CIF then
            -- 10MHz SYSCLK and 10MHz PCLK (6.19 FPS)
            set_pll h bus st false 2 1 0 false 0 true 2
          else
            -- 25MHz SYSCLK and 10MHz PCLK (15.45 FPS)
            set_pll h bus st false 5 1 0 false 0 true 5

/-! ## Per-control setters -/

/-- The function `set_agc_gain`. -/
def set_agc_gain (bus : SCCB) (st : State) (gain : Int) : Int × State :=
  let gain := if gain < 0 then 0 else if gain > 64 then 64 else gain
  -- gain value is 6.4 bits float; in order to use the max range, we deduct 1/16
  let gainv := shl gain 4
  let gainv := if gainv ≠ 0 then gainv - 1 else gainv
  let slv := st.sensor.slv_addr
  let r := c_or (write_reg bus slv 0x350a (shr gainv 8))
    (write_reg bus slv 0x350b (Int.land gainv 0xff)) st.log
  if r.1 = 0 then (r.1, { st with sensor.status.agc_gain := gain, log := r.2 })
  else (r.1, { st with log := r.2 })

/-- The function `set_ae_level`. -/
def set_ae_level (bus : SCCB) (st : State) (level : Int) : Int × State :=
  if level < -5 ∨ level > 5 then (-1, st)
  else
    -- good targets are between 5 and 115
    let target_level := ((level + 5) * 10) + 5
    let level_low := Int.tdiv (target_level * 23) 25
    let level_high := Int.tdiv (target_level * 27) 25
    let fast_low := shr level_low 1
    let fast_high := shl level_high 1
    let fast_high := if fast_high > 255 then 255 else fast_high
    let slv := st.sensor.slv_addr
    let r := c_or (c_or (c_or (c_or (c_or (write_reg bus slv 0x3a0f level_high)
      (write_reg bus slv 0x3a10 level_low))
      (write_reg bus slv 0x3a1b level_high))
      (write_reg bus slv 0x3a1e level_low))
      (write_reg bus slv 0x3a11 fast_high))
      (write_reg bus slv 0x3a1f fast_low) st.log
    if r.1 = 0 then (r.1, { st with sensor.status.ae_level := level, log := r.2 })
    else (r.1, { st with log := r.2 })

/-- The three `write_reg16` calls of one white-balance preset of `set_wb_mode`. -/
def wb_gains (bus : SCCB) (slv r_gain g_gain b_gain : Int) : Act :=
  c_or (c_or (write_reg16 bus slv 0x3400 r_gain) (write_reg16 bus slv 0x3402 g_gain))
    (write_reg16 bus slv 0x3404 b_gain)

/-- The function `set_wb_mode`. -/
def set_wb_mode (bus : SCCB) (st : State) (mode : Int) : Int × State :=
  if mode < 0 ∨ mode > 4 then (-1, st)
  else
    let slv := st.sensor.slv_addr
    let r := write_reg bus slv 0x3406 (if mode ≠ 0 then 1 else 0) st.log
    if r.1 ≠ 0 then (r.1, { st with log := r.2 })
    else
      let r :=
        if mode = 1 then wb_gains bus slv 0x5e0 0x410 0x540 r.2      -- Sunny
        else if mode = 2 then wb_gains bus slv 0x650 0x410 0x4f0 r.2 -- Cloudy
        else if mode = 3 then wb_gains bus slv 0x520 0x410 0x660 r.2 -- Office
        else if mode = 4 then wb_gains bus slv 0x420 0x3f0 0x710 r.2 -- HOME
        else r                                                       -- AUTO
      if r.1 = 0 then (r.1, { st with sensor.status.wb_mode := mode, log := r.2 })
      else (r.1, { st with log := r.2 })

/-- The function `set_special_effect`. -/
def set_special_effect (h : Headers) (bus : SCCB) (st : State) (effect : Int) : Int × State :=
  if effect < 0 ∨ effect > 6 then (-1, st)
  else
    let regs := h.ov5642_sensor_special_effects effect
    let slv := st.sensor.slv_addr
    let r := c_or (c_or (c_or (write_reg bus slv 0x5580 (regs 0))
      (write_reg bus slv 0x5583 (regs 1)))
      (write_reg bus slv 0x5584 (regs 2)))
      (write_reg bus slv 0x5003 (regs 3)) st.log
    if r.1 = 0 then (r.1, { st with sensor.status.special_effect := effect, log := r.2 })
    else (r.1, { st with log := r.2 })

/-- The function `set_brightness`. -/
def set_brightness (bus : SCCB) (st : State) (level : Int) : Int × State :=
  let vn : Int × Bool :=
    if level = 3 then (0x30, false)
    else if level = 2 then (0x20, false)
    else if level = 1 then (0x10, false)
    else if level = -1 then (0x10, true)
    else if level = -2 then (0x20, true)
    else if level = -3 then (0x30, true)
    else (0, false) -- default: 0
  let value := vn.1
  let negative := vn.2
  let slv := st.sensor.slv_addr
  let r := write_reg bus slv 0x5587 value st.log
  let r := if r.1 = 0 then write_reg_bits bus slv 0x5588 0x08 negative r.2 else r
  if r.1 = 0 then (r.1, { st with sensor.status.brightness := level, log := r.2 })
  else (r.1, { st with log := r.2 })

/-- The function `set_contrast`. -/
def set_contrast (bus : SCCB) (st : State) (level : Int) : Int × State :=
  if level > 3 ∨ level < -3 then (-1, st)
  else
    let r := write_reg bus st.sensor.slv_addr 0x5586 (shl (level + 4) 3) st.log
    if r.1 = 0 then (r.1, { st with sensor.status.contrast := level, log := r.2 })
    else (r.1, { st with log := r.2 })

/-- The `for` loop of `set_saturation`, entered with loop index `i` and the current `ret`;
`fuel` bounds the number of iterations (11 suffice from `i = 0`). -/
def set_saturation_loop (bus : SCCB) (slv : Int) (regs : Int → Int) :
    Nat → Int → Int → List BusOp → Int × List BusOp
  | 0, _, ret, log => (ret, log)
  | fuel + 1, i, ret, log =>
    if i < 11 then
      let r := write_reg bus slv (0x5381 + i) (regs i) log
      if r.1 ≠ 0 then r else set_saturation_loop bus slv regs fuel (i + 1) r.1 r.2
    else (ret, log)

/-- The function `set_saturation`. -/
def set_saturation (h : Headers) (bus : SCCB) (st : State) (level : Int) : Int × State :=
  if level > 4 ∨ level < -4 then (-1, st)
  else
    let regs := h.ov5642_sensor_saturation_levels (level + 4)
    let r := set_saturation_loop bus st.sensor.slv_addr regs 11 0 0 st.log
    if r.1 = 0 then (r.1, { st with sensor.status.saturation := level, log := r.2 })
    else (r.1, { st with log := r.2 })

/-- The function `set_sharpness`. -/
def set_sharpness (bus : SCCB) (st : State) (level : Int) : Int × State :=
  if level > 3 ∨ level < -3 then (-1, st)
  else
    let mt_offset_2 := u8 ((level + 3) * 8)
    let mt_offset_1 := u8 (mt_offset_2 + 1)
    let slv := st.sensor.slv_addr
    let r := c_or (c_or (c_or (c_or (c_or (c_or (c_or (c_or
      (write_reg_bits bus slv 0x5308 0x40 false) -- 0x40 means auto
      (write_reg bus slv 0x5300 0x10))
      (write_reg bus slv 0x5301 0x10))
      (write_reg bus slv 0x5302 mt_offset_1))
      (write_reg bus slv 0x5303 mt_offset_2))
      (write_reg bus slv 0x5309 0x10))
      (write_reg bus slv 0x530a 0x10))
      (write_reg bus slv 0x530b 0x04))
      (write_reg bus slv 0x530c 0x06) st.log
    if r.1 = 0 then (r.1, { st with sensor.status.sharpness := level, log := r.2 })
    else (r.1, { st with log := r.2 })

/-- The function `set_denoise`. -/
def set_denoise (bus : SCCB) (st : State) (level : Int) : Int × State :=
  if level < 0 ∨ level > 8 then (-1, st)
  else
    let slv := st.sensor.slv_addr
    let r := write_reg_bits bus slv 0x5308 0x10 (decide (level > 0)) st.log
    let r := if r.1 = 0 ∧ level > 0 then write_reg bus slv 0x5306 ((level - 1) * 4) r.2 else r
    if r.1 = 0 then (r.1, { st with sensor.status.denoise := level, log := r.2 })
    else (r.1, { st with log := r.2 })

/-! ## Buses and constants used to state and to evaluate the properties -/

/-- On this bus no transaction fails: every read returns a non-negative value and every
write returns zero. -/
def NeverFails (bus : SCCB) : Prop :=
  (∀ log slv reg, 0 ≤ bus.SCCB_Read16 log slv reg) ∧
    ∀ log slv reg value, bus.SCCB_Write16 log slv reg value = 0

/-- A bus that answers every transaction with zero. -/
def quiet_bus : SCCB :=
  { SCCB_Read16 := fun _ _ _ => 0, SCCB_Write16 := fun _ _ _ _ => 0 }

/-- A bus on which exactly the transaction that comes after `k` earlier ones fails (it
returns -1); every other transaction returns zero. -/
def fail_at (k : Nat) : SCCB :=
  { SCCB_Read16 := fun log _ _ => if log.length = k then -1 else 0,
    SCCB_Write16 := fun log _ _ _ => if log.length = k then -1 else 0 }

/-- The value that the bus returns for a transaction issued after the transactions `log`. -/
def respond (bus : SCCB) (log : List BusOp) : BusOp → Int
  | BusOp.read slv reg => bus.SCCB_Read16 log slv reg
  | BusOp.write slv reg value => bus.SCCB_Write16 log slv reg value

/-- The clock formula in the words of the specification, over unbounded integers:
`VCO = (xclk/1000) * multiplier * (root_doubling?2:1) * 2 / P[pre_div]`. -/
def spec_VCO (xclk multiplier pre_div : Int) (root_doubling : Bool) : Int :=
  Int.tdiv (Int.tdiv xclk 1000 * multiplier * (if root_doubling then 2 else 1) * 2)
    ([2, 3, 4, 5, 6, 8, 12, 16].getD pre_div.toNat 0)

/-- The clock formula in the words of the specification, over unbounded integers:
`PLLCLK = xclk if bypass, else VCO*1000*2 / max(sys_div,1) / S[seld5]`. -/
def spec_PLLCLK (xclk : Int) (bypass : Bool) (multiplier sys_div pre_div : Int)
    (root_doubling : Bool) (seld5 : Int) : Int :=
  if bypass then xclk
  else Int.tdiv (Int.tdiv (spec_VCO xclk multiplier pre_div root_doubling * 1000 * 2)
    (max sys_div 1)) ([2, 2, 4, 5].getD seld5.toNat 0)

/-- The products formed on the way to `PLLCLK` all lie in the range of a C `int`. -/
def spec_in_range (xclk : Int) (bypass : Bool) (multiplier pre_div : Int)
    (root_doubling : Bool) : Prop :=
  in_int (Int.tdiv xclk 1000 * multiplier) ∧
  in_int (Int.tdiv xclk 1000 * multiplier * (if root_doubling then 2 else 1)) ∧
  in_int (Int.tdiv xclk 1000 * multiplier * (if root_doubling then 2 else 1) * 2) ∧
  (bypass = false →
    in_int (spec_VCO xclk multiplier pre_div root_doubling * 1000) ∧
    in_int (spec_VCO xclk multiplier pre_div root_doubling * 1000 * 2))

/-- One assignment of the header constants, used to run the driver on concrete inputs.  The
properties that are stated for every `Headers` do not depend on it. -/
def sample_headers : Headers :=
  { SC_PLLS_CTRL0 := 0x300f
    SC_PLLS_CTRL1 := 0x3010
    SC_PLLS_CTRL2 := 0x3011
    SC_PLLS_CTRL3 := 0x3012
    PCLK_RATIO := 0x3824
    VFIFO_CTRL0C := 0x460c
    TIMING_TC_REG18 := 0x3818
    ANALOG_CONTROL_D := 0x370d
    ARRAY_CONTROL01 := 0x3621
    X_ADDR_ST_H := 0x3800
    X_ADDR_END_H := 0x3804
    X_OUTPUT_SIZE_H := 0x3808
    X_TOTAL_SIZE_H := 0x380c
    XY_OFFSET := 0x3810
    ISP_CONTROL_01 := 0x5001
    FRAMESIZE_CIF := 6
    FRAMESIZE_SVGA := 9
    FRAMESIZE_QXGA := 17
    FRAMESIZE_QSXGA := 21
    FRAMESIZE_INVALID := 22
    PIXFORMAT_JPEG := 4
    resolution := fun _ j => if j = 0 then 640 else 480
    ov5642_sensor_special_effects := fun _ _ => 0
    ov5642_sensor_saturation_levels := fun _ _ => 0 }

/-- A status record with every field zero. -/
def zero_status : camera_status_t :=
  { framesize := 0, quality := 0, brightness := 0, contrast := 0, saturation := 0,
    sharpness := 0, denoise := 0, special_effect := 0, wb_mode := 0, awb := 0,
    awb_gain := 0, aec := 0, aec2 := 0, ae_level := 0, aec_value := 0, agc := 0,
    agc_gain := 0, gainceiling := 0, bpc := 0, wpc := 0, raw_gma := 0, lenc := 0,
    hmirror := 0, vflip := 0, dcw := 0, colorbar := 0 }

/-- A sensor at bus address 0x3c with a 24 MHz input clock, a pixel format other than
JPEG, a zero status record and an empty bus log. -/
def sample_state : State :=
  { sensor := { slv_addr := 0x3c, xclk_freq_hz := 24000000, pixformat := 0,
                status := zero_status },
    log := [] }

/-- The six single-register writes of `set_pll` in the words of the specification, in
their order: the values are the plain argument values. -/
def spec_pll_writes (h : Headers) (slv : Int) (bypass : Bool)
    (multiplier sys_div pre_div : Int) (root_2x : Bool) (seld5 : Int) (pclk_manual : Bool)
    (pclk_div : Int) : List BusOp :=
  [ BusOp.write slv (u16 h.SC_PLLS_CTRL0) (Int.lor (if root_2x then 0x04 else 0) seld5),
    BusOp.write slv (u16 h.SC_PLLS_CTRL1) (shl sys_div 4),
    BusOp.write slv (u16 h.SC_PLLS_CTRL2) (Int.lor (if bypass then 0x80 else 0) pclk_div),
    BusOp.write slv (u16 h.SC_PLLS_CTRL3) pre_div,
    BusOp.write slv (u16 h.PCLK_RATIO) multiplier,
    BusOp.write slv (u16 h.VFIFO_CTRL0C) (if pclk_manual then 0x22 else 0x20) ]

/-- The value the bus returns for transaction number `i` (from 0) of `ops`, when `ops` are
issued one after the other after the transactions `log`. -/
def respond_nth (bus : SCCB) (log : List BusOp) (ops : List BusOp) (i : Nat) : Int :=
  match ops[i]? with
  | some op => respond bus (log ++ ops.take i) op
  | none => 0

/-- Of the writes `ops`, issued one after the other after `log`, number `k` (from 0) is
the first that fails. -/
def FirstFailure (bus : SCCB) (log : List BusOp) (ops : List BusOp) (k : Nat) : Prop :=
  k < ops.length ∧ (∀ i, i < k → respond_nth bus log ops i = 0) ∧ respond_nth bus log ops k ≠ 0

/-- What the specification asks of a range-checked setter on a bus that never fails, for
every state and argument: it returns an error exactly when the argument is outside
`lo..hi`; then the state (bus log and sensor handle) is unchanged; inside the range the
mirror field holds the argument afterwards. -/
def RangeChecked (setter : State → Int → Int × State) (lo hi : Int)
    (field : camera_status_t → Int) : Prop :=
  ∀ (st : State) (x : Int),
    ((setter st x).1 ≠ 0 ↔ (x < lo ∨ hi < x)) ∧
    ((x < lo ∨ hi < x) → (setter st x).2 = st) ∧
    (lo ≤ x → x ≤ hi → field (setter st x).2.sensor.status = x)

/-- The six writes of `set_ae_level` in the words of the specification. -/
def spec_ae_writes (slv level : Int) : List BusOp :=
  let target := (level + 5) * 10 + 5
  let low := Int.tdiv (target * 23) 25
  let high := Int.tdiv (target * 27) 25
  let fast_low := shr low 1
  let fast_high := min (shl high 1) 255
  [ BusOp.write slv 0x3a0f high, BusOp.write slv 0x3a10 low, BusOp.write slv 0x3a1b high,
    BusOp.write slv 0x3a1e low, BusOp.write slv 0x3a11 fast_high,
    BusOp.write slv 0x3a1f fast_low ]

/-- The clamped gain of `set_agc_gain` in the words of the specification. -/
def spec_agc_clamp (gain : Int) : Int :=
  if gain < 0 then 0 else if gain > 64 then 64 else gain

/-- The register code of a clamped gain in the words of the specification: `c << 4`,
minus 1 when `c` is not zero. -/
def spec_agc_code (c : Int) : Int :=
  if c ≠ 0 then shl c 4 - 1 else shl c 4

/-! ## Register lists, reset, pixel format and the remaining setters -/

/-- Modelled from the spec: further constants of `ov5642_regs.h` and `sensor.h` and the
register lists of `ov5642_settings.h`, which are not among the sources, are parameters of
the driver like the ones of `Headers`.  A register list is given by its entries
`{reg, value}` in order. -/
structure Settings where
  SYSTEM_CTROL0 : Int
  COMPRESSION_CTRL07 : Int
  PRE_ISP_TEST_SETTING_1 : Int
  TEST_COLOR_BAR : Int
  AEC_PK_MANUAL : Int
  AEC_PK_MANUAL_AGC_MANUALEN : Int
  AEC_PK_MANUAL_AEC_MANUALEN : Int
  REGLIST_TAIL : Int
  REG_DLY : Int
  PIXFORMAT_YUV422 : Int
  PIXFORMAT_GRAYSCALE : Int
  PIXFORMAT_RGB565 : Int
  PIXFORMAT_RGB888 : Int
  PIXFORMAT_RAW : Int
  ov5642_sensor_default_regs : List (Int × Int)
  ov5642_auto_focus_regs : List (Int × Int)
  ov5642_sensor_fmt_yuv422 : List (Int × Int)
  ov5642_sensor_fmt_grayscale : List (Int × Int)
  ov5642_sensor_fmt_rgb565 : List (Int × Int)
  ov5642_sensor_fmt_jpeg : List (Int × Int)
  ov5642_sensor_fmt_raw : List (Int × Int)

/-- The function `read_reg16`. -/
def read_reg16 (bus : SCCB) (slv_addr reg : Int) : Act := fun log =>
  let r := read_reg bus slv_addr reg log
  if r.1 ≥ 0 then
    let ret := shl (Int.land r.1 0xFF) 8
    let r2 := read_reg bus slv_addr (u16 reg + 1) r.2
    if r2.1 < 0 then (r2.1, r2.2)
    else (Int.lor ret (Int.land r2.1 0xFF), r2.2)
  else r

/-- The function `write_regs`: the `while` loop over the entries of the list, entered with
the current `ret`.  The entries after the one that holds `REGLIST_TAIL` are not looked at;
a list without that entry is read as ended by it.  `vTaskDelay` does not touch the bus. -/
def write_regs (c : Settings) (bus : SCCB) (slv_addr : Int) :
    List (Int × Int) → Int → List BusOp → Int × List BusOp
  | [], ret, log => (ret, log)
  | (reg, value) :: rest, ret, log =>
    if ret = 0 ∧ reg ≠ c.REGLIST_TAIL then
      if reg = c.REG_DLY then write_regs c bus slv_addr rest ret log
      else
        let r := write_reg bus slv_addr reg value log
        write_regs c bus slv_addr rest r.1 r.2
    else (ret, log)

/-- The function `reset`.  The value of `write_regs (ov5642_auto_focus_regs)` replaces
`ret`; the values of the three writes after it are not kept. -/
def reset (c : Settings) (bus : SCCB) (st : State) : Int × State :=
  let slv := st.sensor.slv_addr
  -- Software Reset: clear all registers and reset them to their default values
  let r := write_reg bus slv c.SYSTEM_CTROL0 0x82 st.log
  if r.1 ≠ 0 then (r.1, { st with log := r.2 })
  else
    let r := write_regs c bus slv c.ov5642_sensor_default_regs 0 r.2
    let q : Int × State :=
      if r.1 = 0 then set_ae_level bus { st with log := r.2 } 0
      else (r.1, { st with log := r.2 })
    let st := q.2
    let r := write_regs c bus slv c.ov5642_auto_focus_regs 0 st.log
    let ret := r.1
    -- ret != write_reg(sensor->slv_addr, 0x3f00, 0x03);
    let log := (write_reg bus slv 0x3f00 0x03 r.2).2
    let log :=
      if ret = 0 then (write_reg bus slv 0x3024 0x10 (write_reg bus slv 0x3025 0x01 log).2).2
      else log
    (ret, { st with log := log })

/-- The function `set_pixformat`. -/
def set_pixformat (h : Headers) (c : Settings) (bus : SCCB) (st : State) (pixformat : Int) :
    Int × State :=
  let regs : Option (List (Int × Int)) :=
    if pixformat = c.PIXFORMAT_YUV422 then some c.ov5642_sensor_fmt_yuv422
    else if pixformat = c.PIXFORMAT_GRAYSCALE then some c.ov5642_sensor_fmt_grayscale
    else if pixformat = c.PIXFORMAT_RGB565 ∨ pixformat = c.PIXFORMAT_RGB888 then
      some c.ov5642_sensor_fmt_rgb565
    else if pixformat = h.PIXFORMAT_JPEG then some c.ov5642_sensor_fmt_jpeg
    else if pixformat = c.PIXFORMAT_RAW then some c.ov5642_sensor_fmt_raw
    else none
  match regs with
  | none => (-1, st)
  | some regs =>
    let r := write_regs c bus st.sensor.slv_addr regs 0 st.log
    if r.1 = 0 then (r.1, { st with sensor.pixformat := pixformat, log := r.2 })
    else (r.1, { st with log := r.2 })

/-- The function `set_hmirror`. -/
def set_hmirror (h : Headers) (bus : SCCB) (st : State) (enable : Int) : Int × State :=
  set_image_options h bus { st with sensor.status.hmirror := enable }

/-- The function `set_vflip`. -/
def set_vflip (h : Headers) (bus : SCCB) (st : State) (enable : Int) : Int × State :=
  set_image_options h bus { st with sensor.status.vflip := enable }

/-- The function `set_quality`. -/
def set_quality (c : Settings) (bus : SCCB) (st : State) (qs : Int) : Int × State :=
  let r := write_reg bus st.sensor.slv_addr c.COMPRESSION_CTRL07 (Int.land qs 0x3f) st.log
  if r.1 = 0 then (r.1, { st with sensor.status.quality := qs, log := r.2 })
  else (r.1, { st with log := r.2 })

/-- The function `set_colorbar`. -/
def set_colorbar (c : Settings) (bus : SCCB) (st : State) (enable : Int) : Int × State :=
  let r := write_reg_bits bus st.sensor.slv_addr c.PRE_ISP_TEST_SETTING_1 c.TEST_COLOR_BAR
    (decide (enable ≠ 0)) st.log
  if r.1 = 0 then (r.1, { st with sensor.status.colorbar := enable, log := r.2 })
  else (r.1, { st with log := r.2 })

/-- The function `set_gain_ctrl`. -/
def set_gain_ctrl (c : Settings) (bus : SCCB) (st : State) (enable : Int) : Int × State :=
  let r := write_reg_bits bus st.sensor.slv_addr c.AEC_PK_MANUAL c.AEC_PK_MANUAL_AGC_MANUALEN
    (decide (enable = 0)) st.log
  if r.1 = 0 then (r.1, { st with sensor.status.agc := enable, log := r.2 })
  else (r.1, { st with log := r.2 })

/-- The function `set_exposure_ctrl`. -/
def set_exposure_ctrl (c : Settings) (bus : SCCB) (st : State) (enable : Int) : Int × State :=
  let r := write_reg_bits bus st.sensor.slv_addr c.AEC_PK_MANUAL c.AEC_PK_MANUAL_AEC_MANUALEN
    (decide (enable = 0)) st.log
  if r.1 = 0 then (r.1, { st with sensor.status.aec := enable, log := r.2 })
  else (r.1, { st with log := r.2 })

/-- The function `set_whitebal`. -/
def set_whitebal (h : Headers) (bus : SCCB) (st : State) (enable : Int) : Int × State :=
  let r := write_reg_bits bus st.sensor.slv_addr h.ISP_CONTROL_01 0x01 (decide (enable ≠ 0))
    st.log
  if r.1 = 0 then (r.1, { st with sensor.status.awb := enable, log := r.2 })
  else (r.1, { st with log := r.2 })

/-- The function `set_dcw_dsp`. -/
def set_dcw_dsp (bus : SCCB) (st : State) (enable : Int) : Int × State :=
  let r := write_reg_bits bus st.sensor.slv_addr 0x5183 0x80 (decide (enable = 0)) st.log
  if r.1 = 0 then (r.1, { st with sensor.status.dcw := enable, log := r.2 })
  else (r.1, { st with log := r.2 })

/-- The function `set_aec2`. -/
def set_aec2 (bus : SCCB) (st : State) (enable : Int) : Int × State :=
  let r := write_reg_bits bus st.sensor.slv_addr 0x3a00 0x04 (decide (enable ≠ 0)) st.log
  if r.1 = 0 then (r.1, { st with sensor.status.aec2 := enable, log := r.2 })
  else (r.1, { st with log := r.2 })

/-- The function `set_bpc_dsp`. -/
def set_bpc_dsp (bus : SCCB) (st : State) (enable : Int) : Int × State :=
  let r := write_reg_bits bus st.sensor.slv_addr 0x5000 0x04 (decide (enable ≠ 0)) st.log
  if r.1 = 0 then (r.1, { st with sensor.status.bpc := enable, log := r.2 })
  else (r.1, { st with log := r.2 })

/-- The function `set_wpc_dsp`. -/
def set_wpc_dsp (bus : SCCB) (st : State) (enable : Int) : Int × State :=
  let r := write_reg_bits bus st.sensor.slv_addr 0x5000 0x02 (decide (enable ≠ 0)) st.log
  if r.1 = 0 then (r.1, { st with sensor.status.wpc := enable, log := r.2 })
  else (r.1, { st with log := r.2 })

/-- The function `set_raw_gma_dsp`. -/
def set_raw_gma_dsp (bus : SCCB) (st : State) (enable : Int) : Int × State :=
  let r := write_reg_bits bus st.sensor.slv_addr 0x5000 0x20 (decide (enable ≠ 0)) st.log
  if r.1 = 0 then (r.1, { st with sensor.status.raw_gma := enable, log := r.2 })
  else (r.1, { st with log := r.2 })

/-- The function `set_lenc_dsp`. -/
def set_lenc_dsp (bus : SCCB) (st : State) (enable : Int) : Int × State :=
  let r := write_reg_bits bus st.sensor.slv_addr 0x5000 0x80 (decide (enable ≠ 0)) st.log
  if r.1 = 0 then (r.1, { st with sensor.status.lenc := enable, log := r.2 })
  else (r.1, { st with log := r.2 })

/-- The function `set_aec_value`. -/
def set_aec_value (bus : SCCB) (st : State) (value : Int) : Int × State :=
  let slv := st.sensor.slv_addr
  let m := read_reg16 bus slv 0x380e st.log
  let max_val := m.1
  if max_val < 0 then (-1, { st with log := m.2 })
  else
    let value := if value > max_val then max_val else value
    let r := c_or (c_or (write_reg bus slv 0x3500 (Int.land (shr value 12) 0x0F))
      (write_reg bus slv 0x3501 (Int.land (shr value 4) 0xFF)))
      (write_reg bus slv 0x3502 (Int.land (shl value 4) 0xF0)) m.2
    if r.1 = 0 then (r.1, { st with sensor.status.aec_value := value, log := r.2 })
    else (r.1, { st with log := r.2 })

/-- The function `set_awb_gain_dsp`. -/
def set_awb_gain_dsp (bus : SCCB) (st : State) (enable : Int) : Int × State :=
  let old_mode := st.sensor.status.wb_mode
  let mode := if enable ≠ 0 then old_mode else 0
  let q := set_wb_mode bus st mode
  if q.1 = 0 then
    (q.1, { q.2 with sensor.status.wb_mode := old_mode, sensor.status.awb_gain := enable })
  else q

/-- The function `set_gainceiling`. -/
def set_gainceiling (bus : SCCB) (st : State) (level : Int) : Int × State :=
  let l := level
  let slv := st.sensor.slv_addr
  let r := c_or (write_reg bus slv 0x3A18 (Int.land (shr l 8) 3))
    (write_reg bus slv 0x3A19 (Int.land l 0xFF)) st.log
  if r.1 = 0 then (r.1, { st with sensor.status.gainceiling := l, log := r.2 })
  else (r.1, { st with log := r.2 })

/-- One assignment of the constants and register lists of `Settings`, used to run the
driver on concrete inputs. -/
def sample_settings : Settings :=
  { SYSTEM_CTROL0 := 0x3008
    COMPRESSION_CTRL07 := 0x4407
    PRE_ISP_TEST_SETTING_1 := 0x503d
    TEST_COLOR_BAR := 0x80
    AEC_PK_MANUAL := 0x3503
    AEC_PK_MANUAL_AGC_MANUALEN := 0x02
    AEC_PK_MANUAL_AEC_MANUALEN := 0x01
    REGLIST_TAIL := 0x0000
    REG_DLY := 0xffff
    PIXFORMAT_YUV422 := 1
    PIXFORMAT_GRAYSCALE := 2
    PIXFORMAT_RGB565 := 0
    PIXFORMAT_RGB888 := 5
    PIXFORMAT_RAW := 6
    ov5642_sensor_default_regs := [(0x3103, 0x93), (0xffff, 10), (0x3017, 0x7f), (0x0000, 0)]
    ov5642_auto_focus_regs := [(0x3000, 0x20), (0x8000, 0x02), (0x0000, 0)]
    ov5642_sensor_fmt_yuv422 := [(0x4300, 0x30), (0x501f, 0x00), (0x0000, 0)]
    ov5642_sensor_fmt_grayscale := [(0x4300, 0x10), (0x501f, 0x00), (0x0000, 0)]
    ov5642_sensor_fmt_rgb565 := [(0x4300, 0x6f), (0x501f, 0x01), (0x0000, 0)]
    ov5642_sensor_fmt_jpeg := [(0x4300, 0x30), (0x501f, 0x00), (0x4713, 0x02), (0x0000, 0)]
    ov5642_sensor_fmt_raw := [(0x4300, 0x00), (0x501f, 0x03), (0x0000, 0)] }

/-- The two byte writes of a 16-bit register value in the words of the specification:
high byte to `reg`, low byte to `reg + 1`. -/
def spec_write16 (slv reg value : Int) : List BusOp :=
  [BusOp.write slv reg (value / 256), BusOp.write slv (reg + 1) (value % 256)]

/-- The writes of `set_wb_mode (m)` in the words of the specification: the manual toggle
0x3406 and, for the presets 1..4, the R, G and B gains (0x3400, 0x3402, 0x3404). -/
def spec_wb_writes (slv m : Int) : List BusOp :=
  BusOp.write slv 0x3406 (if m ≠ 0 then 1 else 0) ::
    (if m = 1 then
      spec_write16 slv 0x3400 0x5e0 ++ spec_write16 slv 0x3402 0x410 ++
        spec_write16 slv 0x3404 0x540
    else if m = 2 then
      spec_write16 slv 0x3400 0x650 ++ spec_write16 slv 0x3402 0x410 ++
        spec_write16 slv 0x3404 0x4f0
    else if m = 3 then
      spec_write16 slv 0x3400 0x520 ++ spec_write16 slv 0x3402 0x410 ++
        spec_write16 slv 0x3404 0x660
    else if m = 4 then
      spec_write16 slv 0x3400 0x420 ++ spec_write16 slv 0x3402 0x3f0 ++
        spec_write16 slv 0x3404 0x710
    else [])

/-- The sample sensor with vflip = 1 in the mirror (pixel format 0, not JPEG). -/
def sample_state_vflip : State :=
  { sample_state with sensor.status.vflip := 1 }

/-- The bytes `reg18`, `y_bin` and `x_bin` that `set_image_options` computes from the
sensor handle (the same statements as in `set_image_options`). -/
def image_option_bytes (h : Headers) (s : sensor_t) : Int × Int × Int :=
  let reg18 : Int := 0
  let x_bin : Int := 0
  let y_bin : Int := 0
  let reg18 := if s.pixformat = h.PIXFORMAT_JPEG then u8 (Int.lor reg18 0x80) else reg18
  let x_bin := if s.status.framesize ≤ h.FRAMESIZE_SVGA then u8 (Int.lor x_bin 0x40) else x_bin
  let y_bin := if s.status.framesize ≤ h.FRAMESIZE_SVGA then u8 (Int.lor y_bin 0x80) else y_bin
  let reg18 := if s.status.vflip ≠ 0 then u8 (Int.lor reg18 0x80) else reg18
  let reg18 := if s.status.hmirror ≠ 0 then u8 (Int.lor reg18 0x40) else reg18
  (reg18, y_bin, x_bin)

/-- The three writes of `set_image_options` in the order TIMING_TC_REG18, ANALOG_CONTROL_D,
ARRAY_CONTROL01, for the bytes computed from the sensor handle. -/
def image_option_writes (h : Headers) (s : sensor_t) : List BusOp :=
  [ BusOp.write s.slv_addr (u16 h.TIMING_TC_REG18) (image_option_bytes h s).1,
    BusOp.write s.slv_addr (u16 h.ANALOG_CONTROL_D) (image_option_bytes h s).2.1,
    BusOp.write s.slv_addr (u16 h.ARRAY_CONTROL01) (image_option_bytes h s).2.2 ]

/-- The 16-bit ceiling that `set_aec_value` reads, in the words of the specification: the
byte read from 0x380e is the high byte, the byte read from 0x380f the low byte. -/
def spec_aec_ceiling (r1 r2 : Int) : Int :=
  Int.lor (shl (Int.land r1 0xFF) 8) (Int.land r2 0xFF)

/-- The three writes of `set_aec_value` for the clamped value `v` in the words of the
specification: 0x3500 <- (v>>12)&0x0F, 0x3501 <- (v>>4)&0xFF, 0x3502 <- (v<<4)&0xF0. -/
def spec_aec_writes (slv v : Int) : List BusOp :=
  [ BusOp.write slv 0x3500 (Int.land (shr v 12) 0x0F),
    BusOp.write slv 0x3501 (Int.land (shr v 4) 0xFF),
    BusOp.write slv 0x3502 (Int.land (shl v 4) 0xF0) ]

/-- A bus on which every read returns `x` and every write returns zero. -/
def reads_bus (x : Int) : SCCB :=
  { SCCB_Read16 := fun _ _ _ => x, SCCB_Write16 := fun _ _ _ _ => 0 }

/-- What the specification asks of `set_pixformat` for a format `fmt` whose preset is the
register list `regs`: the list is applied as a batch by `write_regs`; when the batch
returns 0 the call returns 0 and the handle's pixel format is `fmt`; otherwise the call
returns the failure and the handle is the one before the call. -/
def AppliesPreset (h : Headers) (c : Settings) (bus : SCCB) (st : State) (fmt : Int)
    (regs : List (Int × Int)) : Prop :=
  set_pixformat h c bus st fmt
    = if (write_regs c bus st.sensor.slv_addr regs 0 st.log).1 = 0 then
        (0, { st with sensor.pixformat := fmt,
                      log := (write_regs c bus st.sensor.slv_addr regs 0 st.log).2 })
      else
        ((write_regs c bus st.sensor.slv_addr regs 0 st.log).1,
          { st with log := (write_regs c bus st.sensor.slv_addr regs 0 st.log).2 })

/-- The tags of the pixel formats that `set_pixformat` knows. -/
def pixformat_tags (h : Headers) (c : Settings) : List Int :=
  [c.PIXFORMAT_YUV422, c.PIXFORMAT_GRAYSCALE, c.PIXFORMAT_RGB565, c.PIXFORMAT_RGB888,
    h.PIXFORMAT_JPEG, c.PIXFORMAT_RAW]

/-- The PLL parameters (multiplier, sys_div, pre_div, pclk_div) of the decision table in
the words of the specification, keyed by "the pixel format is JPEG" and the frame size. -/
def spec_pll_tuple (h : Headers) (jpeg : Bool) (framesize : Int) : Int × Int × Int × Int :=
  if jpeg then
    if framesize = h.FRAMESIZE_QSXGA then (12, 1, 3, 2)
    else if framesize = h.FRAMESIZE_QXGA then (24, 1, 3, 8)
    else (30, 1, 3, 10)
  else
    if framesize > h.FRAMESIZE_CIF then (2, 1, 0, 2)
    else (5, 1, 0, 5)

/-- The transaction `op`, issued after the transactions `log`, fails: a read returns a
negative value, a write returns a value other than zero. -/
def Failed (bus : SCCB) (log : List BusOp) : BusOp → Prop
  | BusOp.read slv reg => bus.SCCB_Read16 log slv reg < 0
  | BusOp.write slv reg value => bus.SCCB_Write16 log slv reg value ≠ 0

/-- None of the transactions `ops`, issued one after the other after `log`, fails. -/
def AllOk (bus : SCCB) : List BusOp → List BusOp → Prop
  | _, [] => True
  | log, op :: ops => ¬ Failed bus log op ∧ AllOk bus (log ++ [op]) ops

/-- The transactions `ops`, issued one after the other after `log`, end with their first
failure: the last one fails and none before it does. -/
def StopsAtFailure (bus : SCCB) (log ops : List BusOp) : Prop :=
  ∃ good bad, ops = good ++ [bad] ∧ AllOk bus log good ∧ Failed bus (log ++ good) bad

/-- What the specification asks of a setter call that starts in state `st` and ends with
the outcome `r`: the call extends the bus log by transactions `ops`, and either none of
them fails, or the call returns a non-zero value, no transaction follows the first one
that fails, and the sensor handle (with its Status Mirror) is unchanged. -/
def FailStop (bus : SCCB) (st : State) (r : Int × State) : Prop :=
  ∃ ops, r.2.log = st.log ++ ops ∧
    (AllOk bus st.log ops ∨
      (r.1 ≠ 0 ∧ r.2.sensor = st.sensor ∧ StopsAtFailure bus st.log ops))

/-- A bus call stops at its first failing transaction and returns zero exactly when none
of its transactions fails. -/
def ActStops (bus : SCCB) (a : Act) : Prop :=
  ∀ log, ∃ ops, (a log).2 = log ++ ops ∧
    (((a log).1 = 0 ∧ AllOk bus log ops) ∨ ((a log).1 ≠ 0 ∧ StopsAtFailure bus log ops))

/-- The C pattern `ret = a (); if (ret == 0) ret = b ();` on two bus calls. -/
def act_then (a b : Act) : Act := fun log =>
  let r := a log
  if r.1 = 0 then b r.2 else r

/-- A bus call that issues nothing and returns zero. -/
def act_skip : Act := fun log => (0, log)

/-- The bus calls of `set_wb_mode` after the write to 0x3406: the gains of the preset, or
nothing for AUTO. -/
def wb_act (bus : SCCB) (slv mode : Int) : Act :=
  if mode = 1 then wb_gains bus slv 0x5e0 0x410 0x540
  else if mode = 2 then wb_gains bus slv 0x650 0x410 0x4f0
  else if mode = 3 then wb_gains bus slv 0x520 0x410 0x660
  else if mode = 4 then wb_gains bus slv 0x420 0x3f0 0x710
  else act_skip

/-! ## Read-back functions and `init_status` -/

/-- The function `check_reg_mask`. -/
def check_reg_mask (bus : SCCB) (slv_addr reg mask : Int) : Act := fun log =>
  let r := read_reg bus slv_addr reg log
  (if Int.land r.1 (u8 mask) = u8 mask then 1 else 0, r.2)

/-- The function `get_agc_gain`. -/
def get_agc_gain (bus : SCCB) (st : State) : Int × State :=
  let slv := st.sensor.slv_addr
  let ra := read_reg bus slv 0x350a st.log
  if ra.1 < 0 then (0, { st with log := ra.2 })
  else
    let rb := read_reg bus slv 0x350b ra.2
    if rb.1 < 0 then (0, { st with log := rb.2 })
    else
      let res := Int.lor (shr (Int.land rb.1 0xF0) 4) (shl (Int.land ra.1 0x03) 4)
      let res := if Int.land rb.1 0x0F ≠ 0 then res + 1 else res
      (res, { st with log := rb.2 })

/-- The function `get_aec_value`. -/
def get_aec_value (bus : SCCB) (st : State) : Int × State :=
  let slv := st.sensor.slv_addr
  let ra := read_reg bus slv 0x3500 st.log
  if ra.1 < 0 then (0, { st with log := ra.2 })
  else
    let rb := read_reg bus slv 0x3501 ra.2
    if rb.1 < 0 then (0, { st with log := rb.2 })
    else
      let rc := read_reg bus slv 0x3502 rb.2
      if rc.1 < 0 then (0, { st with log := rc.2 })
      else
        let res := Int.lor (Int.lor (shl (Int.land ra.1 0x0F) 12) (shl (Int.land rb.1 0xFF) 4))
          (shr (Int.land rc.1 0xF0) 4)
        (res, { st with log := rc.2 })

/-- The function `get_denoise`. -/
def get_denoise (bus : SCCB) (st : State) : Int × State :=
  let slv := st.sensor.slv_addr
  let r := check_reg_mask bus slv 0x5308 0x10 st.log
  if r.1 = 0 then (0, { st with log := r.2 })
  else
    let q := read_reg bus slv 0x5306 r.2
    (Int.tdiv q.1 4 + 1, { st with log := q.2 })

/-- The C operator `!` on an `int`. -/
def c_not (x : Int) : Int := if x = 0 then 1 else 0

/-- The function `init_status`: the reads in the order of its statements, then the status
record with every field it assigns (the frame size is not assigned). -/
def init_status (h : Headers) (c : Settings) (bus : SCCB) (st : State) : Int × State :=
  let slv := st.sensor.slv_addr
  let sharpness := read_reg bus slv 0x5303 st.log
  let denoise := get_denoise bus { st with log := sharpness.2 }
  let gainceiling := read_reg16 bus slv 0x3A18 denoise.2.log
  let awb := check_reg_mask bus slv h.ISP_CONTROL_01 0x01 gainceiling.2
  let dcw := check_reg_mask bus slv 0x5183 0x80 awb.2
  let agc := check_reg_mask bus slv c.AEC_PK_MANUAL c.AEC_PK_MANUAL_AGC_MANUALEN dcw.2
  let aec := check_reg_mask bus slv c.AEC_PK_MANUAL c.AEC_PK_MANUAL_AEC_MANUALEN agc.2
  let hmirror := check_reg_mask bus slv h.TIMING_TC_REG18 0x40 aec.2
  let vflip := check_reg_mask bus slv h.TIMING_TC_REG18 0x20 hmirror.2
  let colorbar := check_reg_mask bus slv c.PRE_ISP_TEST_SETTING_1 c.TEST_COLOR_BAR vflip.2
  let bpc := check_reg_mask bus slv 0x5000 0x04 colorbar.2
  let wpc := check_reg_mask bus slv 0x5000 0x02 bpc.2
  let raw_gma := check_reg_mask bus slv 0x5000 0x20 wpc.2
  let lenc := check_reg_mask bus slv 0x5000 0x80 raw_gma.2
  let quality := read_reg bus slv c.COMPRESSION_CTRL07 lenc.2
  let awb_gain := check_reg_mask bus slv 0x3406 0x01 quality.2
  let agc_gain := get_agc_gain bus { st with log := awb_gain.2 }
  let aec_value := get_aec_value bus { st with log := agc_gain.2.log }
  let aec2 := check_reg_mask bus slv 0x3a00 0x04 aec_value.2.log
  (0, { sensor := { st.sensor with
          status := {
            framesize := st.sensor.status.framesize
            brightness := 0
            contrast := 0
            saturation := 0
            sharpness := Int.tdiv sharpness.1 8 - 3
            denoise := denoise.1
            ae_level := 0
            gainceiling := Int.land gainceiling.1 0x3FF
            awb := awb.1
            dcw := c_not dcw.1
            agc := c_not agc.1
            aec := c_not aec.1
            hmirror := hmirror.1
            vflip := vflip.1
            colorbar := colorbar.1
            bpc := bpc.1
            wpc := wpc.1
            raw_gma := raw_gma.1
            lenc := lenc.1
            quality := Int.land quality.1 0x3f
            special_effect := 0
            wb_mode := 0
            awb_gain := awb_gain.1
            agc_gain := agc_gain.1
            aec_value := aec_value.1
            aec2 := aec2.1 } },
        log := aec2.2 })

/-- The byte last written to register `reg` of the device `slv` in the transactions
`log`, if there is one. -/
def last_written (slv reg : Int) (log : List BusOp) : Option Int :=
  log.foldl (fun acc op =>
    match op with
    | BusOp.write s r v => if s = slv ∧ r = reg then some v else acc
    | BusOp.read _ _ => acc) none

/-- A bus that behaves as a register store: every write succeeds, and a read returns the
last byte written to that register or, before any write to it, the initial content
`init reg`. -/
def store_bus (init : Int → Int) : SCCB :=
  { SCCB_Read16 := fun log slv reg => (last_written slv reg log).getD (init reg),
    SCCB_Write16 := fun _ _ _ _ => 0 }


/-- The transactions `log2` are `log` followed by one read-modify-write of the register `reg`
that touches bit `k` only: a read of `reg` and, unless that read failed, one write to `reg` of
a byte whose bit `k` is `e` and whose other seven bits are those of the value read.  After a
failed read nothing is written. -/
def FlagWritten (bus : SCCB) (slv reg : Int) (k : Nat) (e : Bool) (log log2 : List BusOp) :
    Prop :=
  if bus.SCCB_Read16 log slv reg < 0 then log2 = log ++ [BusOp.read slv reg]
  else
    ∃ nv : Int, log2 = log ++ [BusOp.read slv reg, BusOp.write slv reg nv] ∧
      ∀ i : Nat, i < 8 →
        Int.testBit nv i = if i = k then e else Int.testBit (bus.SCCB_Read16 log slv reg) i

/-- The bus behaves as a register store: a read of a register that has been written returns
the byte last written to it. -/
def RegisterStore (bus : SCCB) : Prop :=
  ∀ (log : List BusOp) (slv reg v : Int),
    last_written slv reg log = some v → bus.SCCB_Read16 log slv reg = v

/-! ## Properties -/

/-! ### Clock model -/

/-- C1 (as the specification states it, refuted): at xclk = 24 MHz, multiplier 12,
sys_div 1, pre_div 3, seld5 0, pclk_div 2 the code does not compute VCO = 230400,
PLLCLK = 230400000, PCLK = 57600000, and it does not return SYSCLK = 57600000. -/
theorem calc_sysclk_example_not_as_specified :
    calc_clocks 24000000 false 12 1 3 false 0 true 2
        ≠ some { VCO := 230400, PLLCLK := 230400000, PCLK := 57600000, SYSCLK := 57600000 } ∧
      ov5642_calc_sysclk 24000000 false 12 1 3 false 0 true 2 ≠ some 57600000 := by
  decide

/-- C1 (amended): at that input the code computes VCO = 115200, PLLCLK = 115200000 and
PCLK = 28800000, and returns SYSCLK = 28800000. -/
theorem calc_sysclk_example :
    calc_clocks 24000000 false 12 1 3 false 0 true 2
        = some { VCO := 115200, PLLCLK := 115200000, PCLK := 28800000, SYSCLK := 28800000 } ∧
      ov5642_calc_sysclk 24000000 false 12 1 3 false 0 true 2 = some 28800000 := by
  decide

lemma c_div_pos (a b : Int) (hb : 0 < b) : c_div a b = some (Int.tdiv a b) := by
  unfold c_div
  rw [if_neg]
  rintro (h | ⟨_, h⟩) <;> omega

lemma c_div_nonneg (a b : Int) (ha : 0 ≤ a) (hb : b ≠ 0) : c_div a b = some (Int.tdiv a b) := by
  unfold c_div INT_MIN
  rw [if_neg]
  rintro (h | ⟨h, _⟩) <;> omega

lemma c_mul_in_int (a b : Int) (hab : in_int (a * b)) : c_mul a b = some (a * b) := by
  unfold c_mul
  rw [if_pos hab]

lemma c_index_pre_div (i : Int) (h0 : 0 ≤ i) (h7 : i ≤ 7) :
    c_index pll_pre_div2x_map i = some ([2, 3, 4, 5, 6, 8, 12, 16].getD i.toNat 0) ∧
      0 < [2, 3, 4, 5, 6, 8, 12, 16].getD i.toNat (0 : Int) := by
  interval_cases i <;> decide

lemma c_index_seld5 (i : Int) (h0 : 0 ≤ i) (h3 : i ≤ 3) :
    c_index pll_seld52x_map i = some ([2, 2, 4, 5].getD i.toNat 0) ∧
      0 < [2, 2, 4, 5].getD i.toNat (0 : Int) := by
  interval_cases i <;> decide

lemma pclk_divisor_ne_zero (pclk_manual : Bool) (pclk_div : Int) :
    (if (pclk_manual && decide (pclk_div ≠ 0)) = true then pclk_div else 1) ≠ 0 := by
  split
  · rename_i h
    simp only [Bool.and_eq_true, decide_eq_true_eq] at h
    exact h.2
  · norm_num

lemma calc_sysclk_eq_spec (xclk multiplier sys_div pre_div seld5 pclk_div : Int)
    (bypass root_doubling pclk_manual : Bool)
    (hx : 0 ≤ xclk) (hm : 0 ≤ multiplier) (hs : 0 ≤ sys_div)
    (hp : 0 ≤ pre_div ∧ pre_div ≤ 7) (h5 : 0 ≤ seld5 ∧ seld5 ≤ 3)
    (hr : spec_in_range xclk bypass multiplier pre_div root_doubling) :
    ov5642_calc_sysclk xclk bypass multiplier sys_div pre_div root_doubling seld5
        pclk_manual pclk_div
      = some (Int.tdiv (spec_PLLCLK xclk bypass multiplier sys_div pre_div root_doubling seld5) 4) := by
  obtain ⟨hP, hPpos⟩ := c_index_pre_div pre_div hp.1 hp.2
  obtain ⟨hS, hSpos⟩ := c_index_seld5 seld5 h5.1 h5.2
  obtain ⟨r1, r2, r3, r45⟩ := hr
  have hk : 0 ≤ xclk.tdiv 1000 := Int.tdiv_nonneg hx (by norm_num)
  have hroot : (0:Int) ≤ (if root_doubling then 2 else 1) := by split <;> norm_num
  have hV : 0 ≤ spec_VCO xclk multiplier pre_div root_doubling := by
    unfold spec_VCO
    exact Int.tdiv_nonneg (by positivity) hPpos.le
  have hsd : (if sys_div = 0 then 1 else sys_div) = max sys_div 1 := by split <;> omega
  have hsdpos : 0 < max sys_div 1 := by omega
  have hd := pclk_divisor_ne_zero pclk_manual pclk_div
  unfold ov5642_calc_sysclk calc_clocks
  simp only [hP, hS, bind, Option.bind, c_div_pos _ _ (show (0:Int) < 1000 by norm_num), c_mul_in_int _ _ r1, c_mul_in_int _ _ r2, c_mul_in_int _ _ r3, c_div_pos _ _ hPpos]
  cases bypass
  · obtain ⟨r4, r5⟩ := r45 rfl
    have hPLL : 0 ≤ spec_PLLCLK xclk false multiplier sys_div pre_div root_doubling seld5 := by
      unfold spec_PLLCLK
      simp only [Bool.false_eq_true, if_false]
      exact Int.tdiv_nonneg (Int.tdiv_nonneg (by positivity) hsdpos.le) hSpos.le
    unfold spec_PLLCLK at hPLL ⊢
    unfold spec_VCO at r4 r5 hPLL ⊢
    simp only [Bool.false_eq_true, if_false] at hPLL ⊢
    simp only [c_mul_in_int _ _ r4, c_mul_in_int _ _ r5, hsd, c_div_pos _ _ hsdpos,
      c_div_pos _ _ hSpos, c_div_pos _ _ (show (0:Int) < 2 by norm_num),
      c_div_pos _ _ (show (0:Int) < 4 by norm_num),
      c_div_nonneg _ _ (Int.tdiv_nonneg hPLL (show (0:Int) ≤ 2 by norm_num)) hd]
    rfl
  · unfold spec_PLLCLK
    simp only [if_true, c_div_pos _ _ (show (0:Int) < 2 by norm_num),
      c_div_pos _ _ (show (0:Int) < 4 by norm_num),
      c_div_nonneg _ _ (Int.tdiv_nonneg hx (show (0:Int) ≤ 2 by norm_num)) hd]
    rfl

/-- C2: for xclk, multiplier, sys_div ≥ 0, pre_div in 0..7 and seld5 in 0..3, when every
product formed on the way stays in the range of a C `int`, `ov5642_calc_sysclk` returns
PLLCLK/4 for the PLLCLK of the specification's formula (truncating divisions, in that
order); sys_div = 0 gives the result of sys_div = 1, and the result is the same for every
pclk_manual and pclk_div. -/
theorem calc_sysclk_formula (xclk multiplier sys_div pre_div seld5 pclk_div : Int)
    (bypass root_doubling pclk_manual : Bool)
    (hx : 0 ≤ xclk) (hm : 0 ≤ multiplier) (hs : 0 ≤ sys_div)
    (hp : 0 ≤ pre_div ∧ pre_div ≤ 7) (h5 : 0 ≤ seld5 ∧ seld5 ≤ 3)
    (hr : spec_in_range xclk bypass multiplier pre_div root_doubling) :
    ov5642_calc_sysclk xclk bypass multiplier sys_div pre_div root_doubling seld5
        pclk_manual pclk_div
      = some (Int.tdiv
          (spec_PLLCLK xclk bypass multiplier sys_div pre_div root_doubling seld5) 4) ∧
    ov5642_calc_sysclk xclk bypass multiplier 0 pre_div root_doubling seld5
        pclk_manual pclk_div
      = ov5642_calc_sysclk xclk bypass multiplier 1 pre_div root_doubling seld5
        pclk_manual pclk_div ∧
    ∀ (pclk_manual2 : Bool) (pclk_div2 : Int),
      ov5642_calc_sysclk xclk bypass multiplier sys_div pre_div root_doubling seld5
          pclk_manual2 pclk_div2
        = ov5642_calc_sysclk xclk bypass multiplier sys_div pre_div root_doubling seld5
          pclk_manual pclk_div := by
  refine ⟨calc_sysclk_eq_spec xclk multiplier sys_div pre_div seld5 pclk_div bypass
    root_doubling pclk_manual hx hm hs hp h5 hr, ?_, ?_⟩
  · rw [calc_sysclk_eq_spec xclk multiplier 0 pre_div seld5 pclk_div bypass
        root_doubling pclk_manual hx hm (le_refl 0) hp h5 hr,
      calc_sysclk_eq_spec xclk multiplier 1 pre_div seld5 pclk_div bypass
        root_doubling pclk_manual hx hm (by norm_num) hp h5 hr]
    rfl
  · intro pm2 pd2
    rw [calc_sysclk_eq_spec xclk multiplier sys_div pre_div seld5 pd2 bypass
        root_doubling pm2 hx hm hs hp h5 hr,
      calc_sysclk_eq_spec xclk multiplier sys_div pre_div seld5 pclk_div bypass
        root_doubling pclk_manual hx hm hs hp h5 hr]

/-- C2, at xclk = 24 MHz with multiplier 24, sys_div 0, pre_div 3, seld5 0: the range
condition holds and the code returns the value of the formula. -/
theorem calc_sysclk_formula_witness :
    spec_in_range 24000000 false 24 3 false ∧
      ov5642_calc_sysclk 24000000 false 24 0 3 false 0 true 8
        = some (Int.tdiv (spec_PLLCLK 24000000 false 24 0 3 false 0) 4) :=
  ⟨by unfold spec_in_range spec_VCO in_int INT_MIN INT_MAX; decide,
    (calc_sysclk_formula 24000000 24 0 3 0 8 false false true (by decide) (by decide)
      (by decide) (by decide) (by decide)
      (by unfold spec_in_range spec_VCO in_int INT_MIN INT_MAX; decide)).1⟩

/-! ### PLL registers -/

lemma write_reg_ok {bus : SCCB} (hb : NeverFails bus) (slv reg value : Int) (log : List BusOp) :
    write_reg bus slv reg value log = (0, log ++ [BusOp.write slv (u16 reg) (u8 value)]) := by
  unfold write_reg
  rw [hb.2]

lemma pll_ctrl0_byte (root_2x : Bool) (seld5 : Int) (h0 : 0 ≤ seld5) (h1 : seld5 ≤ 3) :
    u8 (Int.lor (if root_2x then 0x04 else 0x00) seld5)
      = Int.lor (if root_2x then 0x04 else 0) seld5 := by
  interval_cases seld5 <;> cases root_2x <;> decide

lemma pll_ctrl1_byte (sys_div : Int) (h0 : 0 ≤ sys_div) (h1 : sys_div ≤ 15) :
    u8 (shl (Int.land sys_div 0x0f) 4) = shl sys_div 4 := by
  interval_cases sys_div <;> decide

lemma pll_ctrl2_byte (bypass : Bool) (pclk_div : Int) (h0 : 0 ≤ pclk_div) (h1 : pclk_div ≤ 31) :
    u8 (Int.lor (if bypass then 0x80 else 0x00) (Int.land pclk_div 0x3f))
      = Int.lor (if bypass then 0x80 else 0) pclk_div := by
  interval_cases pclk_div <;> cases bypass <;> decide

lemma pll_ctrl3_byte (pre_div : Int) (h0 : 0 ≤ pre_div) (h1 : pre_div ≤ 7) :
    u8 (Int.land pre_div 0x7) = pre_div := by
  interval_cases pre_div <;> decide

lemma pll_ratio_byte (multiplier : Int) (h0 : 0 ≤ multiplier) (h1 : multiplier ≤ 31) :
    u8 (Int.land multiplier 0x1F) = multiplier := by
  interval_cases multiplier <;> decide

lemma pll_vfifo_byte (pclk_manual : Bool) :
    u8 (if pclk_manual then 0x22 else 0x20) = if pclk_manual then 0x22 else 0x20 := by
  cases pclk_manual <;> decide

/-- C3: when one of multiplier > 31, sys_div > 15, pre_div > 7, pclk_div > 31, seld5 > 3
holds, `set_pll` returns the error -1, and the bus log and the sensor handle are the ones
before the call. -/
theorem set_pll_rejects_out_of_range (h : Headers) (bus : SCCB) (st : State) (bypass : Bool)
    (multiplier sys_div pre_div : Int) (root_2x : Bool) (seld5 : Int) (pclk_manual : Bool)
    (pclk_div : Int)
    (hbad : multiplier > 31 ∨ sys_div > 15 ∨ pre_div > 7 ∨ pclk_div > 31 ∨ seld5 > 3) :
    (set_pll h bus st bypass multiplier sys_div pre_div root_2x seld5 pclk_manual pclk_div).1
        = -1 ∧
      (set_pll h bus st bypass multiplier sys_div pre_div root_2x seld5 pclk_manual pclk_div).2.log
        = st.log ∧
      (set_pll h bus st bypass multiplier sys_div pre_div root_2x seld5 pclk_manual pclk_div).2
        = st := by
  unfold set_pll
  rw [if_pos hbad]
  exact ⟨rfl, rfl, rfl⟩

/-- C4: for in-range arguments, on a bus that never fails `set_pll` returns 0 and issues
exactly the six writes SC_PLLS_CTRL0 <- (root_2x?0x04:0)|seld5, SC_PLLS_CTRL1 <- sys_div<<4,
SC_PLLS_CTRL2 <- (bypass?0x80:0)|pclk_div, SC_PLLS_CTRL3 <- pre_div, PCLK_RATIO <- multiplier,
VFIFO_CTRL0C <- (pclk_manual?0x22:0x20), in this order; when write number k (from 0) is the
first to fail, it returns a non-zero value and has issued exactly the writes up to and
including that one, the sensor handle being as before. -/
theorem set_pll_writes (h : Headers) (bus : SCCB) (st : State) (bypass : Bool)
    (multiplier sys_div pre_div : Int) (root_2x : Bool) (seld5 : Int) (pclk_manual : Bool)
    (pclk_div : Int)
    (hm : 0 ≤ multiplier ∧ multiplier ≤ 31) (hs : 0 ≤ sys_div ∧ sys_div ≤ 15)
    (hp : 0 ≤ pre_div ∧ pre_div ≤ 7) (hd : 0 ≤ pclk_div ∧ pclk_div ≤ 31)
    (h5 : 0 ≤ seld5 ∧ seld5 ≤ 3) :
    (NeverFails bus →
      set_pll h bus st bypass multiplier sys_div pre_div root_2x seld5 pclk_manual pclk_div
        = (0, { st with log := st.log ++ (spec_pll_writes h st.sensor.slv_addr bypass multiplier
            sys_div pre_div root_2x seld5 pclk_manual pclk_div) })) ∧
    ∀ k, FirstFailure bus st.log (spec_pll_writes h st.sensor.slv_addr bypass multiplier
          sys_div pre_div root_2x seld5 pclk_manual pclk_div) k →
      (set_pll h bus st bypass multiplier sys_div pre_div root_2x seld5 pclk_manual
          pclk_div).1 ≠ 0 ∧
      (set_pll h bus st bypass multiplier sys_div pre_div root_2x seld5 pclk_manual pclk_div).2
        = { st with log := st.log ++ ((spec_pll_writes h st.sensor.slv_addr bypass multiplier
            sys_div pre_div root_2x seld5 pclk_manual pclk_div).take (k + 1)) } := by
  have hok : ¬ (multiplier > 31 ∨ sys_div > 15 ∨ pre_div > 7 ∨ pclk_div > 31 ∨ seld5 > 3) := by
    omega
  have e0 := pll_ctrl0_byte root_2x seld5 h5.1 h5.2
  have e1 := pll_ctrl1_byte sys_div hs.1 hs.2
  have e2 := pll_ctrl2_byte bypass pclk_div hd.1 hd.2
  have e3 := pll_ctrl3_byte pre_div hp.1 hp.2
  have e4 := pll_ratio_byte multiplier hm.1 hm.2
  have e5 := pll_vfifo_byte pclk_manual
  constructor
  · intro hb
    unfold set_pll
    simp only [if_neg hok, write_reg_ok hb, spec_pll_writes, e0, e1, e2, e3, e4, e5, if_true,
      List.append_assoc, List.singleton_append, List.cons_append, List.nil_append]
  · intro k ⟨hk, hlt, hne⟩
    unfold set_pll
    simp only [if_neg hok, write_reg, e0, e1, e2, e3, e4, e5]
    simp only [spec_pll_writes, List.length_cons, List.length_nil] at hk
    have q0 := hlt 0
    have q1 := hlt 1
    have q2 := hlt 2
    have q3 := hlt 3
    have q4 := hlt 4
    interval_cases k <;>
      simp [respond_nth, respond, spec_pll_writes] at hne q0 q1 q2 q3 q4 <;>
      simp [spec_pll_writes, *]

lemma quiet_bus_never_fails : NeverFails quiet_bus :=
  ⟨fun _ _ _ => le_refl 0, fun _ _ _ _ => rfl⟩


/-- C3, at multiplier = 32 (other arguments in range): the call is rejected with -1 and
the state is untouched. -/
theorem set_pll_rejects_out_of_range_witness :
    (set_pll sample_headers quiet_bus sample_state false 32 1 3 false 0 true 2).1 = -1 ∧
      (set_pll sample_headers quiet_bus sample_state false 32 1 3 false 0 true 2).2.log
        = sample_state.log ∧
      (set_pll sample_headers quiet_bus sample_state false 32 1 3 false 0 true 2).2
        = sample_state :=
  set_pll_rejects_out_of_range sample_headers quiet_bus sample_state false 32 1 3 false 0
    true 2 (Or.inl (by decide))

/-- C4, at the arguments (false, 12, 1, 3, false, 0, true, 2): on the quiet bus all six
writes are issued and the result is 0; on the bus whose third transaction fails the
result is not 0 and exactly three writes are issued. -/
theorem set_pll_writes_witness :
    set_pll sample_headers quiet_bus sample_state false 12 1 3 false 0 true 2
        = (0, { sample_state with log := sample_state.log ++
            (spec_pll_writes sample_headers sample_state.sensor.slv_addr false 12 1 3 false 0
              true 2) }) ∧
      (set_pll sample_headers (fail_at 2) sample_state false 12 1 3 false 0 true 2).1 ≠ 0 ∧
      (set_pll sample_headers (fail_at 2) sample_state false 12 1 3 false 0 true 2).2
        = { sample_state with log := sample_state.log ++
            ((spec_pll_writes sample_headers sample_state.sensor.slv_addr false 12 1 3 false 0
              true 2).take (2 + 1)) } :=
  ⟨(set_pll_writes sample_headers quiet_bus sample_state false 12 1 3 false 0 true 2
      (by decide) (by decide) (by decide) (by decide) (by decide)).1 quiet_bus_never_fails,
    (set_pll_writes sample_headers (fail_at 2) sample_state false 12 1 3 false 0 true 2
      (by decide) (by decide) (by decide) (by decide) (by decide)).2 2
      (by unfold FirstFailure; decide)⟩

/-! ### Frame size -/

lemma set_framesize_invalid (h : Headers) (bus : SCCB) (st : State) (framesize : Int)
    (hinv : framesize ≥ h.FRAMESIZE_INVALID) :
    set_framesize h bus st framesize
      = (-1, { st with sensor.status.framesize := framesize }) := by
  unfold set_framesize
  simp only [if_pos hinv]

/-- C5 (the code departs from it): `set_framesize` called with the tag FRAMESIZE_INVALID
on a sensor whose mirror holds frame size 0 returns -1 and issues no bus transaction, but
the mirror's frame size is the invalid tag afterwards, not 0. -/
theorem set_framesize_invalid_tag_stays_in_mirror :
    (set_framesize sample_headers quiet_bus sample_state
        sample_headers.FRAMESIZE_INVALID).1 = -1 ∧
      (set_framesize sample_headers quiet_bus sample_state
        sample_headers.FRAMESIZE_INVALID).2.log = [] ∧
      sample_state.sensor.status.framesize = 0 ∧
      (set_framesize sample_headers quiet_bus sample_state
        sample_headers.FRAMESIZE_INVALID).2.sensor.status.framesize = 22 := by
  rw [set_framesize_invalid sample_headers quiet_bus sample_state _ (le_refl _)]
  exact ⟨rfl, rfl, rfl, rfl⟩

/-- C6 (the code departs from it): for the valid tag 5 on a sensor whose mirror holds
frame size 0, (a) when the first PLL write (transaction 21, to SC_PLLS_CTRL0 = 0x300f)
fails, `set_framesize` returns a failure but the mirror's frame size is 5 afterwards, not 0;
(b) when only the write to ISP_CONTROL_01 = 0x5001 (transaction 17) fails, `set_framesize`
returns 0, all 27 writes are issued and the mirror's frame size is 5. -/
theorem set_framesize_failures_not_rolled_back :
    sample_state.sensor.status.framesize = 0 ∧
      (set_framesize sample_headers (fail_at 21) sample_state 5).1 ≠ 0 ∧
      (set_framesize sample_headers (fail_at 21) sample_state 5).2.sensor.status.framesize
        = 5 ∧
      (set_framesize sample_headers (fail_at 21) sample_state 5).2.log.length = 22 ∧
      (set_framesize sample_headers (fail_at 21) sample_state 5).2.log[21]?
        = some (BusOp.write 0x3c 0x300f 0) ∧
      (set_framesize sample_headers (fail_at 17) sample_state 5).1 = 0 ∧
      (set_framesize sample_headers (fail_at 17) sample_state 5).2.sensor.status.framesize
        = 5 ∧
      (set_framesize sample_headers (fail_at 17) sample_state 5).2.log[17]?
        = some (BusOp.write 0x3c 0x5001 0x7f) ∧
      (set_framesize sample_headers (fail_at 17) sample_state 5).2.log.length = 27 := by
  decide


/-! ### Per-control setters -/

lemma set_reg_bits_ok {bus : SCCB} (hb : NeverFails bus) (slv reg offset mask value : Int)
    (log : List BusOp) :
    set_reg_bits bus slv reg offset mask value log
      = (0, log ++ [BusOp.read slv (u16 reg)] ++ [BusOp.write slv (u16 reg)
          (u8 (u8 (Int.lor
            (Int.land (u8 (bus.SCCB_Read16 log slv (u16 reg)))
              (Int.lnot (shl (u8 mask) (u8 offset).toNat)))
            (shl (Int.land (u8 value) (u8 mask)) (u8 offset).toNat))))]) := by
  unfold set_reg_bits
  have hr : ¬ (read_reg bus slv reg log).1 < 0 := not_lt.mpr (hb.1 _ _ _)
  simp only [if_neg hr, write_reg_ok hb]
  rfl

lemma set_saturation_loop_ok {bus : SCCB} (hb : NeverFails bus) (slv : Int) (regs : Int → Int) :
    ∀ (fuel : Nat) (i : Int) (log : List BusOp),
      (set_saturation_loop bus slv regs fuel i 0 log).1 = 0 := by
  intro fuel
  induction fuel with
  | zero => intro i log; rfl
  | succ n ih =>
    intro i log
    unfold set_saturation_loop
    by_cases hi : i < 11
    · simp only [if_pos hi, write_reg_ok hb, ne_eq, not_true_eq_false, if_false]
      exact ih _ _
    · simp only [if_neg hi]

lemma set_ae_level_checked {bus : SCCB} (hb : NeverFails bus) :
    RangeChecked (set_ae_level bus) (-5) 5 camera_status_t.ae_level := by
  intro st x
  unfold set_ae_level
  by_cases hx : x < -5 ∨ x > 5
  · rw [if_pos hx]
    exact ⟨⟨fun _ => by omega, fun _ => by simp⟩, fun _ => rfl, fun _ _ => by omega⟩
  · rw [if_neg hx]
    simp only [c_or, write_reg_ok hb, ne_eq, not_true_eq_false, if_false, if_true]
    refine ⟨⟨fun h => ?_, fun h => ?_⟩, fun h => ?_, fun _ _ => ?_⟩ <;>
      trivial

lemma set_wb_mode_checked {bus : SCCB} (hb : NeverFails bus) :
    RangeChecked (set_wb_mode bus) 0 4 camera_status_t.wb_mode := by
  intro st x
  unfold set_wb_mode
  by_cases hx : x < 0 ∨ x > 4
  · rw [if_pos hx]
    exact ⟨⟨fun _ => by omega, fun _ => by simp⟩, fun _ => rfl, fun _ _ => by omega⟩
  · rw [if_neg hx]
    have h0 : 0 ≤ x := by omega
    have h4 : x ≤ 4 := by omega
    interval_cases x <;>
      simp [c_or, wb_gains, write_reg16, write_reg_ok hb]

lemma set_special_effect_checked (h : Headers) {bus : SCCB} (hb : NeverFails bus) :
    RangeChecked (set_special_effect h bus) 0 6 camera_status_t.special_effect := by
  intro st x
  unfold set_special_effect
  by_cases hx : x < 0 ∨ x > 6
  · rw [if_pos hx]
    exact ⟨⟨fun _ => by omega, fun _ => by simp⟩, fun _ => rfl, fun _ _ => by omega⟩
  · rw [if_neg hx]
    simp only [c_or, write_reg_ok hb, ne_eq, not_true_eq_false, if_false, if_true]
    refine ⟨⟨fun h => ?_, fun h => ?_⟩, fun h => ?_, fun _ _ => ?_⟩ <;>
      trivial

lemma set_contrast_checked {bus : SCCB} (hb : NeverFails bus) :
    RangeChecked (set_contrast bus) (-3) 3 camera_status_t.contrast := by
  intro st x
  unfold set_contrast
  by_cases hx : x > 3 ∨ x < -3
  · rw [if_pos hx]
    exact ⟨⟨fun _ => by omega, fun _ => by simp⟩, fun _ => rfl, fun _ _ => by omega⟩
  · rw [if_neg hx]
    simp only [write_reg_ok hb, ne_eq, not_true_eq_false, if_false, if_true]
    refine ⟨⟨fun h => ?_, fun h => ?_⟩, fun h => ?_, fun _ _ => ?_⟩ <;>
      first | trivial | omega

lemma set_saturation_checked (h : Headers) {bus : SCCB} (hb : NeverFails bus) :
    RangeChecked (set_saturation h bus) (-4) 4 camera_status_t.saturation := by
  intro st x
  unfold set_saturation
  by_cases hx : x > 4 ∨ x < -4
  · rw [if_pos hx]
    exact ⟨⟨fun _ => by omega, fun _ => by simp⟩, fun _ => rfl, fun _ _ => by omega⟩
  · rw [if_neg hx]
    simp only [set_saturation_loop_ok hb, ne_eq, not_true_eq_false, if_false, if_true]
    refine ⟨⟨fun h => ?_, fun h => ?_⟩, fun h => ?_, fun _ _ => ?_⟩ <;>
      first | trivial | omega

lemma set_sharpness_checked {bus : SCCB} (hb : NeverFails bus) :
    RangeChecked (set_sharpness bus) (-3) 3 camera_status_t.sharpness := by
  intro st x
  unfold set_sharpness
  by_cases hx : x > 3 ∨ x < -3
  · rw [if_pos hx]
    exact ⟨⟨fun _ => by omega, fun _ => by simp⟩, fun _ => rfl, fun _ _ => by omega⟩
  · rw [if_neg hx]
    simp only [c_or, write_reg_bits, set_reg_bits_ok hb, write_reg_ok hb, ne_eq,
      not_true_eq_false, if_false, if_true]
    refine ⟨⟨fun h => ?_, fun h => ?_⟩, fun h => ?_, fun _ _ => ?_⟩ <;>
      first | trivial | omega

lemma set_denoise_checked {bus : SCCB} (hb : NeverFails bus) :
    RangeChecked (set_denoise bus) 0 8 camera_status_t.denoise := by
  intro st x
  unfold set_denoise
  by_cases hx : x < 0 ∨ x > 8
  · rw [if_pos hx]
    exact ⟨⟨fun _ => by omega, fun _ => by simp⟩, fun _ => rfl, fun _ _ => by omega⟩
  · rw [if_neg hx]
    by_cases hpos : x > 0
    · simp only [write_reg_bits, set_reg_bits_ok hb, write_reg_ok hb, hpos, and_self,
        ne_eq, not_true_eq_false, if_false, if_true]
      refine ⟨⟨fun h => ?_, fun h => ?_⟩, fun h => ?_, fun _ _ => ?_⟩ <;>
        trivial
    · simp only [write_reg_bits, set_reg_bits_ok hb, write_reg_ok hb, hpos, and_false,
        ne_eq, not_true_eq_false, if_false, if_true]
      refine ⟨⟨fun h => ?_, fun h => ?_⟩, fun h => ?_, fun _ _ => ?_⟩ <;>
        trivial

/-- C7: on a bus that never fails, each of set_ae_level (range -5..5), set_wb_mode (0..4),
set_special_effect (0..6), set_contrast (-3..3), set_saturation (-4..4), set_sharpness
(-3..3) and set_denoise (0..8) returns an error exactly when its argument is outside the
range; outside the range the bus log and the sensor handle are unchanged; inside the
range the mirror field of the setter holds the argument afterwards. -/
theorem setters_range_checked (h : Headers) (bus : SCCB) (hb : NeverFails bus) :
    RangeChecked (set_ae_level bus) (-5) 5 camera_status_t.ae_level ∧
    RangeChecked (set_wb_mode bus) 0 4 camera_status_t.wb_mode ∧
    RangeChecked (set_special_effect h bus) 0 6 camera_status_t.special_effect ∧
    RangeChecked (set_contrast bus) (-3) 3 camera_status_t.contrast ∧
    RangeChecked (set_saturation h bus) (-4) 4 camera_status_t.saturation ∧
    RangeChecked (set_sharpness bus) (-3) 3 camera_status_t.sharpness ∧
    RangeChecked (set_denoise bus) 0 8 camera_status_t.denoise :=
  ⟨set_ae_level_checked hb, set_wb_mode_checked hb, set_special_effect_checked h hb,
    set_contrast_checked hb, set_saturation_checked h hb, set_sharpness_checked hb,
    set_denoise_checked hb⟩

/-- C7, on the quiet bus: `set_ae_level` with 6 returns an error and leaves the state as
it is, and with 3 it stores 3 in the mirror. -/
theorem setters_range_checked_witness :
    (set_ae_level quiet_bus sample_state 6).1 ≠ 0 ∧
      (set_ae_level quiet_bus sample_state 6).2 = sample_state ∧
      (set_ae_level quiet_bus sample_state 3).2.sensor.status.ae_level = 3 :=
  ⟨((setters_range_checked sample_headers quiet_bus quiet_bus_never_fails).1
      sample_state 6).1.mpr (Or.inr (by decide)),
    ((setters_range_checked sample_headers quiet_bus quiet_bus_never_fails).1
      sample_state 6).2.1 (Or.inr (by decide)),
    ((setters_range_checked sample_headers quiet_bus quiet_bus_never_fails).1
      sample_state 3).2.2 (by decide) (by decide)⟩

lemma set_brightness_unchecked {bus : SCCB} (hb : NeverFails bus) (st : State) (level : Int) :
    (set_brightness bus st level).1 = 0 ∧
      (set_brightness bus st level).2.sensor.status.brightness = level ∧
      (set_brightness bus st level).2.log.length = st.log.length + 3 := by
  unfold set_brightness
  simp only [write_reg_bits, set_reg_bits_ok hb, write_reg_ok hb, if_true, List.length_append,
    List.length_singleton]
  exact ⟨trivial, trivial, trivial⟩

/-- C8 (the code departs from it): `set_brightness` with level 4, outside -3..3, on the
quiet bus returns 0, issues three bus transactions (a write to 0x5587, a read of 0x5588
and a write to 0x5588) and stores 4 in the mirror's brightness, which was 0. -/
theorem set_brightness_accepts_out_of_range :
    (set_brightness quiet_bus sample_state 4).1 = 0 ∧
      (set_brightness quiet_bus sample_state 4).2.log.length = 3 ∧
      (set_brightness quiet_bus sample_state 4).2.log.take 2
        = [BusOp.write 0x3c 0x5587 0, BusOp.read 0x3c 0x5588] ∧
      (∃ v, (set_brightness quiet_bus sample_state 4).2.log[2]?
        = some (BusOp.write 0x3c 0x5588 v)) ∧
      sample_state.sensor.status.brightness = 0 ∧
      (set_brightness quiet_bus sample_state 4).2.sensor.status.brightness = 4 :=
  ⟨by decide, by decide, by decide, ⟨_, rfl⟩, by decide, by decide⟩

lemma ae_level_bytes (level : Int) (h1 : -5 ≤ level) (h2 : level ≤ 5) :
    u8 (Int.tdiv (((level + 5) * 10 + 5) * 27) 25) = Int.tdiv (((level + 5) * 10 + 5) * 27) 25 ∧
    u8 (Int.tdiv (((level + 5) * 10 + 5) * 23) 25) = Int.tdiv (((level + 5) * 10 + 5) * 23) 25 ∧
    u8 (if shl (Int.tdiv (((level + 5) * 10 + 5) * 27) 25) 1 > 255 then 255
        else shl (Int.tdiv (((level + 5) * 10 + 5) * 27) 25) 1)
      = min (shl (Int.tdiv (((level + 5) * 10 + 5) * 27) 25) 1) 255 ∧
    u8 (shr (Int.tdiv (((level + 5) * 10 + 5) * 23) 25) 1)
      = shr (Int.tdiv (((level + 5) * 10 + 5) * 23) 25) 1 := by
  interval_cases level <;> decide

/-- C9: for every level in -5..5, on a bus that never fails `set_ae_level` returns 0,
issues exactly the writes 0x3a0f <- high, 0x3a10 <- low, 0x3a1b <- high, 0x3a1e <- low,
0x3a11 <- fast_high, 0x3a1f <- fast_low (target = (level+5)*10+5, low = target*23/25,
high = target*27/25, fast_low = low>>1, fast_high = min(high<<1, 255)) in this order and
stores level in the mirror; for level 0 the values are high 59, low 50, fast_high 118,
fast_low 25. -/
theorem set_ae_level_writes (bus : SCCB) (st : State) (level : Int) (hb : NeverFails bus)
    (h1 : -5 ≤ level) (h2 : level ≤ 5) :
    set_ae_level bus st level
      = (0, { st with sensor.status.ae_level := level,
                      log := st.log ++ spec_ae_writes st.sensor.slv_addr level }) ∧
    spec_ae_writes st.sensor.slv_addr 0
      = [ BusOp.write st.sensor.slv_addr 0x3a0f 59, BusOp.write st.sensor.slv_addr 0x3a10 50,
          BusOp.write st.sensor.slv_addr 0x3a1b 59, BusOp.write st.sensor.slv_addr 0x3a1e 50,
          BusOp.write st.sensor.slv_addr 0x3a11 118,
          BusOp.write st.sensor.slv_addr 0x3a1f 25 ] := by
  obtain ⟨e1, e2, e3, e4⟩ := ae_level_bytes level h1 h2
  have hx : ¬ (level < -5 ∨ level > 5) := by omega
  constructor
  · unfold set_ae_level
    rw [if_neg hx]
    simp only [c_or, write_reg_ok hb, ne_eq, not_true_eq_false, if_false, if_true, e1, e2, e3,
      e4, spec_ae_writes, List.append_assoc, List.singleton_append, List.cons_append,
      List.nil_append]
    rfl
  · rfl

lemma agc_gain_bytes (c : Int) (h1 : 0 ≤ c) (h2 : c ≤ 64) :
    (if shl c 4 ≠ 0 then shl c 4 - 1 else shl c 4) = spec_agc_code c ∧
    u8 (shr (spec_agc_code c) 8) = shr (spec_agc_code c) 8 ∧
    u8 (Int.land (spec_agc_code c) 0xff) = Int.land (spec_agc_code c) 0xff := by
  interval_cases c <;> decide

lemma spec_agc_clamp_range (gain : Int) :
    0 ≤ spec_agc_clamp gain ∧ spec_agc_clamp gain ≤ 64 := by
  unfold spec_agc_clamp
  split_ifs <;> omega

lemma set_agc_gain_eq {bus : SCCB} (hb : NeverFails bus) (st : State) (gain : Int) :
    set_agc_gain bus st gain
      = (0, { st with sensor.status.agc_gain := spec_agc_clamp gain,
                      log := st.log ++
                        [ BusOp.write st.sensor.slv_addr 0x350a
                            (shr (spec_agc_code (spec_agc_clamp gain)) 8),
                          BusOp.write st.sensor.slv_addr 0x350b
                            (Int.land (spec_agc_code (spec_agc_clamp gain)) 0xff) ] }) := by
  obtain ⟨c1, c2⟩ := spec_agc_clamp_range gain
  obtain ⟨e1, e2, e3⟩ := agc_gain_bytes (spec_agc_clamp gain) c1 c2
  have hc : (if gain < 0 then 0 else if gain > 64 then 64 else gain) = spec_agc_clamp gain :=
    rfl
  unfold set_agc_gain
  simp only [hc, e1, e2, e3, c_or, write_reg_ok hb, ne_eq, not_true_eq_false, if_false,
    if_true, List.append_assoc, List.singleton_append, List.cons_append, List.nil_append]
  rfl

/-- C10: for every integer gain, with c = 0 if gain < 0, 64 if gain > 64, gain otherwise,
and v = (c<<4) minus 1 when c is not zero, on a bus that never fails `set_agc_gain` returns
0, writes 0x350a <- v>>8 and then 0x350b <- v & 0xff, and stores c in the mirror's
agc_gain; a gain below 0 behaves as 0 and a gain above 64 as 64. -/
theorem set_agc_gain_writes (bus : SCCB) (st : State) (gain : Int) (hb : NeverFails bus) :
    set_agc_gain bus st gain
      = (0, { st with sensor.status.agc_gain := spec_agc_clamp gain,
                      log := st.log ++
                        [ BusOp.write st.sensor.slv_addr 0x350a
                            (shr (spec_agc_code (spec_agc_clamp gain)) 8),
                          BusOp.write st.sensor.slv_addr 0x350b
                            (Int.land (spec_agc_code (spec_agc_clamp gain)) 0xff) ] }) ∧
    (gain < 0 → set_agc_gain bus st gain = set_agc_gain bus st 0) ∧
    (gain > 64 → set_agc_gain bus st gain = set_agc_gain bus st 64) := by
  refine ⟨set_agc_gain_eq hb st gain, ?_, ?_⟩
  · intro hneg
    have hc : spec_agc_clamp gain = spec_agc_clamp 0 := by
      unfold spec_agc_clamp
      rw [if_pos hneg]
      rfl
    rw [set_agc_gain_eq hb st gain, set_agc_gain_eq hb st 0, hc]
  · intro hbig
    have hc : spec_agc_clamp gain = spec_agc_clamp 64 := by
      unfold spec_agc_clamp
      rw [if_neg (by omega), if_pos hbig]
      rfl
    rw [set_agc_gain_eq hb st gain, set_agc_gain_eq hb st 64, hc]

/-- C10, on the quiet bus with gain 100: the call returns 0, writes 0x350a <- 3 and
0x350b <- 0xff, and stores 64. -/
theorem set_agc_gain_writes_witness :
    set_agc_gain quiet_bus sample_state 100
      = (0, { sample_state with
                      sensor.status.agc_gain := spec_agc_clamp 100,
                      log := sample_state.log ++
                        [ BusOp.write sample_state.sensor.slv_addr 0x350a
                            (shr (spec_agc_code (spec_agc_clamp 100)) 8),
                          BusOp.write sample_state.sensor.slv_addr 0x350b
                            (Int.land (spec_agc_code (spec_agc_clamp 100)) 0xff) ] }) ∧
      spec_agc_clamp 100 = 64 ∧ shr (spec_agc_code (spec_agc_clamp 100)) 8 = 3 ∧
      Int.land (spec_agc_code (spec_agc_clamp 100)) 0xff = 0xff :=
  ⟨(set_agc_gain_writes quiet_bus sample_state 100 quiet_bus_never_fails).1,
    by decide, by decide, by decide⟩

/-- C9, on the quiet bus with level 0: the six writes carry 59, 50, 59, 50, 118, 25. -/
theorem set_ae_level_writes_witness :
    set_ae_level quiet_bus sample_state 0
      = (0, { sample_state with
                      sensor.status.ae_level := 0,
                      log := sample_state.log ++
                        spec_ae_writes sample_state.sensor.slv_addr 0 }) ∧
    spec_ae_writes sample_state.sensor.slv_addr 0
      = [ BusOp.write sample_state.sensor.slv_addr 0x3a0f 59,
          BusOp.write sample_state.sensor.slv_addr 0x3a10 50,
          BusOp.write sample_state.sensor.slv_addr 0x3a1b 59,
          BusOp.write sample_state.sensor.slv_addr 0x3a1e 50,
          BusOp.write sample_state.sensor.slv_addr 0x3a11 118,
          BusOp.write sample_state.sensor.slv_addr 0x3a1f 25 ] :=
  set_ae_level_writes quiet_bus sample_state 0 quiet_bus_never_fails (by decide) (by decide)


/-! ### White balance -/

lemma set_wb_mode_ok {bus : SCCB} (hb : NeverFails bus) (st : State) (m : Int)
    (h0 : 0 ≤ m) (h4 : m ≤ 4) :
    set_wb_mode bus st m
      = (0, { st with sensor.status.wb_mode := m,
                      log := st.log ++ spec_wb_writes st.sensor.slv_addr m }) := by
  unfold set_wb_mode
  rw [if_neg (by omega)]
  interval_cases m <;>
    simp [c_or, wb_gains, write_reg16, write_reg_ok hb, spec_wb_writes, spec_write16, u8, u16,
      shr]

lemma set_awb_gain_dsp_ok {bus : SCCB} (hb : NeverFails bus) (st : State) (enable : Int)
    (h0 : 0 ≤ st.sensor.status.wb_mode) (h4 : st.sensor.status.wb_mode ≤ 4) :
    (set_awb_gain_dsp bus st enable).1 = 0 ∧
    (set_awb_gain_dsp bus st enable).2.sensor.status.wb_mode = st.sensor.status.wb_mode ∧
    (set_awb_gain_dsp bus st enable).2.sensor.slv_addr = st.sensor.slv_addr ∧
    (set_awb_gain_dsp bus st enable).2.log
      = st.log ++ spec_wb_writes st.sensor.slv_addr
          (if enable ≠ 0 then st.sensor.status.wb_mode else 0) := by
  have e := set_wb_mode_ok hb st (if enable ≠ 0 then st.sensor.status.wb_mode else 0)
    (by split_ifs <;> omega) (by split_ifs <;> omega)
  unfold set_awb_gain_dsp
  simp only [e, if_true]
  exact ⟨trivial, trivial, trivial, trivial⟩

/-- C11: for a white-balance mode m in 0..4 held in the mirror, on a bus that never
fails, `set_awb_gain (false)` followed by `set_awb_gain (true)` both return 0 and leave
the mirror's wb_mode equal to m after each call, and the second call issues exactly the
writes of `set_wb_mode (m)`: the manual toggle and, for m in 1..4, the R/G/B gains of
preset m. -/
theorem awb_gain_round_trip (bus : SCCB) (st : State) (m : Int) (hb : NeverFails bus)
    (hm : st.sensor.status.wb_mode = m) (h0 : 0 ≤ m) (h4 : m ≤ 4) :
    (set_awb_gain_dsp bus st 0).1 = 0 ∧
    (set_awb_gain_dsp bus st 0).2.sensor.status.wb_mode = m ∧
    (set_awb_gain_dsp bus (set_awb_gain_dsp bus st 0).2 1).1 = 0 ∧
    (set_awb_gain_dsp bus (set_awb_gain_dsp bus st 0).2 1).2.sensor.status.wb_mode = m ∧
    (set_awb_gain_dsp bus (set_awb_gain_dsp bus st 0).2 1).2.log
      = (set_awb_gain_dsp bus st 0).2.log ++ spec_wb_writes st.sensor.slv_addr m ∧
    (set_wb_mode bus (set_awb_gain_dsp bus st 0).2 m).2.log
      = (set_awb_gain_dsp bus st 0).2.log ++ spec_wb_writes st.sensor.slv_addr m := by
  obtain ⟨a1, a2, a3, a4⟩ := set_awb_gain_dsp_ok hb st 0 (by omega) (by omega)
  obtain ⟨b1, b2, b3, b4⟩ := set_awb_gain_dsp_ok hb (set_awb_gain_dsp bus st 0).2 1
    (by omega) (by omega)
  have e2 := set_wb_mode_ok hb (set_awb_gain_dsp bus st 0).2 m h0 h4
  refine ⟨a1, by omega, b1, by omega, ?_, ?_⟩
  · rw [b4, a2, a3, hm]
    simp only [ne_eq, one_ne_zero, not_false_eq_true, if_true]
  · rw [e2, a3]

/-- C11, on the quiet bus from a state whose mirror holds white-balance mode 2: after
disabling and enabling again the mirror holds 2 and the second call issued the writes of
preset 2. -/
theorem awb_gain_round_trip_witness :
    (set_wb_mode quiet_bus sample_state 2).2.sensor.status.wb_mode = 2 ∧
    (set_awb_gain_dsp quiet_bus
      (set_awb_gain_dsp quiet_bus (set_wb_mode quiet_bus sample_state 2).2 0).2
        1).2.sensor.status.wb_mode = 2 ∧
    (set_awb_gain_dsp quiet_bus
      (set_awb_gain_dsp quiet_bus (set_wb_mode quiet_bus sample_state 2).2 0).2 1).2.log
      = (set_awb_gain_dsp quiet_bus (set_wb_mode quiet_bus sample_state 2).2 0).2.log ++
          spec_wb_writes (set_wb_mode quiet_bus sample_state 2).2.sensor.slv_addr 2 :=
  ⟨by decide,
    (awb_gain_round_trip quiet_bus (set_wb_mode quiet_bus sample_state 2).2 2
      quiet_bus_never_fails (by decide) (by decide) (by decide)).2.2.2.1,
    (awb_gain_round_trip quiet_bus (set_wb_mode quiet_bus sample_state 2).2 2
      quiet_bus_never_fails (by decide) (by decide) (by decide)).2.2.2.2.1⟩

/-! ### Image options -/

/-- C12 (the code departs from it): on a bus whose first transaction fails, `set_hmirror (1)`
and `set_vflip (1)` on a sensor whose mirror holds hmirror = 0 and vflip = 0 return the
failure -1, yet the mirror's hmirror (resp. vflip) is 1 afterwards. -/
theorem set_hmirror_vflip_keep_value_on_failure :
    sample_state.sensor.status.hmirror = 0 ∧
    (set_hmirror sample_headers (fail_at 0) sample_state 1).1 = -1 ∧
    (set_hmirror sample_headers (fail_at 0) sample_state 1).2.sensor.status.hmirror = 1 ∧
    sample_state.sensor.status.vflip = 0 ∧
    (set_vflip sample_headers (fail_at 0) sample_state 1).1 = -1 ∧
    (set_vflip sample_headers (fail_at 0) sample_state 1).2.sensor.status.vflip = 1 := by
  decide

/-- C14 (the code departs from it): for a pixel format other than JPEG (tag 0, JPEG being
4) with vflip = 1 in the mirror, the byte that `set_image_options` writes to
TIMING_TC_REG18 (0x3818) is 0x80: the compression-enable bit is set although the format
is not JPEG.  The binning bytes are as stated (frame size 0, at or below SVGA: 0x80 to
ANALOG_CONTROL_D and 0x40 to ARRAY_CONTROL01). -/
theorem set_image_options_vflip_sets_compression_bit :
    sample_state_vflip.sensor.pixformat ≠ sample_headers.PIXFORMAT_JPEG ∧
    sample_state_vflip.sensor.status.vflip = 1 ∧
    (set_image_options sample_headers quiet_bus sample_state_vflip).1 = 0 ∧
    (set_image_options sample_headers quiet_bus sample_state_vflip).2.log
      = [BusOp.write 0x3c 0x3818 0x80, BusOp.write 0x3c 0x370d 0x80,
          BusOp.write 0x3c 0x3621 0x40] := by
  decide

lemma image_option_bytes_u8 (h : Headers) (s : sensor_t) :
    u8 (image_option_bytes h s).1 = (image_option_bytes h s).1 ∧
    u8 (image_option_bytes h s).2.1 = (image_option_bytes h s).2.1 ∧
    u8 (image_option_bytes h s).2.2 = (image_option_bytes h s).2.2 := by
  unfold image_option_bytes
  simp only
  refine ⟨?_, ?_, ?_⟩ <;> split_ifs <;> decide

lemma set_image_options_ok {bus : SCCB} (hb : NeverFails bus) (h : Headers) (st : State) :
    set_image_options h bus st
      = (0, { st with log := st.log ++ image_option_writes h st.sensor }) := by
  obtain ⟨e1, e2, e3⟩ := image_option_bytes_u8 h st.sensor
  unfold image_option_bytes at e1 e2 e3
  unfold set_image_options image_option_writes image_option_bytes
  simp only [c_or, write_reg_ok hb, ne_eq, not_true_eq_false, if_false, List.append_assoc,
    List.singleton_append, List.cons_append, List.nil_append] at e1 e2 e3 ⊢
  rw [e1, e2, e3]

/-- C15: on a bus that never fails, two calls of `set_image_options` in a row both return
0, each issues the same three writes (TIMING_TC_REG18, ANALOG_CONTROL_D, ARRAY_CONTROL01,
with the bytes computed from the handle), and the sensor handle (Status Mirror and pixel
format) is the one before the calls. -/
theorem set_image_options_idempotent (h : Headers) (bus : SCCB) (st : State)
    (hb : NeverFails bus) :
    set_image_options h bus st
      = (0, { st with log := st.log ++ image_option_writes h st.sensor }) ∧
    set_image_options h bus (set_image_options h bus st).2
      = (0, { st with log := (st.log ++ image_option_writes h st.sensor) ++
                image_option_writes h st.sensor }) := by
  refine ⟨set_image_options_ok hb h st, ?_⟩
  rw [set_image_options_ok hb h st, set_image_options_ok hb h _]

/-- C15, on the quiet bus and the sample sensor: both calls issue 0x3818 <- 0,
0x370d <- 0x80, 0x3621 <- 0x40. -/
theorem set_image_options_idempotent_witness :
    image_option_writes sample_headers sample_state.sensor
      = [BusOp.write 0x3c 0x3818 0, BusOp.write 0x3c 0x370d 0x80,
          BusOp.write 0x3c 0x3621 0x40] ∧
    set_image_options sample_headers quiet_bus
        (set_image_options sample_headers quiet_bus sample_state).2
      = (0, { sample_state with log := (sample_state.log ++
            image_option_writes sample_headers sample_state.sensor) ++
              image_option_writes sample_headers sample_state.sensor }) :=
  ⟨by decide,
    (set_image_options_idempotent sample_headers quiet_bus sample_state
      quiet_bus_never_fails).2⟩

/-! ### Exposure value -/

lemma land_bounds (a b : Int) (ha : 0 ≤ a) (hb : 0 ≤ b) :
    0 ≤ Int.land a b ∧ Int.land a b ≤ b := by
  obtain ⟨m, rfl⟩ := Int.eq_ofNat_of_zero_le ha
  obtain ⟨n, rfl⟩ := Int.eq_ofNat_of_zero_le hb
  have e : Int.land (m : Int) (n : Int) = ((m &&& n : Nat) : Int) := rfl
  rw [e]
  exact ⟨Int.ofNat_nonneg _, Int.ofNat_le.mpr Nat.and_le_right⟩

lemma lor_nonneg (a b : Int) (ha : 0 ≤ a) (hb : 0 ≤ b) : 0 ≤ Int.lor a b := by
  obtain ⟨m, rfl⟩ := Int.eq_ofNat_of_zero_le ha
  obtain ⟨n, rfl⟩ := Int.eq_ofNat_of_zero_le hb
  have e : Int.lor (m : Int) (n : Int) = ((m ||| n : Nat) : Int) := rfl
  rw [e]
  exact Int.ofNat_nonneg _

lemma u8_of_range (x : Int) (h0 : 0 ≤ x) (h1 : x ≤ 255) : u8 x = x := by
  unfold u8
  omega

lemma shr_nonneg (a : Int) (n : Nat) (ha : 0 ≤ a) : 0 ≤ shr a n := by
  unfold shr
  exact Int.ediv_nonneg ha (by positivity)

lemma shl_nonneg (a : Int) (n : Nat) (ha : 0 ≤ a) : 0 ≤ shl a n := by
  unfold shl
  positivity

lemma spec_aec_ceiling_nonneg (r1 r2 : Int) (h1 : 0 ≤ r1) (h2 : 0 ≤ r2) :
    0 ≤ spec_aec_ceiling r1 r2 := by
  unfold spec_aec_ceiling
  exact lor_nonneg _ _ (shl_nonneg _ _ (land_bounds _ _ h1 (by norm_num)).1)
    (land_bounds _ _ h2 (by norm_num)).1

lemma aec_bytes (v : Int) (hv : 0 ≤ v) :
    u8 (Int.land (shr v 12) 0x0F) = Int.land (shr v 12) 0x0F ∧
    u8 (Int.land (shr v 4) 0xFF) = Int.land (shr v 4) 0xFF ∧
    u8 (Int.land (shl v 4) 0xF0) = Int.land (shl v 4) 0xF0 := by
  have a := land_bounds (shr v 12) 0x0F (shr_nonneg _ _ hv) (by norm_num)
  have b := land_bounds (shr v 4) 0xFF (shr_nonneg _ _ hv) (by norm_num)
  have c := land_bounds (shl v 4) 0xF0 (shl_nonneg _ _ hv) (by norm_num)
  exact ⟨u8_of_range _ a.1 (by omega), u8_of_range _ b.1 (by omega),
    u8_of_range _ c.1 (by omega)⟩

lemma read_reg16_380e (bus : SCCB) (slv : Int) (log : List BusOp) :
    read_reg16 bus slv 0x380e log
      = if bus.SCCB_Read16 log slv 0x380e < 0 then
          (bus.SCCB_Read16 log slv 0x380e, log ++ [BusOp.read slv 0x380e])
        else if bus.SCCB_Read16 (log ++ [BusOp.read slv 0x380e]) slv 0x380f < 0 then
          (bus.SCCB_Read16 (log ++ [BusOp.read slv 0x380e]) slv 0x380f,
            log ++ [BusOp.read slv 0x380e] ++ [BusOp.read slv 0x380f])
        else
          (spec_aec_ceiling (bus.SCCB_Read16 log slv 0x380e)
              (bus.SCCB_Read16 (log ++ [BusOp.read slv 0x380e]) slv 0x380f),
            log ++ [BusOp.read slv 0x380e] ++ [BusOp.read slv 0x380f]) := by
  have hu1 : u16 0x380e = 0x380e := by decide
  have hu2 : u16 (u16 0x380e + 1) = 0x380f := by decide
  unfold read_reg16 read_reg spec_aec_ceiling
  simp only [hu2]
  simp only [hu1]
  by_cases h1 : bus.SCCB_Read16 log slv 0x380e < 0
  · rw [if_pos h1, if_neg (by omega)]
  · rw [if_neg h1, if_pos (by omega)]

lemma set_aec_value_of_ceiling (bus : SCCB) (st : State) (value M : Int) (log2 : List BusOp)
    (hread : read_reg16 bus st.sensor.slv_addr 0x380e st.log = (M, log2)) (hM : 0 ≤ M)
    (hv : 0 ≤ value) :
    ((∀ i, i < 3 →
        respond_nth bus log2 (spec_aec_writes st.sensor.slv_addr (min value M)) i = 0) →
      set_aec_value bus st value
        = (0, { st with sensor.status.aec_value := min value M,
                        log := log2 ++ spec_aec_writes st.sensor.slv_addr (min value M) })) ∧
    (∀ k, FirstFailure bus log2 (spec_aec_writes st.sensor.slv_addr (min value M)) k →
      (set_aec_value bus st value).1 ≠ 0 ∧
      (set_aec_value bus st value).2
        = { st with log := log2 ++
              (spec_aec_writes st.sensor.slv_addr (min value M)).take (k + 1) }) := by
  obtain ⟨b1, b2, b3⟩ := aec_bytes (min value M) (le_min hv hM)
  have hmin : (if value > M then M else value) = min value M := by
    rw [min_def]
    split_ifs <;> omega
  have hu0 : u16 0x3500 = 0x3500 := by decide
  have hu1 : u16 0x3501 = 0x3501 := by decide
  have hu2 : u16 0x3502 = 0x3502 := by decide
  constructor
  · intro hok
    have q0 := hok 0 (by norm_num)
    have q1 := hok 1 (by norm_num)
    have q2 := hok 2 (by norm_num)
    simp [respond_nth, respond, spec_aec_writes] at q0 q1 q2
    unfold set_aec_value
    simp only [hread, if_neg (not_lt.mpr hM), hmin, c_or, write_reg, b1, b2, b3, hu0, hu1, hu2]
    simp [spec_aec_writes, *]
  · intro k ⟨hk, hlt, hne⟩
    unfold set_aec_value
    simp only [hread, if_neg (not_lt.mpr hM), hmin, c_or, write_reg, b1, b2, b3, hu0, hu1, hu2]
    simp only [spec_aec_writes, List.length_cons, List.length_nil] at hk
    have q0 := hlt 0
    have q1 := hlt 1
    interval_cases k <;>
      simp [respond_nth, respond, spec_aec_writes] at hne q0 q1 <;>
      simp [spec_aec_writes, *]

/-- C16: `set_aec_value` reads 0x380e and then 0x380f.  When the first read fails, or the
first succeeds and the second fails, it returns -1 with no write and the sensor handle
unchanged.  Otherwise, with M the 16-bit value read and v = min (value, M) for a value
≥ 0, it writes 0x3500 <- (v>>12)&0x0F, 0x3501 <- (v>>4)&0xFF, 0x3502 <- (v<<4)&0xF0 in
that order: when all three succeed it returns 0 and stores v in the mirror's aec_value;
when write number k (from 0) is the first to fail it returns a non-zero value after that
write, with the handle unchanged. -/
theorem set_aec_value_writes (bus : SCCB) (st : State) (value : Int) (hv : 0 ≤ value) :
    let slv := st.sensor.slv_addr
    let r1 := bus.SCCB_Read16 st.log slv 0x380e
    let log1 := st.log ++ [BusOp.read slv 0x380e]
    let r2 := bus.SCCB_Read16 log1 slv 0x380f
    let log2 := log1 ++ [BusOp.read slv 0x380f]
    let v := min value (spec_aec_ceiling r1 r2)
    (r1 < 0 → set_aec_value bus st value = (-1, { st with log := log1 })) ∧
    (0 ≤ r1 → r2 < 0 → set_aec_value bus st value = (-1, { st with log := log2 })) ∧
    (0 ≤ r1 → 0 ≤ r2 → (∀ i, i < 3 → respond_nth bus log2 (spec_aec_writes slv v) i = 0) →
      set_aec_value bus st value
        = (0, { st with sensor.status.aec_value := v,
                        log := log2 ++ spec_aec_writes slv v })) ∧
    (0 ≤ r1 → 0 ≤ r2 → ∀ k, FirstFailure bus log2 (spec_aec_writes slv v) k →
      (set_aec_value bus st value).1 ≠ 0 ∧
      (set_aec_value bus st value).2
        = { st with log := log2 ++ (spec_aec_writes slv v).take (k + 1) }) := by
  intro slv r1 log1 r2 log2 v
  refine ⟨?_, ?_, ?_, ?_⟩
  · intro h1
    unfold set_aec_value
    simp only [read_reg16_380e]
    rw [if_pos h1, if_pos h1]
  · intro h1 h2
    unfold set_aec_value
    simp only [read_reg16_380e]
    rw [if_neg (not_lt.mpr h1), if_pos h2, if_pos h2]
  · intro h1 h2
    have hread : read_reg16 bus st.sensor.slv_addr 0x380e st.log
        = (spec_aec_ceiling r1 r2, log2) := by
      rw [read_reg16_380e, if_neg (not_lt.mpr h1), if_neg (not_lt.mpr h2)]
    exact (set_aec_value_of_ceiling bus st value _ _ hread
      (spec_aec_ceiling_nonneg r1 r2 h1 h2) hv).1
  · intro h1 h2
    have hread : read_reg16 bus st.sensor.slv_addr 0x380e st.log
        = (spec_aec_ceiling r1 r2, log2) := by
      rw [read_reg16_380e, if_neg (not_lt.mpr h1), if_neg (not_lt.mpr h2)]
    exact (set_aec_value_of_ceiling bus st value _ _ hread
      (spec_aec_ceiling_nonneg r1 r2 h1 h2) hv).2

/-- C16, on a bus whose reads all return 5 (ceiling 0x0505 = 1285) with value 2000: the
call returns 0, writes 0x3500 <- 0, 0x3501 <- 0x50, 0x3502 <- 0x50 and stores 1285. -/
theorem set_aec_value_writes_witness :
    min 2000 (spec_aec_ceiling 5 5) = 1285 ∧
    spec_aec_writes 0x3c 1285
      = [BusOp.write 0x3c 0x3500 0, BusOp.write 0x3c 0x3501 0x50,
          BusOp.write 0x3c 0x3502 0x50] ∧
    set_aec_value (reads_bus 5) sample_state 2000
      = (0, { sample_state with
                sensor.status.aec_value := min 2000 (spec_aec_ceiling 5 5),
                log := (sample_state.log ++ [BusOp.read 0x3c 0x380e] ++
                    [BusOp.read 0x3c 0x380f]) ++
                  spec_aec_writes 0x3c (min 2000 (spec_aec_ceiling 5 5)) }) :=
  ⟨by decide, by decide,
    (set_aec_value_writes (reads_bus 5) sample_state 2000 (by decide)).2.2.1
      (by decide) (by decide) (by decide)⟩

/-! ### Reset -/

/-- C17 (as the specification states it, refuted): on the bus where exactly transaction 9
fails, the software-reset write (transaction 0), the two writes of the default register
list (1, 2) and the six writes of `set_ae_level (0)` (3 to 8) succeed, transaction 9 is
the first write of the auto-focus register list, and `reset` returns a failure. -/
theorem reset_fails_when_auto_focus_list_fails :
    (write_reg (fail_at 9) 0x3c sample_settings.SYSTEM_CTROL0 0x82 []).1 = 0 ∧
    (write_regs sample_settings (fail_at 9) 0x3c sample_settings.ov5642_sensor_default_regs 0
      (write_reg (fail_at 9) 0x3c sample_settings.SYSTEM_CTROL0 0x82 []).2).1 = 0 ∧
    (set_ae_level (fail_at 9)
      { sample_state with log := (write_regs sample_settings (fail_at 9) 0x3c
          sample_settings.ov5642_sensor_default_regs 0
          (write_reg (fail_at 9) 0x3c sample_settings.SYSTEM_CTROL0 0x82 []).2).2 } 0).1 = 0 ∧
    (reset sample_settings (fail_at 9) sample_state).2.log[9]?
      = some (BusOp.write 0x3c 0x3000 0x20) ∧
    (reset sample_settings (fail_at 9) sample_state).1 ≠ 0 := by
  decide

/-- C17 (amended): when the software-reset write, the load of the default register list
and `set_ae_level (0)` all succeed, `reset` returns what the load of the auto-focus
register list returns, whatever the three writes after it (0x3f00, 0x3025, 0x3024)
return: 0 when that load succeeds, its failure otherwise. -/
theorem reset_returns_auto_focus_load (c : Settings) (bus : SCCB) (st : State) :
    let slv := st.sensor.slv_addr
    let r0 := write_reg bus slv c.SYSTEM_CTROL0 0x82 st.log
    let r1 := write_regs c bus slv c.ov5642_sensor_default_regs 0 r0.2
    let q := set_ae_level bus { st with log := r1.2 } 0
    r0.1 = 0 → r1.1 = 0 → q.1 = 0 →
      (reset c bus st).1 = (write_regs c bus slv c.ov5642_auto_focus_regs 0 q.2.log).1 := by
  intro slv r0 r1 q h0 h1 h2
  unfold reset
  simp only [show write_reg bus st.sensor.slv_addr c.SYSTEM_CTROL0 0x82 st.log = r0 from rfl,
    h0, ne_eq, not_true_eq_false, if_false,
    show write_regs c bus st.sensor.slv_addr c.ov5642_sensor_default_regs 0 r0.2 = r1 from rfl,
    h1, if_true]

/-- C17 (amended), on the bus where exactly transaction 12 (the write to 0x3025) fails:
the three phases and the auto-focus list succeed and `reset` returns 0. -/
theorem reset_returns_auto_focus_load_witness :
    (reset sample_settings (fail_at 12) sample_state).2.log[12]?
      = some (BusOp.write 0x3c 0x3025 0x01) ∧
    (write_regs sample_settings (fail_at 12) sample_state.sensor.slv_addr
      sample_settings.ov5642_auto_focus_regs 0
      (set_ae_level (fail_at 12) { sample_state with log :=
        (write_regs sample_settings (fail_at 12) sample_state.sensor.slv_addr
          sample_settings.ov5642_sensor_default_regs 0
          (write_reg (fail_at 12) sample_state.sensor.slv_addr sample_settings.SYSTEM_CTROL0
            0x82 sample_state.log).2).2 } 0).2.log).1 = 0 ∧
    (reset sample_settings (fail_at 12) sample_state).1
      = (write_regs sample_settings (fail_at 12) sample_state.sensor.slv_addr
          sample_settings.ov5642_auto_focus_regs 0
          (set_ae_level (fail_at 12) { sample_state with log :=
            (write_regs sample_settings (fail_at 12) sample_state.sensor.slv_addr
              sample_settings.ov5642_sensor_default_regs 0
              (write_reg (fail_at 12) sample_state.sensor.slv_addr sample_settings.SYSTEM_CTROL0
                0x82 sample_state.log).2).2 } 0).2.log).1 :=
  ⟨by decide, by decide,
    reset_returns_auto_focus_load sample_settings (fail_at 12) sample_state
      (by decide) (by decide) (by decide)⟩

/-- C18 (the code departs from it): (a) on the bus where exactly transaction 1, the first
write of the default register list, fails, the software-reset write succeeds, the load of
the default register list fails, and `reset` returns 0; (b) on the bus where exactly
transaction 3, the first write of `set_ae_level (0)`, fails, `reset` returns 0 as well. -/
theorem reset_swallows_mandatory_failures :
    (write_reg (fail_at 1) 0x3c sample_settings.SYSTEM_CTROL0 0x82 []).1 = 0 ∧
    (write_regs sample_settings (fail_at 1) 0x3c sample_settings.ov5642_sensor_default_regs 0
      (write_reg (fail_at 1) 0x3c sample_settings.SYSTEM_CTROL0 0x82 []).2).1 ≠ 0 ∧
    (reset sample_settings (fail_at 1) sample_state).1 = 0 ∧
    (set_ae_level (fail_at 3)
      { sample_state with log := (write_regs sample_settings (fail_at 3) 0x3c
          sample_settings.ov5642_sensor_default_regs 0
          (write_reg (fail_at 3) 0x3c sample_settings.SYSTEM_CTROL0 0x82 []).2).2 } 0).1 ≠ 0 ∧
    (reset sample_settings (fail_at 3) sample_state).2.log[3]?
      = some (BusOp.write 0x3c 0x3a0f 59) ∧
    (reset sample_settings (fail_at 3) sample_state).1 = 0 := by
  decide

/-! ### Pixel format -/

lemma set_pixformat_cases (h : Headers) (c : Settings) (bus : SCCB) (st : State) (fmt : Int) :
    set_pixformat h c bus st fmt = (-1, st) ∨
      ∃ regs, AppliesPreset h c bus st fmt regs := by
  unfold AppliesPreset set_pixformat
  split_ifs
  · exact Or.inr ⟨c.ov5642_sensor_fmt_yuv422, by
      by_cases hr : (write_regs c bus st.sensor.slv_addr c.ov5642_sensor_fmt_yuv422 0
        st.log).1 = 0 <;> simp [hr]⟩
  · exact Or.inr ⟨c.ov5642_sensor_fmt_grayscale, by
      by_cases hr : (write_regs c bus st.sensor.slv_addr c.ov5642_sensor_fmt_grayscale 0
        st.log).1 = 0 <;> simp [hr]⟩
  · exact Or.inr ⟨c.ov5642_sensor_fmt_rgb565, by
      by_cases hr : (write_regs c bus st.sensor.slv_addr c.ov5642_sensor_fmt_rgb565 0
        st.log).1 = 0 <;> simp [hr]⟩
  · exact Or.inr ⟨c.ov5642_sensor_fmt_jpeg, by
      by_cases hr : (write_regs c bus st.sensor.slv_addr c.ov5642_sensor_fmt_jpeg 0
        st.log).1 = 0 <;> simp [hr]⟩
  · exact Or.inr ⟨c.ov5642_sensor_fmt_raw, by
      by_cases hr : (write_regs c bus st.sensor.slv_addr c.ov5642_sensor_fmt_raw 0
        st.log).1 = 0 <;> simp [hr]⟩
  · exact Or.inl rfl

/-- C19: with pairwise distinct format tags, `set_pixformat` applies the preset list of
YUV422, GRAYSCALE, RGB565, RGB888 (the list of RGB565), JPEG and RAW as a batch and sets
the handle's pixel format to the requested one exactly when the batch returns 0; for
every other format it returns -1 with the state (bus log and handle) unchanged; and
whenever it returns an error the handle's pixel format is the one before the call. -/
theorem set_pixformat_presets (h : Headers) (c : Settings) (bus : SCCB) (st : State)
    (hd : (pixformat_tags h c).Nodup) :
    AppliesPreset h c bus st c.PIXFORMAT_YUV422 c.ov5642_sensor_fmt_yuv422 ∧
    AppliesPreset h c bus st c.PIXFORMAT_GRAYSCALE c.ov5642_sensor_fmt_grayscale ∧
    AppliesPreset h c bus st c.PIXFORMAT_RGB565 c.ov5642_sensor_fmt_rgb565 ∧
    AppliesPreset h c bus st c.PIXFORMAT_RGB888 c.ov5642_sensor_fmt_rgb565 ∧
    AppliesPreset h c bus st h.PIXFORMAT_JPEG c.ov5642_sensor_fmt_jpeg ∧
    AppliesPreset h c bus st c.PIXFORMAT_RAW c.ov5642_sensor_fmt_raw ∧
    (∀ fmt, fmt ∉ pixformat_tags h c → set_pixformat h c bus st fmt = (-1, st)) ∧
    (∀ fmt, (set_pixformat h c bus st fmt).1 ≠ 0 →
      (set_pixformat h c bus st fmt).2.sensor = st.sensor) ∧
    (∀ fmt, (set_pixformat h c bus st fmt).1 = 0 →
      (set_pixformat h c bus st fmt).2.sensor.pixformat = fmt) := by
  simp only [pixformat_tags, List.nodup_cons, List.mem_cons, List.mem_singleton, not_or,
    List.not_mem_nil, not_false_eq_true, List.nodup_nil, and_true] at hd
  obtain ⟨⟨a1, a2, a3, a4, a5⟩, ⟨b2, b3, b4, b5⟩, ⟨c3, c4, c5⟩, ⟨d4, d5⟩, e5⟩ := hd
  refine ⟨?_, ?_, ?_, ?_, ?_, ?_, ?_, ?_, ?_⟩
  · unfold AppliesPreset set_pixformat
    simp only [if_true]
    split_ifs <;> simp_all
  · unfold AppliesPreset set_pixformat
    simp only [if_neg (Ne.symm a1), if_true]
    split_ifs <;> simp_all
  · unfold AppliesPreset set_pixformat
    simp only [if_neg (Ne.symm a2), if_neg (Ne.symm b2), true_or, if_true]
    split_ifs <;> simp_all
  · unfold AppliesPreset set_pixformat
    simp only [if_neg (Ne.symm a3), if_neg (Ne.symm b3), or_true, if_true]
    split_ifs <;> simp_all
  · unfold AppliesPreset set_pixformat
    simp only [if_neg (Ne.symm a4), if_neg (Ne.symm b4), Ne.symm c4, Ne.symm d4, or_self,
      if_false, if_true]
    split_ifs <;> simp_all
  · unfold AppliesPreset set_pixformat
    simp only [if_neg (Ne.symm a5), if_neg (Ne.symm b5), Ne.symm c5, Ne.symm d5, or_self,
      if_false, if_neg (Ne.symm e5), if_true]
    split_ifs <;> simp_all
  · intro fmt hf
    simp only [pixformat_tags, List.mem_cons, List.mem_singleton, not_or, List.not_mem_nil,
      not_false_eq_true, and_true] at hf
    obtain ⟨f1, f2, f3, f4, f5, f6⟩ := hf
    unfold set_pixformat
    simp only [if_neg f1, if_neg f2, f3, f4, or_self, if_false, if_neg f5, if_neg f6]
  · intro fmt hne
    rcases set_pixformat_cases h c bus st fmt with e | ⟨regs, e⟩
    · rw [e]
    · unfold AppliesPreset at e
      rw [e] at hne ⊢
      by_cases hr : (write_regs c bus st.sensor.slv_addr regs 0 st.log).1 = 0
      · rw [if_pos hr] at hne
        exact absurd rfl hne
      · rw [if_neg hr]
  · intro fmt heq
    rcases set_pixformat_cases h c bus st fmt with e | ⟨regs, e⟩
    · rw [e] at heq
      exact absurd heq (by simp)
    · unfold AppliesPreset at e
      rw [e] at heq ⊢
      by_cases hr : (write_regs c bus st.sensor.slv_addr regs 0 st.log).1 = 0
      · rw [if_pos hr]
      · rw [if_neg hr] at heq
        exact absurd heq hr

/-- C19, for the sample tags (pairwise distinct) on the quiet bus: JPEG (tag 4) is
accepted and becomes the handle's format, the unknown tag 9 is rejected with -1. -/
theorem set_pixformat_presets_witness :
    (pixformat_tags sample_headers sample_settings).Nodup ∧
    AppliesPreset sample_headers sample_settings quiet_bus sample_state
      sample_headers.PIXFORMAT_JPEG sample_settings.ov5642_sensor_fmt_jpeg ∧
    set_pixformat sample_headers sample_settings quiet_bus sample_state 9
      = (-1, sample_state) :=
  ⟨by decide,
    (set_pixformat_presets sample_headers sample_settings quiet_bus sample_state
      (by decide)).2.2.2.2.1,
    (set_pixformat_presets sample_headers sample_settings quiet_bus sample_state
      (by decide)).2.2.2.2.2.2.1 9 (by decide)⟩

/-! ### PLL selection of `set_framesize` -/

lemma write_addr_reg_ok {bus : SCCB} (hb : NeverFails bus) (slv reg x y : Int)
    (log : List BusOp) :
    write_addr_reg bus slv reg x y log
      = (0, log ++ [ BusOp.write slv (u16 reg) (u8 (shr (u16 x) 8)),
                     BusOp.write slv (u16 (u16 reg + 1)) (u8 (u16 x)),
                     BusOp.write slv (u16 (u16 reg + 2)) (u8 (shr (u16 y) 8)),
                     BusOp.write slv (u16 (u16 (u16 reg + 2) + 1)) (u8 (u16 y)) ]) := by
  unfold write_addr_reg write_reg16
  simp only [c_or, write_reg_ok hb, ne_eq, not_true_eq_false, if_false, List.append_assoc,
    List.singleton_append, List.cons_append, List.nil_append]

lemma set_pll_ok {bus : SCCB} (hb : NeverFails bus) (h : Headers) (st : State) (bypass : Bool)
    (multiplier sys_div pre_div : Int) (root_2x : Bool) (seld5 : Int) (pclk_manual : Bool)
    (pclk_div : Int)
    (hm : 0 ≤ multiplier ∧ multiplier ≤ 31) (hs : 0 ≤ sys_div ∧ sys_div ≤ 15)
    (hp : 0 ≤ pre_div ∧ pre_div ≤ 7) (hd : 0 ≤ pclk_div ∧ pclk_div ≤ 31)
    (h5 : 0 ≤ seld5 ∧ seld5 ≤ 3) :
    set_pll h bus st bypass multiplier sys_div pre_div root_2x seld5 pclk_manual pclk_div
      = (0, { st with log := st.log ++ (spec_pll_writes h st.sensor.slv_addr bypass multiplier
            sys_div pre_div root_2x seld5 pclk_manual pclk_div) }) := by
  have hok : ¬ (multiplier > 31 ∨ sys_div > 15 ∨ pre_div > 7 ∨ pclk_div > 31 ∨ seld5 > 3) := by
    omega
  have e0 := pll_ctrl0_byte root_2x seld5 h5.1 h5.2
  have e1 := pll_ctrl1_byte sys_div hs.1 hs.2
  have e2 := pll_ctrl2_byte bypass pclk_div hd.1 hd.2
  have e3 := pll_ctrl3_byte pre_div hp.1 hp.2
  have e4 := pll_ratio_byte multiplier hm.1 hm.2
  have e5 := pll_vfifo_byte pclk_manual
  unfold set_pll
  simp only [if_neg hok, write_reg_ok hb, spec_pll_writes, e0, e1, e2, e3, e4, e5, if_true,
    List.append_assoc, List.singleton_append, List.cons_append, List.nil_append]

lemma spec_pll_tuple_range (h : Headers) (jpeg : Bool) (framesize : Int) :
    (0 ≤ (spec_pll_tuple h jpeg framesize).1 ∧ (spec_pll_tuple h jpeg framesize).1 ≤ 31) ∧
    (0 ≤ (spec_pll_tuple h jpeg framesize).2.1 ∧ (spec_pll_tuple h jpeg framesize).2.1 ≤ 15) ∧
    (0 ≤ (spec_pll_tuple h jpeg framesize).2.2.1 ∧
      (spec_pll_tuple h jpeg framesize).2.2.1 ≤ 7) ∧
    (0 ≤ (spec_pll_tuple h jpeg framesize).2.2.2 ∧
      (spec_pll_tuple h jpeg framesize).2.2.2 ≤ 31) := by
  unfold spec_pll_tuple
  split_ifs <;> decide

lemma set_framesize_front {bus : SCCB} (hb : NeverFails bus) (h : Headers) (st : State)
    (framesize : Int) (hvalid : framesize < h.FRAMESIZE_INVALID) :
    ∃ pre : List BusOp, pre.length = 21 ∧
      set_framesize h bus st framesize
        = set_pll h bus { st with sensor.status.framesize := framesize, log := st.log ++ pre }
            false
            (spec_pll_tuple h (decide (st.sensor.pixformat = h.PIXFORMAT_JPEG)) framesize).1
            (spec_pll_tuple h (decide (st.sensor.pixformat = h.PIXFORMAT_JPEG)) framesize).2.1
            (spec_pll_tuple h (decide (st.sensor.pixformat = h.PIXFORMAT_JPEG)) framesize).2.2.1
            false 0 true
            (spec_pll_tuple h (decide (st.sensor.pixformat = h.PIXFORMAT_JPEG))
              framesize).2.2.2 := by
  unfold set_framesize
  rw [if_neg (by omega)]
  rcases Classical.propComplete (framesize > h.FRAMESIZE_SVGA) with h1 | h1 <;>
  rcases Classical.propComplete (framesize = h.FRAMESIZE_SVGA) with h2 | h2 <;>
  rcases Classical.propComplete (framesize = h.FRAMESIZE_QSXGA) with h3 | h3 <;>
  rcases Classical.propComplete (st.sensor.pixformat = h.PIXFORMAT_JPEG) with h4 | h4 <;>
  rcases Classical.propComplete (framesize = h.FRAMESIZE_QXGA) with h5 | h5 <;>
  rcases Classical.propComplete (framesize > h.FRAMESIZE_CIF) with h6 | h6 <;>
  (simp only [h1, h2, h3, h4, h5, h6, spec_pll_tuple, decide_True, decide_False,
      Bool.false_eq_true, c_or, write_addr_reg_ok hb, write_reg_ok hb,
      set_image_options_ok hb, image_option_writes, ne_eq, not_true_eq_false, if_false,
      if_true, List.append_assoc, List.singleton_append, List.cons_append, List.nil_append]
   refine ⟨_, ?_, rfl⟩
   rfl)

/-- C20: for a valid frame size on a bus that never fails, `set_framesize` returns 0, stores
the frame size, and after its 21 earlier writes ends with the six PLL writes of the
parameter set of the decision table (JPEG & QSXGA -> 12, 1, 3, 2; JPEG & QXGA -> 24, 1, 3, 8;
JPEG & other -> 30, 1, 3, 10; not JPEG & above CIF -> 2, 1, 0, 2; not JPEG & at or below
CIF -> 5, 1, 0, 5), with bypass off, root doubling off, seld5 0 and manual pixel clock on.
The set depends only on "the format is JPEG" and the frame size, and it passes the range
validation of `set_pll`. -/
theorem set_framesize_pll_table (h : Headers) (bus : SCCB) (st : State) (framesize : Int)
    (hb : NeverFails bus) (hvalid : framesize < h.FRAMESIZE_INVALID) :
    (∃ pre : List BusOp, pre.length = 21 ∧
      set_framesize h bus st framesize
        = (0, { st with
                  sensor.status.framesize := framesize,
                  log := (st.log ++ pre) ++ spec_pll_writes h st.sensor.slv_addr false
                    (spec_pll_tuple h (decide (st.sensor.pixformat = h.PIXFORMAT_JPEG))
                      framesize).1
                    (spec_pll_tuple h (decide (st.sensor.pixformat = h.PIXFORMAT_JPEG))
                      framesize).2.1
                    (spec_pll_tuple h (decide (st.sensor.pixformat = h.PIXFORMAT_JPEG))
                      framesize).2.2.1
                    false 0 true
                    (spec_pll_tuple h (decide (st.sensor.pixformat = h.PIXFORMAT_JPEG))
                      framesize).2.2.2 })) ∧
    ∀ (jpeg : Bool) (fs : Int),
      ¬ ((spec_pll_tuple h jpeg fs).1 > 31 ∨ (spec_pll_tuple h jpeg fs).2.1 > 15 ∨
          (spec_pll_tuple h jpeg fs).2.2.1 > 7 ∨ (spec_pll_tuple h jpeg fs).2.2.2 > 31 ∨
          (0 : Int) > 3) := by
  constructor
  · obtain ⟨pre, hlen, heq⟩ := set_framesize_front hb h st framesize hvalid
    obtain ⟨r1, r2, r3, r4⟩ := spec_pll_tuple_range h
      (decide (st.sensor.pixformat = h.PIXFORMAT_JPEG)) framesize
    refine ⟨pre, hlen, ?_⟩
    rw [heq, set_pll_ok hb h _ false _ _ _ false 0 true _ r1 r2 r3 r4 (by decide)]
  · intro jpeg fs
    obtain ⟨r1, r2, r3, r4⟩ := spec_pll_tuple_range h jpeg fs
    omega

/-- C20, for frame size 5 (at or below CIF = 6) and a format other than JPEG on the quiet
bus: the parameter set is 5, 1, 0, 5 and the call ends with its six PLL writes. -/
theorem set_framesize_pll_table_witness :
    spec_pll_tuple sample_headers
        (decide (sample_state.sensor.pixformat = sample_headers.PIXFORMAT_JPEG)) 5
      = (5, 1, 0, 5) ∧
    (set_framesize sample_headers quiet_bus sample_state 5).2.log.drop 21
      = spec_pll_writes sample_headers 0x3c false 5 1 0 false 0 true 5 ∧
    ∃ pre : List BusOp, pre.length = 21 ∧
      set_framesize sample_headers quiet_bus sample_state 5
        = (0, { sample_state with
                  sensor.status.framesize := 5,
                  log := (sample_state.log ++ pre) ++
                    spec_pll_writes sample_headers sample_state.sensor.slv_addr false
                    (spec_pll_tuple sample_headers
                      (decide (sample_state.sensor.pixformat = sample_headers.PIXFORMAT_JPEG))
                      5).1
                    (spec_pll_tuple sample_headers
                      (decide (sample_state.sensor.pixformat = sample_headers.PIXFORMAT_JPEG))
                      5).2.1
                    (spec_pll_tuple sample_headers
                      (decide (sample_state.sensor.pixformat = sample_headers.PIXFORMAT_JPEG))
                      5).2.2.1
                    false 0 true
                    (spec_pll_tuple sample_headers
                      (decide (sample_state.sensor.pixformat = sample_headers.PIXFORMAT_JPEG))
                      5).2.2.2 }) :=
  ⟨by decide, by decide,
    (set_framesize_pll_table sample_headers quiet_bus sample_state 5 quiet_bus_never_fails
      (by decide)).1⟩


/-! ### Failing transactions -/

lemma allok_append (bus : SCCB) :
    ∀ (xs ys log : List BusOp),
      AllOk bus log (xs ++ ys) ↔ AllOk bus log xs ∧ AllOk bus (log ++ xs) ys := by
  intro xs
  induction xs with
  | nil => intro ys log; simp [AllOk]
  | cons x xs ih =>
    intro ys log
    show (¬ Failed bus log x ∧ AllOk bus (log ++ [x]) (xs ++ ys)) ↔
      (¬ Failed bus log x ∧ AllOk bus (log ++ [x]) xs) ∧ AllOk bus (log ++ x :: xs) ys
    rw [ih, and_assoc, List.append_assoc, List.singleton_append]

lemma stops_append (bus : SCCB) (log xs ys : List BusOp) (hx : AllOk bus log xs)
    (hy : StopsAtFailure bus (log ++ xs) ys) : StopsAtFailure bus log (xs ++ ys) := by
  obtain ⟨good, bad, rfl, hg, hbad⟩ := hy
  refine ⟨xs ++ good, bad, by simp, (allok_append bus xs good log).mpr ⟨hx, hg⟩, ?_⟩
  rw [← List.append_assoc]
  exact hbad

lemma actstops_write_reg (bus : SCCB) (slv reg value : Int) :
    ActStops bus (write_reg bus slv reg value) := by
  intro log
  refine ⟨[BusOp.write slv (u16 reg) (u8 value)], rfl, ?_⟩
  by_cases hw : bus.SCCB_Write16 log slv (u16 reg) (u8 value) = 0
  · exact Or.inl ⟨hw, by simp [AllOk, Failed, hw]⟩
  · exact Or.inr ⟨hw, [], _, rfl, trivial, by simpa [Failed] using hw⟩

lemma actstops_skip (bus : SCCB) : ActStops bus act_skip := by
  intro log
  exact ⟨[], by simp [act_skip], Or.inl ⟨rfl, trivial⟩⟩

lemma actstops_c_or (bus : SCCB) (a b : Act) (ha : ActStops bus a) (hb : ActStops bus b) :
    ActStops bus (c_or a b) := by
  intro log
  obtain ⟨xs, hx, hxa⟩ := ha log
  rcases hxa with ⟨h0, hok⟩ | ⟨hne, hstop⟩
  · obtain ⟨ys, hy, hyb⟩ := hb (log ++ xs)
    have e : c_or a b log = (if (b (log ++ xs)).1 ≠ 0 then 1 else 0, (b (log ++ xs)).2) := by
      unfold c_or
      simp only [h0, ne_eq, not_true_eq_false, if_false, hx]
    refine ⟨xs ++ ys, by rw [e, hy, List.append_assoc], ?_⟩
    rw [e]
    rcases hyb with ⟨k0, kok⟩ | ⟨kne, kstop⟩
    · exact Or.inl ⟨by simp [k0], (allok_append bus xs ys log).mpr ⟨hok, kok⟩⟩
    · exact Or.inr ⟨by simp [kne], stops_append bus log xs ys hok kstop⟩
  · have e : c_or a b log = (1, (a log).2) := by
      unfold c_or
      simp only [hne, ne_eq, not_false_eq_true, if_true]
    refine ⟨xs, by rw [e, hx], ?_⟩
    rw [e]
    exact Or.inr ⟨by norm_num, hstop⟩

lemma actstops_then (bus : SCCB) (a b : Act) (ha : ActStops bus a) (hb : ActStops bus b) :
    ActStops bus (act_then a b) := by
  intro log
  obtain ⟨xs, hx, hxa⟩ := ha log
  rcases hxa with ⟨h0, hok⟩ | ⟨hne, hstop⟩
  · obtain ⟨ys, hy, hyb⟩ := hb (log ++ xs)
    have e : act_then a b log = b (log ++ xs) := by
      unfold act_then
      simp only [h0, if_true, hx]
    refine ⟨xs ++ ys, by rw [e, hy, List.append_assoc], ?_⟩
    rw [e]
    rcases hyb with ⟨k0, kok⟩ | ⟨kne, kstop⟩
    · exact Or.inl ⟨k0, (allok_append bus xs ys log).mpr ⟨hok, kok⟩⟩
    · exact Or.inr ⟨kne, stops_append bus log xs ys hok kstop⟩
  · have e : act_then a b log = a log := by
      unfold act_then
      simp only [hne, if_false]
    refine ⟨xs, by rw [e, hx], ?_⟩
    rw [e]
    exact Or.inr ⟨hne, hstop⟩

lemma actstops_write_reg16 (bus : SCCB) (slv reg value : Int) :
    ActStops bus (write_reg16 bus slv reg value) := by
  intro log
  obtain ⟨xs, hx, hxa⟩ := actstops_c_or bus _ _
    (actstops_write_reg bus slv reg (shr (u16 value) 8))
    (actstops_write_reg bus slv (u16 reg + 1) (u16 value)) log
  unfold write_reg16
  rcases hxa with ⟨h0, hok⟩ | ⟨hne, hstop⟩
  · exact ⟨xs, by simp only [h0, ne_eq, not_true_eq_false, if_false, hx],
      Or.inl ⟨by simp only [h0, ne_eq, not_true_eq_false, if_false], hok⟩⟩
  · exact ⟨xs, by simp only [hne, ne_eq, not_false_eq_true, if_true, hx],
      Or.inr ⟨by simp only [hne, ne_eq, not_false_eq_true, if_true]; norm_num, hstop⟩⟩

lemma actstops_set_reg_bits (bus : SCCB) (slv reg offset mask value : Int) :
    ActStops bus (set_reg_bits bus slv reg offset mask value) := by
  intro log
  by_cases hr : bus.SCCB_Read16 log slv (u16 reg) < 0
  · refine ⟨[BusOp.read slv (u16 reg)], ?_, Or.inr ⟨?_, [], _, rfl, trivial, ?_⟩⟩
    · unfold set_reg_bits read_reg
      simp only [hr, if_true]
    · unfold set_reg_bits read_reg
      simp only [hr, if_true]
      omega
    · simpa [Failed] using hr
  · have e : set_reg_bits bus slv reg offset mask value log
        = write_reg bus slv reg
            (u8 (Int.lor (Int.land (u8 (bus.SCCB_Read16 log slv (u16 reg)))
              (Int.lnot (shl (u8 mask) (u8 offset).toNat)))
              (shl (Int.land (u8 value) (u8 mask)) (u8 offset).toNat)))
            (log ++ [BusOp.read slv (u16 reg)]) := by
      unfold set_reg_bits read_reg
      simp only [hr, if_false]
    obtain ⟨ys, hy, hyb⟩ := actstops_write_reg bus slv reg
      (u8 (Int.lor (Int.land (u8 (bus.SCCB_Read16 log slv (u16 reg)))
        (Int.lnot (shl (u8 mask) (u8 offset).toNat)))
        (shl (Int.land (u8 value) (u8 mask)) (u8 offset).toNat)))
      (log ++ [BusOp.read slv (u16 reg)])
    have hread : AllOk bus log [BusOp.read slv (u16 reg)] := by
      simp [AllOk, Failed, hr]
    refine ⟨[BusOp.read slv (u16 reg)] ++ ys, by rw [e, hy, List.append_assoc], ?_⟩
    rw [e]
    rcases hyb with ⟨k0, kok⟩ | ⟨kne, kstop⟩
    · exact Or.inl ⟨k0, (allok_append bus _ ys log).mpr ⟨hread, kok⟩⟩
    · exact Or.inr ⟨kne, stops_append bus log _ ys hread kstop⟩

lemma actstops_write_reg_bits (bus : SCCB) (slv reg mask : Int) (enable : Bool) :
    ActStops bus (write_reg_bits bus slv reg mask enable) :=
  actstops_set_reg_bits bus slv reg 0 mask (if enable then mask else 0)

lemma failstop_reject (bus : SCCB) (st : State) (ret : Int) : FailStop bus st (ret, st) :=
  ⟨[], by simp, Or.inl trivial⟩

lemma failstop_commit (bus : SCCB) (a : Act) (ha : ActStops bus a) (st : State)
    (pre : List BusOp) (hpre : AllOk bus st.log pre) (s2 : sensor_t) :
    FailStop bus st
      (if (a (st.log ++ pre)).1 = 0 then
        ((a (st.log ++ pre)).1, { sensor := s2, log := (a (st.log ++ pre)).2 })
      else ((a (st.log ++ pre)).1, { sensor := st.sensor, log := (a (st.log ++ pre)).2 })) := by
  obtain ⟨xs, hx, hxa⟩ := ha (st.log ++ pre)
  rcases hxa with ⟨h0, hok⟩ | ⟨hne, hstop⟩
  · rw [if_pos h0]
    exact ⟨pre ++ xs, by simp only [hx, List.append_assoc],
      Or.inl ((allok_append bus pre xs st.log).mpr ⟨hpre, hok⟩)⟩
  · rw [if_neg hne]
    exact ⟨pre ++ xs, by simp only [hx, List.append_assoc],
      Or.inr ⟨hne, rfl, stops_append bus st.log pre xs hpre hstop⟩⟩

lemma failstop_set_quality (c : Settings) (bus : SCCB) (st : State) (qs : Int) :
    FailStop bus st (set_quality c bus st qs) := by
  unfold set_quality
  have := failstop_commit bus _ (actstops_write_reg bus st.sensor.slv_addr c.COMPRESSION_CTRL07
    (Int.land qs 0x3f)) st [] trivial
    { st.sensor with status.quality := qs }
  simpa using this

lemma failstop_commit0 (bus : SCCB) (a : Act) (ha : ActStops bus a) (st : State)
    (s2 : sensor_t) :
    FailStop bus st
      (if (a st.log).1 = 0 then ((a st.log).1, { sensor := s2, log := (a st.log).2 })
      else ((a st.log).1, { sensor := st.sensor, log := (a st.log).2 })) := by
  have := failstop_commit bus a ha st [] trivial s2
  simpa using this

lemma failstop_set_colorbar (c : Settings) (bus : SCCB) (st : State) (enable : Int) :
    FailStop bus st (set_colorbar c bus st enable) := by
  unfold set_colorbar
  exact failstop_commit0 bus _ (actstops_write_reg_bits bus _ _ _ _) st _

lemma failstop_set_gain_ctrl (c : Settings) (bus : SCCB) (st : State) (enable : Int) :
    FailStop bus st (set_gain_ctrl c bus st enable) := by
  unfold set_gain_ctrl
  exact failstop_commit0 bus _ (actstops_write_reg_bits bus _ _ _ _) st _

lemma failstop_set_exposure_ctrl (c : Settings) (bus : SCCB) (st : State) (enable : Int) :
    FailStop bus st (set_exposure_ctrl c bus st enable) := by
  unfold set_exposure_ctrl
  exact failstop_commit0 bus _ (actstops_write_reg_bits bus _ _ _ _) st _

lemma failstop_set_whitebal (h : Headers) (bus : SCCB) (st : State) (enable : Int) :
    FailStop bus st (set_whitebal h bus st enable) := by
  unfold set_whitebal
  exact failstop_commit0 bus _ (actstops_write_reg_bits bus _ _ _ _) st _

lemma failstop_set_dcw_dsp (bus : SCCB) (st : State) (enable : Int) :
    FailStop bus st (set_dcw_dsp bus st enable) := by
  unfold set_dcw_dsp
  exact failstop_commit0 bus _ (actstops_write_reg_bits bus _ _ _ _) st _

lemma failstop_set_aec2 (bus : SCCB) (st : State) (enable : Int) :
    FailStop bus st (set_aec2 bus st enable) := by
  unfold set_aec2
  exact failstop_commit0 bus _ (actstops_write_reg_bits bus _ _ _ _) st _

lemma failstop_set_bpc_dsp (bus : SCCB) (st : State) (enable : Int) :
    FailStop bus st (set_bpc_dsp bus st enable) := by
  unfold set_bpc_dsp
  exact failstop_commit0 bus _ (actstops_write_reg_bits bus _ _ _ _) st _

lemma failstop_set_wpc_dsp (bus : SCCB) (st : State) (enable : Int) :
    FailStop bus st (set_wpc_dsp bus st enable) := by
  unfold set_wpc_dsp
  exact failstop_commit0 bus _ (actstops_write_reg_bits bus _ _ _ _) st _

lemma failstop_set_raw_gma_dsp (bus : SCCB) (st : State) (enable : Int) :
    FailStop bus st (set_raw_gma_dsp bus st enable) := by
  unfold set_raw_gma_dsp
  exact failstop_commit0 bus _ (actstops_write_reg_bits bus _ _ _ _) st _

lemma failstop_set_lenc_dsp (bus : SCCB) (st : State) (enable : Int) :
    FailStop bus st (set_lenc_dsp bus st enable) := by
  unfold set_lenc_dsp
  exact failstop_commit0 bus _ (actstops_write_reg_bits bus _ _ _ _) st _

lemma failstop_set_agc_gain (bus : SCCB) (st : State) (gain : Int) :
    FailStop bus st (set_agc_gain bus st gain) := by
  unfold set_agc_gain
  refine failstop_commit0 bus _ ?_ st _
  repeat' (first | apply actstops_c_or | apply actstops_write_reg)

lemma failstop_set_gainceiling (bus : SCCB) (st : State) (level : Int) :
    FailStop bus st (set_gainceiling bus st level) := by
  unfold set_gainceiling
  refine failstop_commit0 bus _ ?_ st _
  repeat' (first | apply actstops_c_or | apply actstops_write_reg)

lemma failstop_set_ae_level (bus : SCCB) (st : State) (level : Int) :
    FailStop bus st (set_ae_level bus st level) := by
  unfold set_ae_level
  by_cases hx : level < -5 ∨ level > 5
  · rw [if_pos hx]
    exact failstop_reject bus st _
  · rw [if_neg hx]
    refine failstop_commit0 bus _ ?_ st _
    repeat' (first | apply actstops_c_or | apply actstops_write_reg)

lemma failstop_set_special_effect (h : Headers) (bus : SCCB) (st : State) (effect : Int) :
    FailStop bus st (set_special_effect h bus st effect) := by
  unfold set_special_effect
  by_cases hx : effect < 0 ∨ effect > 6
  · rw [if_pos hx]
    exact failstop_reject bus st _
  · rw [if_neg hx]
    refine failstop_commit0 bus _ ?_ st _
    repeat' (first | apply actstops_c_or | apply actstops_write_reg)

lemma failstop_set_contrast (bus : SCCB) (st : State) (level : Int) :
    FailStop bus st (set_contrast bus st level) := by
  unfold set_contrast
  by_cases hx : level > 3 ∨ level < -3
  · rw [if_pos hx]
    exact failstop_reject bus st _
  · rw [if_neg hx]
    exact failstop_commit0 bus _ (actstops_write_reg bus _ _ _) st _

lemma failstop_set_sharpness (bus : SCCB) (st : State) (level : Int) :
    FailStop bus st (set_sharpness bus st level) := by
  unfold set_sharpness
  by_cases hx : level > 3 ∨ level < -3
  · rw [if_pos hx]
    exact failstop_reject bus st _
  · rw [if_neg hx]
    refine failstop_commit0 bus _ ?_ st _
    repeat' (first | apply actstops_c_or | apply actstops_write_reg |
      apply actstops_write_reg_bits)

lemma failstop_set_brightness (bus : SCCB) (st : State) (level : Int) :
    FailStop bus st (set_brightness bus st level) := by
  unfold set_brightness
  exact failstop_commit0 bus
    (act_then (write_reg bus st.sensor.slv_addr 0x5587 _)
      (write_reg_bits bus st.sensor.slv_addr 0x5588 0x08 _))
    (actstops_then bus _ _ (actstops_write_reg bus _ _ _)
      (actstops_write_reg_bits bus _ _ _ _)) st _

lemma failstop_set_denoise (bus : SCCB) (st : State) (level : Int) :
    FailStop bus st (set_denoise bus st level) := by
  unfold set_denoise
  by_cases hx : level < 0 ∨ level > 8
  · rw [if_pos hx]
    exact failstop_reject bus st _
  · rw [if_neg hx]
    by_cases hpos : level > 0
    · simp only [hpos, and_true, decide_True]
      exact failstop_commit0 bus
        (act_then (write_reg_bits bus st.sensor.slv_addr 0x5308 0x10 true)
          (write_reg bus st.sensor.slv_addr 0x5306 ((level - 1) * 4)))
        (actstops_then bus _ _ (actstops_write_reg_bits bus _ _ _ _)
          (actstops_write_reg bus _ _ _)) st _
    · simp only [hpos, and_false, if_false, decide_False]
      exact failstop_commit0 bus _ (actstops_write_reg_bits bus _ _ _ _) st _

lemma actstops_set_saturation_loop (bus : SCCB) (slv : Int) (regs : Int → Int) :
    ∀ (fuel : Nat) (i : Int),
      ActStops bus (fun log => set_saturation_loop bus slv regs fuel i 0 log) := by
  intro fuel
  induction fuel with
  | zero =>
    intro i log
    exact ⟨[], by simp [set_saturation_loop], Or.inl ⟨rfl, trivial⟩⟩
  | succ n ih =>
    intro i log
    by_cases hi : i < 11
    · obtain ⟨xs, hx, hxa⟩ := actstops_write_reg bus slv (0x5381 + i) (regs i) log
      rcases hxa with ⟨h0, hok⟩ | ⟨hne, hstop⟩
      · obtain ⟨ys, hy, hyb⟩ := ih (i + 1) (log ++ xs)
        have e : set_saturation_loop bus slv regs (n + 1) i 0 log
            = set_saturation_loop bus slv regs n (i + 1) 0 (log ++ xs) := by
          rw [set_saturation_loop]
          simp only [if_pos hi, h0, ne_eq, not_true_eq_false, if_false, hx]
        refine ⟨xs ++ ys, ?_, ?_⟩
        · show (set_saturation_loop bus slv regs (n + 1) i 0 log).2 = _
          rw [e]
          simp only at hy
          rw [hy, List.append_assoc]
        · show ((set_saturation_loop bus slv regs (n + 1) i 0 log).1 = 0 ∧ _) ∨
            ((set_saturation_loop bus slv regs (n + 1) i 0 log).1 ≠ 0 ∧ _)
          rw [e]
          rcases hyb with ⟨k0, kok⟩ | ⟨kne, kstop⟩
          · exact Or.inl ⟨k0, (allok_append bus xs ys log).mpr ⟨hok, kok⟩⟩
          · exact Or.inr ⟨kne, stops_append bus log xs ys hok kstop⟩
      · have e : set_saturation_loop bus slv regs (n + 1) i 0 log
            = write_reg bus slv (0x5381 + i) (regs i) log := by
          rw [set_saturation_loop]
          simp only [if_pos hi, hne, ne_eq, not_false_eq_true, if_true]
        refine ⟨xs, ?_, ?_⟩
        · show (set_saturation_loop bus slv regs (n + 1) i 0 log).2 = _
          rw [e, hx]
        · show ((set_saturation_loop bus slv regs (n + 1) i 0 log).1 = 0 ∧ _) ∨
            ((set_saturation_loop bus slv regs (n + 1) i 0 log).1 ≠ 0 ∧ _)
          rw [e]
          exact Or.inr ⟨hne, hstop⟩
    · have e : set_saturation_loop bus slv regs (n + 1) i 0 log = (0, log) := by
        rw [set_saturation_loop]
        simp only [if_neg hi]
      exact ⟨[], by show (set_saturation_loop bus slv regs (n + 1) i 0 log).2 = _; rw [e]; simp,
        Or.inl ⟨by show (set_saturation_loop bus slv regs (n + 1) i 0 log).1 = 0; rw [e],
          trivial⟩⟩

lemma failstop_set_saturation (h : Headers) (bus : SCCB) (st : State) (level : Int) :
    FailStop bus st (set_saturation h bus st level) := by
  unfold set_saturation
  by_cases hx : level > 4 ∨ level < -4
  · rw [if_pos hx]
    exact failstop_reject bus st _
  · rw [if_neg hx]
    exact failstop_commit0 bus
      (fun log => set_saturation_loop bus st.sensor.slv_addr
        (h.ov5642_sensor_saturation_levels (level + 4)) 11 0 0 log)
      (actstops_set_saturation_loop bus _ _ 11 0) st _

lemma actstops_wb_act (bus : SCCB) (slv mode : Int) : ActStops bus (wb_act bus slv mode) := by
  unfold wb_act wb_gains
  split_ifs <;>
    repeat' (first | apply actstops_c_or | apply actstops_write_reg16 | apply actstops_skip)

lemma set_wb_mode_commit (bus : SCCB) (st : State) (mode : Int)
    (hx : ¬ (mode < 0 ∨ mode > 4)) :
    set_wb_mode bus st mode
      = if (act_then (write_reg bus st.sensor.slv_addr 0x3406 (if mode ≠ 0 then 1 else 0))
            (wb_act bus st.sensor.slv_addr mode) st.log).1 = 0 then
          ((act_then (write_reg bus st.sensor.slv_addr 0x3406 (if mode ≠ 0 then 1 else 0))
            (wb_act bus st.sensor.slv_addr mode) st.log).1,
            { sensor := { st.sensor with status.wb_mode := mode },
              log := (act_then
                (write_reg bus st.sensor.slv_addr 0x3406 (if mode ≠ 0 then 1 else 0))
                (wb_act bus st.sensor.slv_addr mode) st.log).2 })
        else
          ((act_then (write_reg bus st.sensor.slv_addr 0x3406 (if mode ≠ 0 then 1 else 0))
            (wb_act bus st.sensor.slv_addr mode) st.log).1,
            { sensor := st.sensor,
              log := (act_then
                (write_reg bus st.sensor.slv_addr 0x3406 (if mode ≠ 0 then 1 else 0))
                (wb_act bus st.sensor.slv_addr mode) st.log).2 }) := by
  unfold set_wb_mode
  rw [if_neg hx]
  by_cases hw : (write_reg bus st.sensor.slv_addr 0x3406 (if mode ≠ 0 then 1 else 0)
      st.log).1 = 0
  · have hp : write_reg bus st.sensor.slv_addr 0x3406 (if mode ≠ 0 then 1 else 0) st.log
        = (0, (write_reg bus st.sensor.slv_addr 0x3406 (if mode ≠ 0 then 1 else 0)
            st.log).2) := Prod.ext hw rfl
    simp only [act_then, wb_act, hw, ne_eq, not_true_eq_false, if_false, if_true]
    split_ifs <;> first | rfl | (rw [hp] at *; simp_all [act_skip])
  · simp only [act_then, hw, ne_eq, not_false_eq_true, if_true, if_false]

lemma failstop_set_wb_mode (bus : SCCB) (st : State) (mode : Int) :
    FailStop bus st (set_wb_mode bus st mode) := by
  by_cases hx : mode < 0 ∨ mode > 4
  · unfold set_wb_mode
    rw [if_pos hx]
    exact failstop_reject bus st _
  · rw [set_wb_mode_commit bus st mode hx]
    exact failstop_commit0 bus _ (actstops_then bus _ _ (actstops_write_reg bus _ _ _)
      (actstops_wb_act bus _ _)) st _

lemma failstop_set_awb_gain_dsp (bus : SCCB) (st : State) (enable : Int) :
    FailStop bus st (set_awb_gain_dsp bus st enable) := by
  obtain ⟨ops, hlog, hcase⟩ := failstop_set_wb_mode bus st
    (if enable ≠ 0 then st.sensor.status.wb_mode else 0)
  unfold set_awb_gain_dsp
  by_cases hq : (set_wb_mode bus st (if enable ≠ 0 then st.sensor.status.wb_mode else 0)).1 = 0
  · simp only [hq, if_true]
    refine ⟨ops, hlog, Or.inl ?_⟩
    rcases hcase with hok | ⟨hne, _⟩
    · exact hok
    · exact absurd hq hne
  · simp only [hq, if_false]
    exact ⟨ops, hlog, hcase⟩

lemma failstop_set_aec_value (bus : SCCB) (st : State) (value : Int) :
    FailStop bus st (set_aec_value bus st value) := by
  unfold set_aec_value
  simp only [read_reg16_380e]
  by_cases h1 : bus.SCCB_Read16 st.log st.sensor.slv_addr 0x380e < 0
  · simp only [h1, if_true]
    exact ⟨[BusOp.read st.sensor.slv_addr 0x380e], rfl,
      Or.inr ⟨by norm_num, rfl, [], _, rfl, trivial, by simpa [Failed] using h1⟩⟩
  · by_cases h2 : bus.SCCB_Read16 (st.log ++ [BusOp.read st.sensor.slv_addr 0x380e])
        st.sensor.slv_addr 0x380f < 0
    · simp only [h1, if_false, h2, if_true]
      exact ⟨[BusOp.read st.sensor.slv_addr 0x380e, BusOp.read st.sensor.slv_addr 0x380f],
        by simp,
        Or.inr ⟨by norm_num, rfl, [BusOp.read st.sensor.slv_addr 0x380e], _, rfl,
          by simp [AllOk, Failed, h1], by simpa [Failed] using h2⟩⟩
    · have hM := spec_aec_ceiling_nonneg _ _ (not_lt.mp h1) (not_lt.mp h2)
      simp only [h1, if_false, h2, if_neg (not_lt.mpr hM)]
      have hpre : AllOk bus st.log
          [BusOp.read st.sensor.slv_addr 0x380e, BusOp.read st.sensor.slv_addr 0x380f] := by
        simp [AllOk, Failed, h1, h2]
      have hl : st.log ++ [BusOp.read st.sensor.slv_addr 0x380e] ++
          [BusOp.read st.sensor.slv_addr 0x380f]
          = st.log ++ [BusOp.read st.sensor.slv_addr 0x380e,
              BusOp.read st.sensor.slv_addr 0x380f] := by simp
      rw [hl]
      refine failstop_commit bus _ ?_ st _ hpre _
      repeat' (first | apply actstops_c_or | apply actstops_write_reg)

/-- C13: each per-control setter, from every state, on every bus and for every argument,
extends the bus log by transactions of which either none fails, or else the call returns
a non-zero value, the first failing transaction is the last one issued (no write follows
it), and the sensor handle with every field of the Status Mirror is unchanged. -/
theorem setters_stop_at_first_failure (h : Headers) (c : Settings) (bus : SCCB) (st : State)
    (x : Int) :
    FailStop bus st (set_quality c bus st x) ∧
    FailStop bus st (set_colorbar c bus st x) ∧
    FailStop bus st (set_gain_ctrl c bus st x) ∧
    FailStop bus st (set_exposure_ctrl c bus st x) ∧
    FailStop bus st (set_whitebal h bus st x) ∧
    FailStop bus st (set_dcw_dsp bus st x) ∧
    FailStop bus st (set_aec2 bus st x) ∧
    FailStop bus st (set_bpc_dsp bus st x) ∧
    FailStop bus st (set_wpc_dsp bus st x) ∧
    FailStop bus st (set_raw_gma_dsp bus st x) ∧
    FailStop bus st (set_lenc_dsp bus st x) ∧
    FailStop bus st (set_agc_gain bus st x) ∧
    FailStop bus st (set_aec_value bus st x) ∧
    FailStop bus st (set_ae_level bus st x) ∧
    FailStop bus st (set_wb_mode bus st x) ∧
    FailStop bus st (set_awb_gain_dsp bus st x) ∧
    FailStop bus st (set_special_effect h bus st x) ∧
    FailStop bus st (set_brightness bus st x) ∧
    FailStop bus st (set_contrast bus st x) ∧
    FailStop bus st (set_saturation h bus st x) ∧
    FailStop bus st (set_sharpness bus st x) ∧
    FailStop bus st (set_gainceiling bus st x) ∧
    FailStop bus st (set_denoise bus st x) :=
  ⟨failstop_set_quality c bus st x, failstop_set_colorbar c bus st x,
    failstop_set_gain_ctrl c bus st x, failstop_set_exposure_ctrl c bus st x,
    failstop_set_whitebal h bus st x, failstop_set_dcw_dsp bus st x,
    failstop_set_aec2 bus st x, failstop_set_bpc_dsp bus st x, failstop_set_wpc_dsp bus st x,
    failstop_set_raw_gma_dsp bus st x, failstop_set_lenc_dsp bus st x,
    failstop_set_agc_gain bus st x, failstop_set_aec_value bus st x,
    failstop_set_ae_level bus st x, failstop_set_wb_mode bus st x,
    failstop_set_awb_gain_dsp bus st x, failstop_set_special_effect h bus st x,
    failstop_set_brightness bus st x, failstop_set_contrast bus st x,
    failstop_set_saturation h bus st x, failstop_set_sharpness bus st x,
    failstop_set_gainceiling bus st x, failstop_set_denoise bus st x⟩

/-! ### Read-modify-write of a register bit-field -/

lemma testBit_u8 (x : Int) (i : Nat) (hi : i < 8) :
    Int.testBit (u8 x) i = Int.testBit x i := by
  unfold u8
  cases x with
  | ofNat n =>
    have e : (Int.ofNat n) % 256 = ((n % 2 ^ 8 : Nat) : Int) := by
      simp only [Int.ofNat_eq_coe]
      omega
    rw [e]
    show Nat.testBit (n % 2 ^ 8) i = Nat.testBit n i
    rw [Nat.testBit_mod_two_pow]
    simp [hi]
  | negSucc n =>
    have e : (Int.negSucc n) % 256 = ((2 ^ 8 - (n % 2 ^ 8 + 1) : Nat) : Int) := by
      rw [Int.negSucc_eq]
      omega
    rw [e]
    show Nat.testBit (2 ^ 8 - (n % 2 ^ 8 + 1)) i = !Nat.testBit n i
    rw [Nat.testBit_two_pow_sub_succ (Nat.mod_lt _ (by norm_num)), Nat.testBit_mod_two_pow]
    simp [hi]

lemma u8_eq_natCast (x : Int) : ∃ n : Nat, u8 x = (n : Int) :=
  ⟨(u8 x).toNat, (Int.toNat_of_nonneg (by unfold u8; omega)).symm⟩

lemma testBit_shl_natCast (m n i : Nat) :
    Int.testBit (shl (m : Int) n) i = (decide (n ≤ i) && Nat.testBit m (i - n)) := by
  have e : shl (m : Int) n = ((2 ^ n * m : Nat) : Int) := by
    unfold shl
    push_cast
    ring
  rw [e]
  show Nat.testBit (2 ^ n * m) i = _
  rw [Nat.testBit_mul_pow_two]

lemma land_natCast (m n : Nat) : Int.land (m : Int) (n : Int) = ((m &&& n : Nat) : Int) := rfl

lemma set_reg_bits_bit (c offset mask value : Int) (i : Nat) (hi : i < 8) :
    Int.testBit
        (u8 (u8 (Int.lor (Int.land (u8 c) (Int.lnot (shl (u8 mask) (u8 offset).toNat)))
          (shl (Int.land (u8 value) (u8 mask)) (u8 offset).toNat)))) i
      = if Int.testBit (shl (u8 mask) (u8 offset).toNat) i
        then Int.testBit (shl (Int.land (u8 value) (u8 mask)) (u8 offset).toNat) i
        else Int.testBit (u8 c) i := by
  obtain ⟨m, hm⟩ := u8_eq_natCast mask
  obtain ⟨v, hv⟩ := u8_eq_natCast value
  rw [testBit_u8 _ i hi, testBit_u8 _ i hi, Int.testBit_lor, Int.testBit_land,
    Int.testBit_lnot, hm, hv, land_natCast, testBit_shl_natCast, testBit_shl_natCast,
    Nat.testBit_and]
  cases Int.testBit (u8 c) i <;> cases decide ((u8 offset).toNat ≤ i) <;>
    cases Nat.testBit m (i - (u8 offset).toNat) <;>
    cases Nat.testBit v (i - (u8 offset).toNat) <;> rfl

lemma set_reg_bits_read_fails (bus : SCCB) (slv reg offset mask value : Int)
    (log : List BusOp) (hr : bus.SCCB_Read16 log slv (u16 reg) < 0) :
    set_reg_bits bus slv reg offset mask value log
      = (bus.SCCB_Read16 log slv (u16 reg), log ++ [BusOp.read slv (u16 reg)]) := by
  unfold set_reg_bits
  have h : (read_reg bus slv reg log).1 < 0 := hr
  simp only [if_pos h]
  rfl

lemma set_reg_bits_read_ok (bus : SCCB) (slv reg offset mask value : Int)
    (log : List BusOp) (hr : ¬ bus.SCCB_Read16 log slv (u16 reg) < 0) :
    set_reg_bits bus slv reg offset mask value log
      = (bus.SCCB_Write16 (log ++ [BusOp.read slv (u16 reg)]) slv (u16 reg)
          (u8 (u8 (Int.lor
            (Int.land (u8 (bus.SCCB_Read16 log slv (u16 reg)))
              (Int.lnot (shl (u8 mask) (u8 offset).toNat)))
            (shl (Int.land (u8 value) (u8 mask)) (u8 offset).toNat)))),
         log ++ [BusOp.read slv (u16 reg), BusOp.write slv (u16 reg)
          (u8 (u8 (Int.lor
            (Int.land (u8 (bus.SCCB_Read16 log slv (u16 reg)))
              (Int.lnot (shl (u8 mask) (u8 offset).toNat)))
            (shl (Int.land (u8 value) (u8 mask)) (u8 offset).toNat))))]) := by
  unfold set_reg_bits
  have h : ¬ (read_reg bus slv reg log).1 < 0 := hr
  simp only [if_neg h]
  unfold write_reg read_reg
  simp only [List.append_assoc, List.singleton_append]

lemma flag_bits (k : Nat) (hk : k < 8) (e : Bool) (i : Nat) (hi : i < 8) :
    Int.testBit (shl (u8 (2 ^ k)) (u8 0).toNat) i = decide (i = k) ∧
    Int.testBit (shl (Int.land (u8 (if e = true then 2 ^ k else 0)) (u8 (2 ^ k)))
      (u8 0).toNat) i = (decide (i = k) && e) := by
  interval_cases k <;> interval_cases i <;> cases e <;> decide

lemma write_reg_bits_flag (bus : SCCB) (slv reg : Int) (k : Nat) (hk : k < 8) (e : Bool)
    (log : List BusOp) :
    (bus.SCCB_Read16 log slv (u16 reg) < 0 →
      (write_reg_bits bus slv reg (2 ^ k) e log).2 = log ++ [BusOp.read slv (u16 reg)]) ∧
    (¬ bus.SCCB_Read16 log slv (u16 reg) < 0 →
      ∃ nv : Int,
        (write_reg_bits bus slv reg (2 ^ k) e log).2
          = log ++ [BusOp.read slv (u16 reg), BusOp.write slv (u16 reg) nv] ∧
        ∀ i : Nat, i < 8 →
          Int.testBit nv i
            = if i = k then e else Int.testBit (bus.SCCB_Read16 log slv (u16 reg)) i) := by
  unfold write_reg_bits
  constructor
  · intro hr
    rw [set_reg_bits_read_fails bus slv reg _ _ _ log hr]
  · intro hr
    rw [set_reg_bits_read_ok bus slv reg _ _ _ log hr]
    refine ⟨_, rfl, ?_⟩
    intro i hi
    obtain ⟨b1, b2⟩ := flag_bits k hk e i hi
    rw [set_reg_bits_bit _ _ _ _ i hi, b1, b2, testBit_u8 _ i hi]
    by_cases hik : i = k
    · simp [hik]
    · simp [hik]

lemma flag_setter_logs (bus : SCCB) (st : State) (enable : Int) :
    (set_bpc_dsp bus st enable).2.log
      = (write_reg_bits bus st.sensor.slv_addr 0x5000 (2 ^ 2) (decide (enable ≠ 0)) st.log).2 ∧
    (set_wpc_dsp bus st enable).2.log
      = (write_reg_bits bus st.sensor.slv_addr 0x5000 (2 ^ 1) (decide (enable ≠ 0)) st.log).2 ∧
    (set_raw_gma_dsp bus st enable).2.log
      = (write_reg_bits bus st.sensor.slv_addr 0x5000 (2 ^ 5) (decide (enable ≠ 0)) st.log).2 ∧
    (set_lenc_dsp bus st enable).2.log
      = (write_reg_bits bus st.sensor.slv_addr 0x5000 (2 ^ 7) (decide (enable ≠ 0)) st.log).2 := by
  unfold set_bpc_dsp set_wpc_dsp set_raw_gma_dsp set_lenc_dsp
  refine ⟨?_, ?_, ?_, ?_⟩ <;> (dsimp only; split <;> rfl)

lemma flag_written_of_write_reg_bits (bus : SCCB) (slv : Int) (k : Nat) (hk : k < 8)
    (e : Bool) (log : List BusOp) :
    FlagWritten bus slv 0x5000 k e log (write_reg_bits bus slv 0x5000 (2 ^ k) e log).2 := by
  have hu : u16 0x5000 = 0x5000 := by decide
  have h := write_reg_bits_flag bus slv 0x5000 k hk e log
  rw [hu] at h
  unfold FlagWritten
  split
  · rename_i hr
    exact h.1 hr
  · rename_i hr
    exact h.2 hr

/-- C21: `set_reg_bits` is a read-modify-write.  When the read fails it returns the read's
result and issues nothing else.  Otherwise it issues one write to the same register, of a
byte in 0..255 that on every bit position i < 8 inside `mask << offset` carries the bit of
`(value & mask) << offset` and on every other position the bit of the value read; it
returns the result of that write.  Consequently `set_bpc_dsp`, `set_wpc_dsp`,
`set_raw_gma_dsp` and `set_lenc_dsp` each rewrite register 0x5000 with only their own bit
(bit 2 = 0x04, bit 1 = 0x02, bit 5 = 0x20, bit 7 = 0x80) set to "enable is non-zero" and the
other seven bits as read. -/
theorem set_reg_bits_keeps_other_bits (bus : SCCB) (slv reg offset mask value : Int)
    (log : List BusOp) (st : State) (enable : Int) :
    (bus.SCCB_Read16 log slv (u16 reg) < 0 →
      set_reg_bits bus slv reg offset mask value log
        = (bus.SCCB_Read16 log slv (u16 reg), log ++ [BusOp.read slv (u16 reg)])) ∧
    (¬ bus.SCCB_Read16 log slv (u16 reg) < 0 →
      ∃ nv : Int,
        set_reg_bits bus slv reg offset mask value log
          = (bus.SCCB_Write16 (log ++ [BusOp.read slv (u16 reg)]) slv (u16 reg) nv,
             log ++ [BusOp.read slv (u16 reg), BusOp.write slv (u16 reg) nv]) ∧
        0 ≤ nv ∧ nv < 256 ∧
        ∀ i : Nat, i < 8 →
          Int.testBit nv i
            = if Int.testBit (shl (u8 mask) (u8 offset).toNat) i
              then Int.testBit (shl (Int.land (u8 value) (u8 mask)) (u8 offset).toNat) i
              else Int.testBit (bus.SCCB_Read16 log slv (u16 reg)) i) ∧
    FlagWritten bus st.sensor.slv_addr 0x5000 2 (decide (enable ≠ 0)) st.log
      (set_bpc_dsp bus st enable).2.log ∧
    FlagWritten bus st.sensor.slv_addr 0x5000 1 (decide (enable ≠ 0)) st.log
      (set_wpc_dsp bus st enable).2.log ∧
    FlagWritten bus st.sensor.slv_addr 0x5000 5 (decide (enable ≠ 0)) st.log
      (set_raw_gma_dsp bus st enable).2.log ∧
    FlagWritten bus st.sensor.slv_addr 0x5000 7 (decide (enable ≠ 0)) st.log
      (set_lenc_dsp bus st enable).2.log := by
  obtain ⟨l1, l2, l3, l4⟩ := flag_setter_logs bus st enable
  refine ⟨set_reg_bits_read_fails bus slv reg offset mask value log, ?_, ?_, ?_, ?_, ?_⟩
  · intro hr
    refine ⟨_, set_reg_bits_read_ok bus slv reg offset mask value log hr, ?_, ?_, ?_⟩
    · unfold u8
      omega
    · unfold u8
      omega
    · intro i hi
      rw [set_reg_bits_bit _ _ _ _ i hi, testBit_u8 _ i hi]
  · rw [l1]
    exact flag_written_of_write_reg_bits bus _ 2 (by decide) _ st.log
  · rw [l2]
    exact flag_written_of_write_reg_bits bus _ 1 (by decide) _ st.log
  · rw [l3]
    exact flag_written_of_write_reg_bits bus _ 5 (by decide) _ st.log
  · rw [l4]
    exact flag_written_of_write_reg_bits bus _ 7 (by decide) _ st.log

/-- C21, on the register store whose registers all start at 0x27, for `set_lenc_dsp (1)`:
the read of 0x5000 succeeds, and the byte written has bit 7 set and bits 0 to 6 as in 0x27. -/
theorem set_reg_bits_keeps_other_bits_witness :
    ¬ (store_bus (fun _ => 0x27)).SCCB_Read16 [] 0x3c (u16 0x5000) < 0 ∧
    (∃ nv : Int,
      set_reg_bits (store_bus (fun _ => 0x27)) 0x3c 0x5000 0 0x80 0x80 []
        = ((store_bus (fun _ => 0x27)).SCCB_Write16 ([] ++ [BusOp.read 0x3c (u16 0x5000)])
              0x3c (u16 0x5000) nv,
           [] ++ [BusOp.read 0x3c (u16 0x5000), BusOp.write 0x3c (u16 0x5000) nv]) ∧
      0 ≤ nv ∧ nv < 256 ∧
      ∀ i : Nat, i < 8 →
        Int.testBit nv i
          = if Int.testBit (shl (u8 0x80) (u8 0).toNat) i
            then Int.testBit (shl (Int.land (u8 0x80) (u8 0x80)) (u8 0).toNat) i
            else Int.testBit
              ((store_bus (fun _ => 0x27)).SCCB_Read16 [] 0x3c (u16 0x5000)) i) ∧
    FlagWritten (store_bus (fun _ => 0x27)) sample_state.sensor.slv_addr 0x5000 7
      (decide ((1 : Int) ≠ 0)) sample_state.log
      (set_lenc_dsp (store_bus (fun _ => 0x27)) sample_state 1).2.log :=
  ⟨by decide,
    (set_reg_bits_keeps_other_bits (store_bus (fun _ => 0x27)) 0x3c 0x5000 0 0x80 0x80 []
      sample_state 1).2.1 (by decide),
    (set_reg_bits_keeps_other_bits (store_bus (fun _ => 0x27)) 0x3c 0x5000 0 0x80 0x80 []
      sample_state 1).2.2.2.2.2⟩

/-! ### Read-back on a register store -/

lemma last_written_append_write (slv reg s r v : Int) (log : List BusOp) :
    last_written slv reg (log ++ [BusOp.write s r v])
      = if s = slv ∧ r = reg then some v else last_written slv reg log := by
  unfold last_written
  rw [List.foldl_append]
  rfl

lemma last_written_append_read (slv reg s r : Int) (log : List BusOp) :
    last_written slv reg (log ++ [BusOp.read s r]) = last_written slv reg log := by
  unfold last_written
  rw [List.foldl_append]
  rfl

lemma store_bus_register_store (init : Int → Int) : RegisterStore (store_bus init) := by
  intro log slv reg v h
  show (last_written slv reg log).getD (init reg) = v
  rw [h]
  rfl

lemma register_store_read2 {bus : SCCB} (hs : RegisterStore bus) (log : List BusOp)
    (slv ra a rb b : Int) (hab : ¬ rb = ra) :
    bus.SCCB_Read16 (log ++ [BusOp.write slv ra a, BusOp.write slv rb b]) slv ra = a ∧
    bus.SCCB_Read16 (log ++ [BusOp.write slv ra a, BusOp.write slv rb b] ++
      [BusOp.read slv ra]) slv rb = b := by
  have e : log ++ [BusOp.write slv ra a, BusOp.write slv rb b]
      = (log ++ [BusOp.write slv ra a]) ++ [BusOp.write slv rb b] := by simp
  constructor
  · apply hs
    rw [e, last_written_append_write, if_neg (by tauto), last_written_append_write,
      if_pos ⟨rfl, rfl⟩]
  · apply hs
    rw [last_written_append_read, e, last_written_append_write, if_pos ⟨rfl, rfl⟩]

lemma register_store_read3 {bus : SCCB} (hs : RegisterStore bus) (log : List BusOp)
    (slv ra a rb b rc c : Int) (hab : ¬ rb = ra) (hac : ¬ rc = ra) (hbc : ¬ rc = rb) :
    bus.SCCB_Read16
      (log ++ [BusOp.write slv ra a, BusOp.write slv rb b, BusOp.write slv rc c]) slv ra = a ∧
    bus.SCCB_Read16
      (log ++ [BusOp.write slv ra a, BusOp.write slv rb b, BusOp.write slv rc c] ++
        [BusOp.read slv ra]) slv rb = b ∧
    bus.SCCB_Read16
      (log ++ [BusOp.write slv ra a, BusOp.write slv rb b, BusOp.write slv rc c] ++
        [BusOp.read slv ra] ++ [BusOp.read slv rb]) slv rc = c := by
  have e : log ++ [BusOp.write slv ra a, BusOp.write slv rb b, BusOp.write slv rc c]
      = ((log ++ [BusOp.write slv ra a]) ++ [BusOp.write slv rb b]) ++
          [BusOp.write slv rc c] := by simp
  refine ⟨?_, ?_, ?_⟩
  · apply hs
    rw [e, last_written_append_write, if_neg (by tauto), last_written_append_write,
      if_neg (by tauto), last_written_append_write, if_pos ⟨rfl, rfl⟩]
  · apply hs
    rw [last_written_append_read, e, last_written_append_write, if_neg (by tauto),
      last_written_append_write, if_pos ⟨rfl, rfl⟩]
  · apply hs
    rw [last_written_append_read, last_written_append_read, e, last_written_append_write,
      if_pos ⟨rfl, rfl⟩]

lemma agc_gain_decode (g : Int) (h0 : 0 ≤ g) (h64 : g ≤ 64) :
    ¬ u8 (shr (spec_agc_code g) 8) < 0 ∧ ¬ u8 (Int.land (spec_agc_code g) 0xff) < 0 ∧
    (if Int.land (u8 (Int.land (spec_agc_code g) 0xff)) 0x0F ≠ 0 then
        Int.lor (shr (Int.land (u8 (Int.land (spec_agc_code g) 0xff)) 0xF0) 4)
          (shl (Int.land (u8 (shr (spec_agc_code g) 8)) 0x03) 4) + 1
      else
        Int.lor (shr (Int.land (u8 (Int.land (spec_agc_code g) 0xff)) 0xF0) 4)
          (shl (Int.land (u8 (shr (spec_agc_code g) 8)) 0x03) 4)) = g := by
  interval_cases g <;> decide

lemma set_agc_gain_success (bus : SCCB) (st : State) (g : Int) (h0 : 0 ≤ g) (h64 : g ≤ 64)
    (hok : (set_agc_gain bus st g).1 = 0) :
    set_agc_gain bus st g
      = (0, { st with
                sensor.status.agc_gain := g,
                log := st.log ++
                  [ BusOp.write st.sensor.slv_addr 0x350a (u8 (shr (spec_agc_code g) 8)),
                    BusOp.write st.sensor.slv_addr 0x350b
                      (u8 (Int.land (spec_agc_code g) 0xff)) ] }) := by
  have hc : (if g < 0 then 0 else if g > 64 then 64 else g) = g := by
    rw [if_neg (by omega), if_neg (by omega)]
  have hv : (if shl g 4 ≠ 0 then shl g 4 - 1 else shl g 4) = spec_agc_code g :=
    (agc_gain_bytes g h0 h64).1
  have hu0 : u16 0x350a = 0x350a := by decide
  have hu1 : u16 0x350b = 0x350b := by decide
  unfold set_agc_gain at hok ⊢
  simp only [hc, hv, c_or, write_reg, hu0, hu1] at hok ⊢
  by_cases q0 : bus.SCCB_Write16 st.log st.sensor.slv_addr 0x350a
      (u8 (shr (spec_agc_code g) 8)) = 0
  · by_cases q1 : bus.SCCB_Write16
        (st.log ++ [BusOp.write st.sensor.slv_addr 0x350a (u8 (shr (spec_agc_code g) 8))])
        st.sensor.slv_addr 0x350b (u8 (Int.land (spec_agc_code g) 0xff)) = 0
    · simp [q0, q1]
    · simp [q0, q1] at hok
  · simp [q0] at hok

lemma get_agc_gain_of_log {bus : SCCB} (hs : RegisterStore bus) (st2 : State)
    (log : List BusOp) (g : Int) (h0 : 0 ≤ g) (h64 : g ≤ 64)
    (hlog : st2.log = log ++
      [ BusOp.write st2.sensor.slv_addr 0x350a (u8 (shr (spec_agc_code g) 8)),
        BusOp.write st2.sensor.slv_addr 0x350b (u8 (Int.land (spec_agc_code g) 0xff)) ]) :
    (get_agc_gain bus st2).1 = g ∧
    (get_agc_gain bus st2).2.log
      = st2.log ++ [ BusOp.read st2.sensor.slv_addr 0x350a,
                     BusOp.read st2.sensor.slv_addr 0x350b ] ∧
    (get_agc_gain bus st2).2.sensor = st2.sensor := by
  obtain ⟨na, nb, hdec⟩ := agc_gain_decode g h0 h64
  obtain ⟨ra, rb⟩ := register_store_read2 hs log st2.sensor.slv_addr 0x350a
    (u8 (shr (spec_agc_code g) 8)) 0x350b (u8 (Int.land (spec_agc_code g) 0xff)) (by decide)
  have hu0 : u16 0x350a = 0x350a := by decide
  have hu1 : u16 0x350b = 0x350b := by decide
  unfold get_agc_gain
  simp only [read_reg, hu0, hu1, hlog, ra, rb, na, nb, if_false]
  refine ⟨hdec, ?_, trivial⟩
  simp only [List.append_assoc, List.singleton_append, List.cons_append, List.nil_append]

/-- C22: on a bus that behaves as a register store, for every gain g in 0..64, when
`set_agc_gain (g)` returns 0 it has written the two bytes of the code of g to 0x350a and
0x350b.  After it `get_agc_gain` returns exactly g, and it does so by reading the two
registers: on every sensor handle with the same bus address and these transactions behind
it, whatever its mirror holds, `get_agc_gain` reads 0x350a and then 0x350b, returns g and
leaves the handle as it is.  The value is the decoding of the two bytes written: high
nibble of the low byte, two low bits of the high byte, plus one when the low nibble is
non-zero. -/
theorem agc_gain_read_back (bus : SCCB) (st : State) (g : Int) (hs : RegisterStore bus)
    (h0 : 0 ≤ g) (h64 : g ≤ 64) (hok : (set_agc_gain bus st g).1 = 0) :
    (set_agc_gain bus st g).2.log
      = st.log ++
          [ BusOp.write st.sensor.slv_addr 0x350a (u8 (shr (spec_agc_code g) 8)),
            BusOp.write st.sensor.slv_addr 0x350b (u8 (Int.land (spec_agc_code g) 0xff)) ] ∧
    (get_agc_gain bus (set_agc_gain bus st g).2).1 = g ∧
    (∀ st2 : State, st2.sensor.slv_addr = st.sensor.slv_addr →
      st2.log = (set_agc_gain bus st g).2.log →
        (get_agc_gain bus st2).1 = g ∧
        (get_agc_gain bus st2).2.log
          = st2.log ++ [ BusOp.read st.sensor.slv_addr 0x350a,
                         BusOp.read st.sensor.slv_addr 0x350b ] ∧
        (get_agc_gain bus st2).2.sensor = st2.sensor) ∧
    (if Int.land (u8 (Int.land (spec_agc_code g) 0xff)) 0x0F ≠ 0 then
        Int.lor (shr (Int.land (u8 (Int.land (spec_agc_code g) 0xff)) 0xF0) 4)
          (shl (Int.land (u8 (shr (spec_agc_code g) 8)) 0x03) 4) + 1
      else
        Int.lor (shr (Int.land (u8 (Int.land (spec_agc_code g) 0xff)) 0xF0) 4)
          (shl (Int.land (u8 (shr (spec_agc_code g) 8)) 0x03) 4)) = g := by
  have hset := set_agc_gain_success bus st g h0 h64 hok
  have hall : ∀ st2 : State, st2.sensor.slv_addr = st.sensor.slv_addr →
      st2.log = (set_agc_gain bus st g).2.log →
        (get_agc_gain bus st2).1 = g ∧
        (get_agc_gain bus st2).2.log
          = st2.log ++ [ BusOp.read st.sensor.slv_addr 0x350a,
                         BusOp.read st.sensor.slv_addr 0x350b ] ∧
        (get_agc_gain bus st2).2.sensor = st2.sensor := by
    intro st2 hslv hlog
    rw [hset, ← hslv] at hlog
    rw [← hslv]
    exact get_agc_gain_of_log hs st2 st.log g h0 h64 hlog
  refine ⟨?_, (hall _ ?_ rfl).1, hall, (agc_gain_decode g h0 h64).2.2⟩
  · rw [hset]
  · rw [hset]

/-- C22, for the gain 64 on the register store that starts with every register zero: the
call returns 0 and the two bytes written are 3 and 0xff; on the handle whose mirror holds
the gain 7 and that has these two writes behind it, `get_agc_gain` reads the two registers
and returns 64. -/
theorem agc_gain_read_back_witness :
    (set_agc_gain (store_bus (fun _ => 0)) sample_state 64).1 = 0 ∧
    (set_agc_gain (store_bus (fun _ => 0)) sample_state 64).2.log
      = [BusOp.write 0x3c 0x350a 3, BusOp.write 0x3c 0x350b 0xff] ∧
    (get_agc_gain (store_bus (fun _ => 0))
      (set_agc_gain (store_bus (fun _ => 0)) sample_state 64).2).1 = 64 ∧
    ({ sample_state with
        sensor.status.agc_gain := 7,
        log := [BusOp.write 0x3c 0x350a 3, BusOp.write 0x3c 0x350b 0xff] } :
      State).sensor.status.agc_gain = 7 ∧
    (get_agc_gain (store_bus (fun _ => 0))
      { sample_state with
          sensor.status.agc_gain := 7,
          log := [BusOp.write 0x3c 0x350a 3, BusOp.write 0x3c 0x350b 0xff] }).1 = 64 ∧
    (get_agc_gain (store_bus (fun _ => 0))
      { sample_state with
          sensor.status.agc_gain := 7,
          log := [BusOp.write 0x3c 0x350a 3, BusOp.write 0x3c 0x350b 0xff] }).2.log
      = [BusOp.write 0x3c 0x350a 3, BusOp.write 0x3c 0x350b 0xff,
          BusOp.read 0x3c 0x350a, BusOp.read 0x3c 0x350b] :=
  ⟨by decide, by decide,
    (agc_gain_read_back (store_bus (fun _ => 0)) sample_state 64
      (store_bus_register_store _) (by decide) (by decide) (by decide)).2.1,
    by decide,
    ((agc_gain_read_back (store_bus (fun _ => 0)) sample_state 64
      (store_bus_register_store _) (by decide) (by decide) (by decide)).2.2.1
      { sample_state with
          sensor.status.agc_gain := 7,
          log := [BusOp.write 0x3c 0x350a 3, BusOp.write 0x3c 0x350b 0xff] }
      (by decide) (by decide)).1,
    by decide⟩

lemma and_15 (x : Nat) : x &&& 15 = x % 16 := Nat.and_pow_two_sub_one_eq_mod x 4

lemma and_255 (x : Nat) : x &&& 255 = x % 256 := Nat.and_pow_two_sub_one_eq_mod x 8

lemma and_240 (x : Nat) : x &&& 240 = x % 256 / 16 * 16 := by
  have e : x &&& 240 = (x &&& 255) &&& 240 := by
    rw [Nat.and_assoc]
    rfl
  rw [e, and_255]
  have h : x % 256 < 256 := Nat.mod_lt _ (by norm_num)
  generalize x % 256 = y at h
  interval_cases y <;> rfl

lemma aec_pack_unpack_nat (n : Nat) (hn : n < 65536) :
    ((n / 2 ^ 12 &&& 15) &&& 15) * 2 ^ 12 ||| ((n / 2 ^ 4 &&& 255) &&& 255) * 2 ^ 4 |||
      ((n * 2 ^ 4 &&& 240) &&& 240) / 2 ^ 4 = n := by
  simp only [and_15, and_255, and_240]
  have h1 : n / 2 ^ 4 % 256 % 256 * 2 ^ 4 < 2 ^ 12 := by omega
  have h2 : n * 2 ^ 4 % 256 / 16 * 16 % 256 / 16 * 16 / 2 ^ 4 < 2 ^ 4 := by omega
  have e1 : n / 2 ^ 12 % 16 % 16 * 2 ^ 12 = 2 ^ 12 * (n / 2 ^ 12 % 16 % 16) := Nat.mul_comm _ _
  rw [e1, ← Nat.mul_add_lt_is_or h1]
  have e2 : 2 ^ 12 * (n / 2 ^ 12 % 16 % 16) + n / 2 ^ 4 % 256 % 256 * 2 ^ 4
      = 2 ^ 4 * (2 ^ 8 * (n / 2 ^ 12 % 16 % 16) + n / 2 ^ 4 % 256 % 256) := by omega
  rw [e2, ← Nat.mul_add_lt_is_or h2]
  omega

lemma lor_natCast (m n : Nat) : Int.lor (m : Int) (n : Int) = ((m ||| n : Nat) : Int) := rfl

lemma shr_natCast (m k : Nat) : shr (m : Int) k = ((m / 2 ^ k : Nat) : Int) := by
  unfold shr
  norm_cast

lemma shl_natCast (m k : Nat) : shl (m : Int) k = ((m * 2 ^ k : Nat) : Int) := by
  unfold shl
  norm_cast

lemma aec_pack_unpack (w : Int) (h0 : 0 ≤ w) (h1 : w < 65536) :
    Int.lor
        (Int.lor (shl (Int.land (Int.land (shr w 12) 0x0F) 0x0F) 12)
          (shl (Int.land (Int.land (shr w 4) 0xFF) 0xFF) 4))
        (shr (Int.land (Int.land (shl w 4) 0xF0) 0xF0) 4) = w := by
  obtain ⟨n, rfl⟩ := Int.eq_ofNat_of_zero_le h0
  have hn : n < 65536 := by omega
  have c15 : (0x0F : Int) = ((15 : Nat) : Int) := rfl
  have c255 : (0xFF : Int) = ((255 : Nat) : Int) := rfl
  have c240 : (0xF0 : Int) = ((240 : Nat) : Int) := rfl
  rw [c15, c255, c240]
  simp only [shr_natCast, shl_natCast, land_natCast, lor_natCast]
  exact congrArg Nat.cast (aec_pack_unpack_nat n hn)

lemma spec_aec_ceiling_lt (r1 r2 : Int) (h1 : 0 ≤ r1) (h2 : 0 ≤ r2) :
    spec_aec_ceiling r1 r2 < 65536 := by
  obtain ⟨a, rfl⟩ := Int.eq_ofNat_of_zero_le h1
  obtain ⟨b, rfl⟩ := Int.eq_ofNat_of_zero_le h2
  have c255 : (0xFF : Int) = ((255 : Nat) : Int) := rfl
  unfold spec_aec_ceiling
  rw [c255]
  simp only [shl_natCast, land_natCast, lor_natCast, and_255]
  have h : a % 256 * 2 ^ 8 ||| b % 256 < 2 ^ 16 :=
    Nat.or_lt_two_pow (by omega) (by omega)
  exact_mod_cast h

lemma set_aec_value_read_fails (bus : SCCB) (st : State) (v : Int)
    (h : (read_reg16 bus st.sensor.slv_addr 0x380e st.log).1 < 0) :
    (set_aec_value bus st v).1 = -1 := by
  unfold set_aec_value
  simp only [if_pos h]

lemma set_aec_value_success (bus : SCCB) (st : State) (v : Int) (hv : 0 ≤ v)
    (hok : (set_aec_value bus st v).1 = 0) :
    0 ≤ bus.SCCB_Read16 st.log st.sensor.slv_addr 0x380e ∧
    0 ≤ bus.SCCB_Read16 (st.log ++ [BusOp.read st.sensor.slv_addr 0x380e])
      st.sensor.slv_addr 0x380f ∧
    set_aec_value bus st v
      = (0, { st with
                sensor.status.aec_value := min v (spec_aec_ceiling
                  (bus.SCCB_Read16 st.log st.sensor.slv_addr 0x380e)
                  (bus.SCCB_Read16 (st.log ++ [BusOp.read st.sensor.slv_addr 0x380e])
                    st.sensor.slv_addr 0x380f)),
                log := (st.log ++ [BusOp.read st.sensor.slv_addr 0x380e] ++
                    [BusOp.read st.sensor.slv_addr 0x380f]) ++
                  spec_aec_writes st.sensor.slv_addr (min v (spec_aec_ceiling
                    (bus.SCCB_Read16 st.log st.sensor.slv_addr 0x380e)
                    (bus.SCCB_Read16 (st.log ++ [BusOp.read st.sensor.slv_addr 0x380e])
                      st.sensor.slv_addr 0x380f))) }) := by
  have hhi : 0 ≤ bus.SCCB_Read16 st.log st.sensor.slv_addr 0x380e := by
    by_contra hneg
    have h := set_aec_value_read_fails bus st v (by
      rw [read_reg16_380e, if_pos (not_le.mp hneg)]
      exact not_le.mp hneg)
    omega
  have hlo : 0 ≤ bus.SCCB_Read16 (st.log ++ [BusOp.read st.sensor.slv_addr 0x380e])
      st.sensor.slv_addr 0x380f := by
    by_contra hneg
    have h := set_aec_value_read_fails bus st v (by
      rw [read_reg16_380e, if_neg (not_lt.mpr hhi), if_pos (not_le.mp hneg)]
      exact not_le.mp hneg)
    omega
  refine ⟨hhi, hlo, ?_⟩
  have hread : read_reg16 bus st.sensor.slv_addr 0x380e st.log
      = (spec_aec_ceiling
          (bus.SCCB_Read16 st.log st.sensor.slv_addr 0x380e)
          (bus.SCCB_Read16 (st.log ++ [BusOp.read st.sensor.slv_addr 0x380e])
            st.sensor.slv_addr 0x380f),
         st.log ++ [BusOp.read st.sensor.slv_addr 0x380e] ++
           [BusOp.read st.sensor.slv_addr 0x380f]) := by
    rw [read_reg16_380e, if_neg (not_lt.mpr hhi), if_neg (not_lt.mpr hlo)]
  have hM0 := spec_aec_ceiling_nonneg _ _ hhi hlo
  obtain ⟨hall, hfirst⟩ := set_aec_value_of_ceiling bus st v _ _ hread hM0 hv
  have hlen : (spec_aec_writes st.sensor.slv_addr (min v (spec_aec_ceiling
      (bus.SCCB_Read16 st.log st.sensor.slv_addr 0x380e)
      (bus.SCCB_Read16 (st.log ++ [BusOp.read st.sensor.slv_addr 0x380e])
        st.sensor.slv_addr 0x380f)))).length = 3 := rfl
  apply hall
  by_contra hnot
  have hex : ∃ k, FirstFailure bus
      (st.log ++ [BusOp.read st.sensor.slv_addr 0x380e] ++
        [BusOp.read st.sensor.slv_addr 0x380f])
      (spec_aec_writes st.sensor.slv_addr (min v (spec_aec_ceiling
        (bus.SCCB_Read16 st.log st.sensor.slv_addr 0x380e)
        (bus.SCCB_Read16 (st.log ++ [BusOp.read st.sensor.slv_addr 0x380e])
          st.sensor.slv_addr 0x380f)))) k := by
    unfold FirstFailure
    rw [hlen]
    generalize respond_nth bus _ _ = f at hnot ⊢
    by_cases q0 : f 0 = 0
    · by_cases q1 : f 1 = 0
      · by_cases q2 : f 2 = 0
        · exact absurd (fun i hi => by interval_cases i <;> assumption) hnot
        · exact ⟨2, by norm_num, fun i hi => by interval_cases i <;> assumption, q2⟩
      · exact ⟨1, by norm_num, fun i hi => by interval_cases i; assumption, q1⟩
    · exact ⟨0, by norm_num, fun i hi => absurd hi (Nat.not_lt_zero i), q0⟩
  obtain ⟨k, hk⟩ := hex
  exact (hfirst k hk).1 hok

lemma get_aec_value_of_log {bus : SCCB} (hs : RegisterStore bus) (st2 : State)
    (log : List BusOp) (w : Int) (hw0 : 0 ≤ w) (hw1 : w < 65536)
    (hlog : st2.log = log ++ spec_aec_writes st2.sensor.slv_addr w) :
    (get_aec_value bus st2).1 = w ∧
    (get_aec_value bus st2).2.log
      = st2.log ++ [ BusOp.read st2.sensor.slv_addr 0x3500,
                     BusOp.read st2.sensor.slv_addr 0x3501,
                     BusOp.read st2.sensor.slv_addr 0x3502 ] ∧
    (get_aec_value bus st2).2.sensor = st2.sensor := by
  have b0 := land_bounds (shr w 12) 0x0F (shr_nonneg _ _ hw0) (by norm_num)
  have b1 := land_bounds (shr w 4) 0xFF (shr_nonneg _ _ hw0) (by norm_num)
  have b2 := land_bounds (shl w 4) 0xF0 (shl_nonneg _ _ hw0) (by norm_num)
  obtain ⟨ra, rb, rc⟩ := register_store_read3 hs log st2.sensor.slv_addr
    0x3500 (Int.land (shr w 12) 0x0F) 0x3501 (Int.land (shr w 4) 0xFF)
    0x3502 (Int.land (shl w 4) 0xF0) (by decide) (by decide) (by decide)
  have hu0 : u16 0x3500 = 0x3500 := by decide
  have hu1 : u16 0x3501 = 0x3501 := by decide
  have hu2 : u16 0x3502 = 0x3502 := by decide
  unfold get_aec_value
  simp only [read_reg, hu0, hu1, hu2, hlog, spec_aec_writes, ra, rb, rc, not_lt.mpr b0.1,
    not_lt.mpr b1.1, not_lt.mpr b2.1, if_false]
  refine ⟨aec_pack_unpack w hw0 hw1, ?_, trivial⟩
  simp only [List.append_assoc, List.singleton_append, List.cons_append, List.nil_append]

/-- C23: on a bus that behaves as a register store, for every value v ≥ 0, when
`set_aec_value (v)` returns 0 then both reads of the ceiling registers 0x380e and 0x380f
succeeded and, with M the 16-bit ceiling they hold, the call recorded min (v, M) in the
mirror's aec_value.  After it `get_aec_value` returns min (v, M), and it does so by reading
the three registers: on every sensor handle with the same bus address and these
transactions behind it, whatever its mirror holds, `get_aec_value` reads 0x3500, 0x3501
and 0x3502, returns min (v, M) and leaves the handle as it is.  The value is the
4/8/4-bit unpacking of the three bytes written, which inverts the packing for every
exposure value w of 16 bits. -/
theorem aec_value_read_back (bus : SCCB) (st : State) (v : Int) (hs : RegisterStore bus)
    (hv : 0 ≤ v) (hok : (set_aec_value bus st v).1 = 0) :
    0 ≤ bus.SCCB_Read16 st.log st.sensor.slv_addr 0x380e ∧
    0 ≤ bus.SCCB_Read16 (st.log ++ [BusOp.read st.sensor.slv_addr 0x380e])
      st.sensor.slv_addr 0x380f ∧
    (set_aec_value bus st v).2.sensor.status.aec_value
      = min v (spec_aec_ceiling
          (bus.SCCB_Read16 st.log st.sensor.slv_addr 0x380e)
          (bus.SCCB_Read16 (st.log ++ [BusOp.read st.sensor.slv_addr 0x380e])
            st.sensor.slv_addr 0x380f)) ∧
    (get_aec_value bus (set_aec_value bus st v).2).1
      = min v (spec_aec_ceiling
          (bus.SCCB_Read16 st.log st.sensor.slv_addr 0x380e)
          (bus.SCCB_Read16 (st.log ++ [BusOp.read st.sensor.slv_addr 0x380e])
            st.sensor.slv_addr 0x380f)) ∧
    (∀ st2 : State, st2.sensor.slv_addr = st.sensor.slv_addr →
      st2.log = (set_aec_value bus st v).2.log →
        (get_aec_value bus st2).1
          = min v (spec_aec_ceiling
              (bus.SCCB_Read16 st.log st.sensor.slv_addr 0x380e)
              (bus.SCCB_Read16 (st.log ++ [BusOp.read st.sensor.slv_addr 0x380e])
                st.sensor.slv_addr 0x380f)) ∧
        (get_aec_value bus st2).2.log
          = st2.log ++ [ BusOp.read st.sensor.slv_addr 0x3500,
                         BusOp.read st.sensor.slv_addr 0x3501,
                         BusOp.read st.sensor.slv_addr 0x3502 ] ∧
        (get_aec_value bus st2).2.sensor = st2.sensor) ∧
    (set_aec_value bus st v).2.log
      = (st.log ++ [BusOp.read st.sensor.slv_addr 0x380e] ++
            [BusOp.read st.sensor.slv_addr 0x380f]) ++
          spec_aec_writes st.sensor.slv_addr (min v (spec_aec_ceiling
            (bus.SCCB_Read16 st.log st.sensor.slv_addr 0x380e)
            (bus.SCCB_Read16 (st.log ++ [BusOp.read st.sensor.slv_addr 0x380e])
              st.sensor.slv_addr 0x380f))) ∧
    ∀ w : Int, 0 ≤ w → w < 65536 →
      Int.lor
          (Int.lor (shl (Int.land (Int.land (shr w 12) 0x0F) 0x0F) 12)
            (shl (Int.land (Int.land (shr w 4) 0xFF) 0xFF) 4))
          (shr (Int.land (Int.land (shl w 4) 0xF0) 0xF0) 4) = w := by
  obtain ⟨hhi, hlo, hset⟩ := set_aec_value_success bus st v hv hok
  have hM0 := spec_aec_ceiling_nonneg _ _ hhi hlo
  have hM1 := spec_aec_ceiling_lt _ _ hhi hlo
  refine ⟨hhi, hlo, ?_⟩
  generalize spec_aec_ceiling
    (bus.SCCB_Read16 st.log st.sensor.slv_addr 0x380e)
    (bus.SCCB_Read16 (st.log ++ [BusOp.read st.sensor.slv_addr 0x380e])
      st.sensor.slv_addr 0x380f) = M at hset hM0 hM1 ⊢
  have hw0 : 0 ≤ min v M := le_min hv hM0
  have hw1 : min v M < 65536 := lt_of_le_of_lt (min_le_right _ _) hM1
  have hall : ∀ st2 : State, st2.sensor.slv_addr = st.sensor.slv_addr →
      st2.log = (set_aec_value bus st v).2.log →
        (get_aec_value bus st2).1 = min v M ∧
        (get_aec_value bus st2).2.log
          = st2.log ++ [ BusOp.read st.sensor.slv_addr 0x3500,
                         BusOp.read st.sensor.slv_addr 0x3501,
                         BusOp.read st.sensor.slv_addr 0x3502 ] ∧
        (get_aec_value bus st2).2.sensor = st2.sensor := by
    intro st2 hslv hlog
    rw [hset, ← hslv] at hlog
    rw [← hslv]
    exact get_aec_value_of_log hs st2 _ (min v M) hw0 hw1 hlog
  refine ⟨?_, (hall _ ?_ rfl).1, hall, ?_, aec_pack_unpack⟩
  · rw [hset]
  · rw [hset]
  · rw [hset]

/-- C23, on the register store whose registers all start at 5 (ceiling 0x0505 = 1285) with
the value 2000: the call returns 0, writes 0, 0x50, 0x50 to 0x3500..0x3502 and records
1285; on the handle whose mirror holds the exposure 7 and that has these transactions
behind it, `get_aec_value` reads the three registers and returns 1285. -/
theorem aec_value_read_back_witness :
    (set_aec_value (store_bus (fun _ => 5)) sample_state 2000).1 = 0 ∧
    min 2000 (spec_aec_ceiling 5 5) = 1285 ∧
    (set_aec_value (store_bus (fun _ => 5)) sample_state 2000).2.log
      = [BusOp.read 0x3c 0x380e, BusOp.read 0x3c 0x380f,
          BusOp.write 0x3c 0x3500 0, BusOp.write 0x3c 0x3501 0x50,
          BusOp.write 0x3c 0x3502 0x50] ∧
    (set_aec_value (store_bus (fun _ => 5)) sample_state 2000).2.sensor.status.aec_value
      = min 2000 (spec_aec_ceiling 5 5) ∧
    (get_aec_value (store_bus (fun _ => 5))
      (set_aec_value (store_bus (fun _ => 5)) sample_state 2000).2).1
      = min 2000 (spec_aec_ceiling 5 5) ∧
    ({ sample_state with
        sensor.status.aec_value := 7,
        log := [BusOp.read 0x3c 0x380e, BusOp.read 0x3c 0x380f,
          BusOp.write 0x3c 0x3500 0, BusOp.write 0x3c 0x3501 0x50,
          BusOp.write 0x3c 0x3502 0x50] } : State).sensor.status.aec_value = 7 ∧
    (get_aec_value (store_bus (fun _ => 5))
      { sample_state with
          sensor.status.aec_value := 7,
          log := [BusOp.read 0x3c 0x380e, BusOp.read 0x3c 0x380f,
            BusOp.write 0x3c 0x3500 0, BusOp.write 0x3c 0x3501 0x50,
            BusOp.write 0x3c 0x3502 0x50] }).1
      = min 2000 (spec_aec_ceiling 5 5) :=
  ⟨by decide, by decide, by decide,
    (aec_value_read_back (store_bus (fun _ => 5)) sample_state 2000
      (store_bus_register_store _) (by decide) (by decide)).2.2.1,
    (aec_value_read_back (store_bus (fun _ => 5)) sample_state 2000
      (store_bus_register_store _) (by decide) (by decide)).2.2.2.1,
    by decide,
    ((aec_value_read_back (store_bus (fun _ => 5)) sample_state 2000
      (store_bus_register_store _) (by decide) (by decide)).2.2.2.2.1
      { sample_state with
          sensor.status.aec_value := 7,
          log := [BusOp.read 0x3c 0x380e, BusOp.read 0x3c 0x380f,
            BusOp.write 0x3c 0x3500 0, BusOp.write 0x3c 0x3501 0x50,
            BusOp.write 0x3c 0x3502 0x50] }
      (by decide) (by decide)).1⟩

/-- C24 (the code departs from it): the bus `store_bus` behaves as a register store, and on
the one that starts with every register zero, after `set_hmirror (1)` and `set_vflip (1)`,
both returning 0 and leaving hmirror = 1 and vflip = 1 in the mirror with 0xc0 in
TIMING_TC_REG18 (0x3818), `init_status` sets hmirror to 1 but vflip to 0. -/
theorem init_status_loses_vflip :
    RegisterStore (store_bus (fun _ => 0)) ∧
    (set_hmirror sample_headers (store_bus (fun _ => 0)) sample_state 1).1 = 0 ∧
    (set_vflip sample_headers (store_bus (fun _ => 0))
      (set_hmirror sample_headers (store_bus (fun _ => 0)) sample_state 1).2 1).1 = 0 ∧
    (set_vflip sample_headers (store_bus (fun _ => 0))
      (set_hmirror sample_headers (store_bus (fun _ => 0)) sample_state 1).2
        1).2.sensor.status.hmirror = 1 ∧
    (set_vflip sample_headers (store_bus (fun _ => 0))
      (set_hmirror sample_headers (store_bus (fun _ => 0)) sample_state 1).2
        1).2.sensor.status.vflip = 1 ∧
    last_written 0x3c 0x3818 (set_vflip sample_headers (store_bus (fun _ => 0))
      (set_hmirror sample_headers (store_bus (fun _ => 0)) sample_state 1).2 1).2.log
      = some 0xc0 ∧
    (init_status sample_headers sample_settings (store_bus (fun _ => 0))
      (set_vflip sample_headers (store_bus (fun _ => 0))
        (set_hmirror sample_headers (store_bus (fun _ => 0)) sample_state 1).2
          1).2).2.sensor.status.hmirror = 1 ∧
    (init_status sample_headers sample_settings (store_bus (fun _ => 0))
      (set_vflip sample_headers (store_bus (fun _ => 0))
        (set_hmirror sample_headers (store_bus (fun _ => 0)) sample_state 1).2
          1).2).2.sensor.status.vflip = 0 :=
  ⟨store_bus_register_store _, by decide⟩

/-! ### The clock computation for the PLL settings of `set_framesize` -/

lemma pll_tuple_in_range (h : Headers) (jpeg : Bool) (framesize xclk : Int)
    (h0 : 0 ≤ xclk) (h1 : xclk ≤ 24000000) :
    spec_in_range xclk false (spec_pll_tuple h jpeg framesize).1
      (spec_pll_tuple h jpeg framesize).2.2.1 false := by
  have hk0 : 0 ≤ Int.tdiv xclk 1000 := Int.tdiv_nonneg h0 (by norm_num)
  have hk1 : Int.tdiv xclk 1000 ≤ 24000 := by
    rw [Int.tdiv_eq_ediv h0 (by norm_num)]
    omega
  unfold spec_in_range spec_VCO spec_pll_tuple in_int INT_MIN INT_MAX
  generalize Int.tdiv xclk 1000 = k at hk0 hk1
  split_ifs <;>
  (simp only [Bool.false_eq_true, if_false, mul_one, forall_const]
   refine ⟨by omega, by omega, by omega, ?_⟩
   rw [Int.tdiv_eq_ediv (by omega) (by decide)]
   have e3 : ([2, 3, 4, 5, 6, 8, 12, 16] : List Int).getD (3 : Int).toNat 0 = 5 := by decide
   have e0 : ([2, 3, 4, 5, 6, 8, 12, 16] : List Int).getD (0 : Int).toNat 0 = 2 := by decide
   simp only [e3, e0]
   constructor <;> constructor <;> omega)

lemma calc_clocks_eq_spec (xclk multiplier sys_div pre_div seld5 pclk_div : Int)
    (root_doubling pclk_manual : Bool)
    (hx : 0 ≤ xclk) (hm : 0 ≤ multiplier) (hs : 0 ≤ sys_div)
    (hp : 0 ≤ pre_div ∧ pre_div ≤ 7) (h5 : 0 ≤ seld5 ∧ seld5 ≤ 3)
    (hr : spec_in_range xclk false multiplier pre_div root_doubling) :
    calc_clocks xclk false multiplier sys_div pre_div root_doubling seld5 pclk_manual pclk_div
      = some
          { VCO := spec_VCO xclk multiplier pre_div root_doubling
            PLLCLK := spec_PLLCLK xclk false multiplier sys_div pre_div root_doubling seld5
            PCLK := Int.tdiv
              (Int.tdiv
                (spec_PLLCLK xclk false multiplier sys_div pre_div root_doubling seld5) 2)
              (if pclk_manual && decide (pclk_div ≠ 0) then pclk_div else 1)
            SYSCLK := Int.tdiv
              (spec_PLLCLK xclk false multiplier sys_div pre_div root_doubling seld5) 4 } := by
  obtain ⟨hP, hPpos⟩ := c_index_pre_div pre_div hp.1 hp.2
  obtain ⟨hS, hSpos⟩ := c_index_seld5 seld5 h5.1 h5.2
  obtain ⟨r1, r2, r3, r45⟩ := hr
  have hk : 0 ≤ xclk.tdiv 1000 := Int.tdiv_nonneg hx (by norm_num)
  have hroot : (0:Int) ≤ (if root_doubling then 2 else 1) := by split <;> norm_num
  have hV : 0 ≤ spec_VCO xclk multiplier pre_div root_doubling := by
    unfold spec_VCO
    exact Int.tdiv_nonneg (by positivity) hPpos.le
  have hsd : (if sys_div = 0 then 1 else sys_div) = max sys_div 1 := by split <;> omega
  have hsdpos : 0 < max sys_div 1 := by omega
  have hd := pclk_divisor_ne_zero pclk_manual pclk_div
  obtain ⟨r4, r5⟩ := r45 rfl
  have hPLL : 0 ≤ spec_PLLCLK xclk false multiplier sys_div pre_div root_doubling seld5 := by
    unfold spec_PLLCLK
    simp only [Bool.false_eq_true, if_false]
    exact Int.tdiv_nonneg (Int.tdiv_nonneg (by positivity) hsdpos.le) hSpos.le
  unfold calc_clocks
  simp only [hP, hS, bind, Option.bind, c_div_pos _ _ (show (0:Int) < 1000 by norm_num),
    c_mul_in_int _ _ r1, c_mul_in_int _ _ r2, c_mul_in_int _ _ r3, c_div_pos _ _ hPpos]
  unfold spec_PLLCLK at hPLL ⊢
  unfold spec_VCO at r4 r5 hPLL ⊢
  simp only [Bool.false_eq_true, if_false] at hPLL ⊢
  simp only [c_mul_in_int _ _ r4, c_mul_in_int _ _ r5, hsd, c_div_pos _ _ hsdpos,
    c_div_pos _ _ hSpos, c_div_pos _ _ (show (0:Int) < 2 by norm_num),
    c_div_pos _ _ (show (0:Int) < 4 by norm_num),
    c_div_nonneg _ _ (Int.tdiv_nonneg hPLL (show (0:Int) ≤ 2 by norm_num)) hd]
  rfl

/-- C25: for every input clock 0 ≤ xclk ≤ 24000000 and each of the five PLL parameter sets
that `set_framesize` passes to `set_pll` (bypass off, root doubling off, seld5 0, manual
pixel clock on), every product formed in `ov5642_calc_sysclk` lies in the range of a 32-bit
`int`, both table look-ups are inside their tables and every divisor is nonzero, and the
computation returns the clocks of the same formula over unbounded integers. -/
theorem calc_sysclk_exact_for_pll_table (h : Headers) (jpeg : Bool) (framesize xclk : Int)
    (h0 : 0 ≤ xclk) (h1 : xclk ≤ 24000000) :
    spec_in_range xclk false (spec_pll_tuple h jpeg framesize).1
      (spec_pll_tuple h jpeg framesize).2.2.1 false ∧
    (∃ d : Int, c_index pll_pre_div2x_map (spec_pll_tuple h jpeg framesize).2.2.1 = some d ∧
      d ≠ 0) ∧
    (∃ d : Int, c_index pll_seld52x_map 0 = some d ∧ d ≠ 0) ∧
    (if (spec_pll_tuple h jpeg framesize).2.1 = 0 then 1
      else (spec_pll_tuple h jpeg framesize).2.1) ≠ 0 ∧
    (if true && decide ((spec_pll_tuple h jpeg framesize).2.2.2 ≠ 0)
      then (spec_pll_tuple h jpeg framesize).2.2.2 else 1) ≠ 0 ∧
    calc_clocks xclk false (spec_pll_tuple h jpeg framesize).1
        (spec_pll_tuple h jpeg framesize).2.1 (spec_pll_tuple h jpeg framesize).2.2.1
        false 0 true (spec_pll_tuple h jpeg framesize).2.2.2
      = some
          { VCO := spec_VCO xclk (spec_pll_tuple h jpeg framesize).1
              (spec_pll_tuple h jpeg framesize).2.2.1 false
            PLLCLK := spec_PLLCLK xclk false (spec_pll_tuple h jpeg framesize).1
              (spec_pll_tuple h jpeg framesize).2.1 (spec_pll_tuple h jpeg framesize).2.2.1
              false 0
            PCLK := Int.tdiv
              (Int.tdiv
                (spec_PLLCLK xclk false (spec_pll_tuple h jpeg framesize).1
                  (spec_pll_tuple h jpeg framesize).2.1
                  (spec_pll_tuple h jpeg framesize).2.2.1 false 0) 2)
              (spec_pll_tuple h jpeg framesize).2.2.2
            SYSCLK := Int.tdiv
              (spec_PLLCLK xclk false (spec_pll_tuple h jpeg framesize).1
                (spec_pll_tuple h jpeg framesize).2.1
                (spec_pll_tuple h jpeg framesize).2.2.1 false 0) 4 } ∧
    ov5642_calc_sysclk xclk false (spec_pll_tuple h jpeg framesize).1
        (spec_pll_tuple h jpeg framesize).2.1 (spec_pll_tuple h jpeg framesize).2.2.1
        false 0 true (spec_pll_tuple h jpeg framesize).2.2.2
      = some (Int.tdiv
          (spec_PLLCLK xclk false (spec_pll_tuple h jpeg framesize).1
            (spec_pll_tuple h jpeg framesize).2.1 (spec_pll_tuple h jpeg framesize).2.2.1
            false 0) 4) := by
  obtain ⟨r1, r2, r3, r4⟩ := spec_pll_tuple_range h jpeg framesize
  have hr := pll_tuple_in_range h jpeg framesize xclk h0 h1
  have hdiv : (spec_pll_tuple h jpeg framesize).2.2.2 ≠ 0 := by
    unfold spec_pll_tuple
    split_ifs <;> decide
  have hpclk : (if true && decide ((spec_pll_tuple h jpeg framesize).2.2.2 ≠ 0)
      then (spec_pll_tuple h jpeg framesize).2.2.2 else 1)
      = (spec_pll_tuple h jpeg framesize).2.2.2 := by
    simp only [Bool.true_and, decide_eq_true_eq, ne_eq, hdiv, not_false_eq_true, if_true]
  refine ⟨hr, ?_, ?_, ?_, ?_, ?_, ?_⟩
  · obtain ⟨e, hpos⟩ := c_index_pre_div _ r3.1 r3.2
    exact ⟨_, e, ne_of_gt hpos⟩
  · exact ⟨2, by decide, by decide⟩
  · split <;> omega
  · rw [hpclk]
    exact hdiv
  · rw [calc_clocks_eq_spec xclk _ _ _ 0 _ false true h0 r1.1 r2.1 r3 (by decide) hr, hpclk]
  · exact calc_sysclk_eq_spec xclk _ _ _ 0 _ false false true h0 r1.1 r2.1 r3 (by decide) hr

/-- C25, at the largest input clock 24 MHz for the JPEG parameter set of the other frame
sizes (30, 1, 3, 10): the computation returns VCO 288000, PLLCLK 288000000, PCLK 14400000
and SYSCLK 72000000. -/
theorem calc_sysclk_exact_for_pll_table_witness :
    spec_pll_tuple sample_headers true 5 = (30, 1, 3, 10) ∧
    calc_clocks 24000000 false 30 1 3 false 0 true 10
      = some { VCO := 288000, PLLCLK := 288000000, PCLK := 14400000, SYSCLK := 72000000 } ∧
    ov5642_calc_sysclk 24000000 false (spec_pll_tuple sample_headers true 5).1
        (spec_pll_tuple sample_headers true 5).2.1 (spec_pll_tuple sample_headers true 5).2.2.1
        false 0 true (spec_pll_tuple sample_headers true 5).2.2.2
      = some (Int.tdiv
          (spec_PLLCLK 24000000 false (spec_pll_tuple sample_headers true 5).1
            (spec_pll_tuple sample_headers true 5).2.1
            (spec_pll_tuple sample_headers true 5).2.2.1 false 0) 4) :=
  ⟨by decide, by decide,
    (calc_sysclk_exact_for_pll_table sample_headers true 5 24000000 (by decide)
      (by decide)).2.2.2.2.2.2⟩

end OV5642
